import Mathlib

/-!
# AIMEX device communication engine: a shallow embedding

The development embeds `src/src/serialport.cpp` (class `makcu::SerialPort`, the
Transport), `src/src/makcu.cpp` (class `makcu::Device`, the protocol engine) and
`src/src/usb_sender.cpp` (class `USBSender`, the caller that sends movements)
as state-passing Lean functions, and proves properties of them.

Modelling conventions.

* The `_WIN32` branches of `serialport.cpp` are the ones embedded (the other
  branches are stubs that return `false`).
* The operating system is an oracle `OS`: the reply to a Win32 call is a
  function of the whole history of earlier calls and of the call itself.
  Quantifying over every `OS` quantifies over every behaviour of the host.
* A `std::string` is a Lean `String`; one `Char` stands for one C++ `char`, and
  the conversion to `std::vector<uint8_t>` takes the code of each character
  modulo 256.
* `std::mutex` is a flag; a call that locks a mutex that is already held does
  not complete (a relock by the owner is undefined in C++: in practice the
  thread blocks for ever or the lock fails with `std::system_error`); it has no
  result, which is the `none` of the `Option` every operation lives in.
* The `DWORD` byte counts handed to `WriteFile` and `ReadFile`, and the
  `bytesWritten` that `WriteFile` reports, are taken modulo 2^32.
* `std::cout` output and `sleep_for` delays are not modelled.
* A `float` is an IEEE 754 binary32 value (`CFloat`); a product is rounded to
  the nearest value, ties to even.
* Calls of `Device` and turns of the listener thread are atomic steps that
  interleave in any order (`Device.Call`, `Device.runCalls`); the mutex of
  `Device::Impl`, which only serialises `connect` and `disconnect`, and the
  unused `buttonMutex` are left out. `join()` ends the listener thread.
* The button callback is foreign code: the state only says whether one is
  registered, and its invocations are recorded; it is taken not to throw.
* Ghost fields record what happened: `SerialPort.oscalls` (every Win32 call,
  with the state of the lock when it was made), `SerialPort.log` (every call of
  a `SerialPort` method that takes the lock, with its result) and
  `Device.Impl.callbackLog` (every invocation of the button callback).
-/

namespace makcu

/-! ## The operating system -/

/-- Win32 calls made by `serialport.cpp`; `none` is `INVALID_HANDLE_VALUE`. -/
inductive OsCall where
  | CreateFileA (fullPortName : String)
  | CloseHandle (h : Option Nat)
  | GetCommState (h : Option Nat)
  | SetCommState (h : Option Nat) (dcbBaudRate : Nat)
  | SetCommTimeouts (h : Option Nat) (writeTotalTimeoutConstant : Nat)
  | WriteFile (h : Option Nat) (data : List Nat)
  | ReadFile (h : Option Nat) (maxBytes : Nat)
  | ClearCommError (h : Option Nat)
  | FlushFileBuffers (h : Option Nat)
  deriving DecidableEq

/-- Reply of the host to one call. `ok` is the `BOOL` result (for `CreateFileA`:
the handle is valid); `value` is the handle, `bytesWritten`, `cbInQue` or the
`BaudRate` of the fetched DCB; `bytes` is what `ReadFile` stored. -/
structure OsReply where
  ok : Bool
  value : Nat
  bytes : List Nat
  deriving DecidableEq

/-- One recorded Win32 call and whether `m_mutex` was held when it was made. -/
structure OsEvent where
  call : OsCall
  lockHeld : Bool
  deriving DecidableEq

/-- The host: the reply to a call given everything that was called before. -/
abbrev OS := List OsEvent → OsCall → OsReply

/-! ## Transport: `SerialPort` -/

/-- A call of a locking `SerialPort` method together with what it returned. -/
inductive TOp where
  | open (port : String) (baudRate : Nat) (result : Bool)
  | close
  | setBaudRate (baudRate : Nat) (result : Bool)
  | write (data : List Nat) (result : Bool)
  | read (maxBytes : Nat) (result : List Nat)
  | available (result : Nat)
  | flush (result : Bool)
  deriving DecidableEq

/-- Fields of `class SerialPort` (`serialport.h`), and the two ghost traces. -/
structure SerialPort where
  m_portName : String
  m_baudRate : Nat
  m_timeout : Nat
  m_isOpen : Bool
  m_mutex : Bool
  m_handle : Option Nat
  m_dcb_BaudRate : Nat
  oscalls : List OsEvent
  log : List TOp
  deriving DecidableEq

namespace SerialPort

/-- `SerialPort::SerialPort()`. -/
def new : SerialPort :=
  { m_portName := "", m_baudRate := 115200, m_timeout := 1000, m_isOpen := false,
    m_mutex := false, m_handle := none, m_dcb_BaudRate := 0, oscalls := [], log := [] }

/-- Constructing `std::lock_guard<std::mutex> lock(m_mutex)`: blocks for ever
when the mutex is held (only the blocked caller could release it). -/
def lock (sp : SerialPort) : Option SerialPort :=
  if sp.m_mutex then none else some { sp with m_mutex := true }

/-- Destroying the `lock_guard`. -/
def unlock (sp : SerialPort) : SerialPort :=
  { sp with m_mutex := false }

/-- Perform one Win32 call: ask the host and record the call. -/
def oscall (os : OS) (sp : SerialPort) (c : OsCall) : OsReply × SerialPort :=
  (os sp.oscalls c, { sp with oscalls := sp.oscalls ++ [⟨c, sp.m_mutex⟩] })

/-- Ghost: record a finished method call. -/
def record (sp : SerialPort) (op : TOp) : SerialPort :=
  { sp with log := sp.log ++ [op] }

/-- `SerialPort::updateTimeouts` (the result of `SetCommTimeouts` is dropped). -/
def updateTimeouts (os : OS) (sp : SerialPort) : SerialPort :=
  (sp.oscall os (.SetCommTimeouts sp.m_handle sp.m_timeout)).2

/-- `SerialPort::configurePort`. -/
def configurePort (os : OS) (sp : SerialPort) : Bool × SerialPort :=
  let (r, sp) := sp.oscall os (.GetCommState sp.m_handle)
  if !r.ok then (false, sp) else
  let sp := { sp with m_dcb_BaudRate := sp.m_baudRate }
  let (r, sp) := sp.oscall os (.SetCommState sp.m_handle sp.m_dcb_BaudRate)
  if !r.ok then (false, sp) else
  (true, sp.updateTimeouts os)

/-- `SerialPort::isOpen`. -/
def isOpen (sp : SerialPort) : Bool := sp.m_isOpen

/-- `SerialPort::getPortName`. -/
def getPortName (sp : SerialPort) : String := sp.m_portName

/-- `SerialPort::getBaudRate`. -/
def getBaudRate (sp : SerialPort) : Nat := sp.m_baudRate

/-- `SerialPort::close`. -/
def close (os : OS) (sp : SerialPort) : Option SerialPort := do
  let sp ← sp.lock
  if !sp.m_isOpen then
    return (sp.record .close).unlock
  let sp :=
    if sp.m_handle ≠ none then
      { (sp.oscall os (.CloseHandle sp.m_handle)).2 with m_handle := none }
    else sp
  let sp := { sp with m_isOpen := false }
  return (sp.record .close).unlock

/-- `SerialPort::open`. The inner `close()` is called with `m_mutex` held. -/
def «open» (os : OS) (sp : SerialPort) (port : String) (baudRate : Nat) :
    Option (Bool × SerialPort) := do
  let sp ← sp.lock
  let sp ← if sp.m_isOpen then sp.close os else pure sp
  let sp := { sp with m_portName := port, m_baudRate := baudRate }
  let fullPortName := "\\\\.\\" ++ port
  let (r, sp) := sp.oscall os (.CreateFileA fullPortName)
  let sp := { sp with m_handle := if r.ok then some r.value else none }
  if sp.m_handle = none then
    return (false, (sp.record (.open port baudRate false)).unlock)
  let sp := { sp with m_isOpen := true }
  let (ok, sp) := sp.configurePort os
  if !ok then
    let sp := (sp.oscall os (.CloseHandle sp.m_handle)).2
    let sp := { sp with m_handle := none, m_isOpen := false }
    return (false, (sp.record (.open port baudRate false)).unlock)
  return (true, (sp.record (.open port baudRate true)).unlock)

/-- `SerialPort::setBaudRate`. -/
def setBaudRate (os : OS) (sp : SerialPort) (baudRate : Nat) : Option (Bool × SerialPort) := do
  let sp ← sp.lock
  if !sp.m_isOpen then
    let sp := { sp with m_baudRate := baudRate }
    return (true, (sp.record (.setBaudRate baudRate true)).unlock)
  let sp := { sp with m_baudRate := baudRate }
  let sp := { sp with m_dcb_BaudRate := baudRate }
  let (r, sp) := sp.oscall os (.SetCommState sp.m_handle sp.m_dcb_BaudRate)
  return (r.ok, (sp.record (.setBaudRate baudRate r.ok)).unlock)

/-- `SerialPort::write(const std::vector<uint8_t>&)`. The count handed to
`WriteFile` is `static_cast<DWORD>(data.size())` and `bytesWritten` is a `DWORD`:
both are 32-bit values, so the host is offered the first `data.size() mod 2^32`
bytes. -/
def write (os : OS) (sp : SerialPort) (data : List Nat) : Option (Bool × SerialPort) := do
  let sp ← sp.lock
  if !sp.m_isOpen || data.isEmpty then
    return (false, (sp.record (.write data false)).unlock)
  let nNumberOfBytesToWrite := data.length % 4294967296
  let (r, sp) := sp.oscall os (.WriteFile sp.m_handle (data.take nNumberOfBytesToWrite))
  let bytesWritten := r.value % 4294967296
  let res := r.ok && bytesWritten == data.length
  return (res, (sp.record (.write data res)).unlock)

/-- Conversion `std::vector<uint8_t> bytes(data.begin(), data.end())`. -/
def bytesOf (data : String) : List Nat :=
  data.toList.map (fun c => c.toNat % 256)

/-- `SerialPort::write(const std::string&)`. -/
def writeString (os : OS) (sp : SerialPort) (data : String) : Option (Bool × SerialPort) :=
  sp.write os (bytesOf data)

/-- `SerialPort::read`. The count handed to `ReadFile` is
`static_cast<DWORD>(maxBytes)`, a 32-bit value; the host stores at most that
many bytes. -/
def read (os : OS) (sp : SerialPort) (maxBytes : Nat) : Option (List Nat × SerialPort) := do
  let sp ← sp.lock
  if !sp.m_isOpen || maxBytes == 0 then
    return ([], (sp.record (.read maxBytes [])).unlock)
  let nNumberOfBytesToRead := maxBytes % 4294967296
  let (r, sp) := sp.oscall os (.ReadFile sp.m_handle nNumberOfBytesToRead)
  let stored := (r.bytes.take nNumberOfBytesToRead).map (· % 256)
  let bytesRead := stored.length
  let buffer := if r.ok && bytesRead > 0 then stored else []
  return (buffer, (sp.record (.read maxBytes buffer)).unlock)

/-- Conversion `std::string(data.begin(), data.end())`. -/
def stringOf (data : List Nat) : String :=
  String.mk (data.map Char.ofNat)

/-- `SerialPort::readString`. -/
def readString (os : OS) (sp : SerialPort) (maxBytes : Nat) : Option (String × SerialPort) := do
  let (data, sp) ← sp.read os maxBytes
  return (stringOf data, sp)

/-- `SerialPort::writeByte`. -/
def writeByte (os : OS) (sp : SerialPort) (byte : Nat) : Option (Bool × SerialPort) :=
  sp.write os [byte]

/-- `SerialPort::readByte`: `none` in the first component is the `false` result,
`some b` is `true` with `byte = b`. -/
def readByte (os : OS) (sp : SerialPort) : Option (Option Nat × SerialPort) := do
  let (data, sp) ← sp.read os 1
  match data with
  | b :: _ => return (some b, sp)
  | [] => return (none, sp)

/-- `SerialPort::available`. -/
def available (os : OS) (sp : SerialPort) : Option (Nat × SerialPort) := do
  let sp ← sp.lock
  if !sp.m_isOpen then
    return (0, (sp.record (.available 0)).unlock)
  let (r, sp) := sp.oscall os (.ClearCommError sp.m_handle)
  if r.ok then
    let cbInQue := r.value
    return (cbInQue, (sp.record (.available cbInQue)).unlock)
  return (0, (sp.record (.available 0)).unlock)

/-- `SerialPort::flush`. -/
def flush (os : OS) (sp : SerialPort) : Option (Bool × SerialPort) := do
  let sp ← sp.lock
  if !sp.m_isOpen then
    return (false, (sp.record (.flush false)).unlock)
  let (r, sp) := sp.oscall os (.FlushFileBuffers sp.m_handle)
  return (r.ok, (sp.record (.flush r.ok)).unlock)

/-- `SerialPort::setTimeout` (takes no lock). -/
def setTimeout (os : OS) (sp : SerialPort) (timeoutMs : Nat) : SerialPort :=
  let sp := { sp with m_timeout := timeoutMs }
  if sp.m_isOpen then sp.updateTimeouts os else sp

/-- `SerialPort::getTimeout`. -/
def getTimeout (sp : SerialPort) : Nat := sp.m_timeout

end SerialPort

/-! ## Port discovery -/

/-- One device of the ports class as `SetupDiEnumDeviceInfo` presents it:
`description` is the `SPDRP_DEVICEDESC` property (`none` when the query fails),
`portName` the `PortName` registry value (`none` when the key or the value
cannot be read). -/
structure PortsDevice where
  description : Option String
  portName : Option String
  deriving DecidableEq

/-- What the host shows to the two enumeration functions: the `REG_SZ` values
under `HARDWARE\DEVICEMAP\SERIALCOMM` in enumeration order (empty when the key
cannot be opened) and the devices of the ports class (`none` when
`SetupDiGetClassDevs` fails). -/
structure Host where
  serialcomm : List String
  portsClass : Option (List PortsDevice)
  deriving DecidableEq

/-- `a <= b` for the characters of two `std::string`s: lexicographic order on
the character codes. -/
def charsLe : List Char → List Char → Bool
  | [], _ => true
  | _ :: _, [] => false
  | a :: as, b :: bs => a.toNat < b.toNat || (a.toNat == b.toNat && charsLe as bs)

/-- Insert a string into a sorted list. -/
def insertString (a : String) : List String → List String
  | [] => [a]
  | b :: l => if charsLe a.toList b.toList then a :: b :: l else b :: insertString a l

/-- `std::sort` on a `std::vector<std::string>`. -/
def sortStrings (l : List String) : List String :=
  l.foldr insertString []

/-- `v.erase(std::unique(v.begin(), v.end()), v.end())`. -/
def uniqueStrings : List String → List String
  | [] => []
  | [a] => [a]
  | a :: b :: t => if a = b then uniqueStrings (b :: t) else a :: uniqueStrings (b :: t)

/-- `haystack.find(needle) != std::string::npos`. -/
def strContains (haystack needle : String) : Bool :=
  haystack.toList.tails.any (fun t => needle.toList.isPrefixOf t)

/-- `SerialPort::getAvailablePorts`. -/
def SerialPort.getAvailablePorts (h : Host) : List String :=
  sortStrings h.serialcomm

/-- `SerialPort::findMakcuPorts`. -/
def SerialPort.findMakcuPorts (h : Host) : List String :=
  let allPorts := SerialPort.getAvailablePorts h
  match h.portsClass with
  | none => []
  | some devices =>
    let makcuPorts := devices.filterMap (fun dev =>
      match dev.description with
      | none => none
      | some desc =>
        if strContains desc "USB-Enhanced-SERIAL CH343" || strContains desc "USB-SERIAL CH340" then
          match dev.portName with
          | none => none
          | some port => if port ∈ allPorts then some port else none
        else none)
    uniqueStrings (sortStrings makcuPorts)

/-! ## Protocol engine: `Device` -/

/-- `enum class MouseButton` (`makcu.h`). -/
inductive MouseButton where
  | LEFT | RIGHT | MIDDLE | SIDE1 | SIDE2
  deriving DecidableEq

/-- The underlying value of a `MouseButton`. -/
def MouseButton.toNat : MouseButton → Nat
  | .LEFT => 0 | .RIGHT => 1 | .MIDDLE => 2 | .SIDE1 => 3 | .SIDE2 => 4

/-- `static_cast<MouseButton>(bit)` for the values the listener passes. -/
def MouseButton.ofBit : Nat → MouseButton
  | 0 => .LEFT | 1 => .RIGHT | 2 => .MIDDLE | 3 => .SIDE1 | _ => .SIDE2

/-- `enum class ConnectionStatus` (`makcu.h`). -/
inductive ConnectionStatus where
  | DISCONNECTED | CONNECTING | CONNECTED | CONNECTION_ERROR
  deriving DecidableEq

/-- `struct DeviceInfo` (`makcu.h`). -/
structure DeviceInfo where
  port : String
  description : String
  vid : Nat
  pid : Nat
  isConnected : Bool
  deriving DecidableEq

def MAKCU_VID : Nat := 0x1A86
def MAKCU_PID : Nat := 0x55D3
def TARGET_DESC : String := "USB-Enhanced-SERIAL CH343"
def DEFAULT_NAME : String := "USB-SERIAL CH340"
def INITIAL_BAUD_RATE : Nat := 115200
def HIGH_SPEED_BAUD_RATE : Nat := 4000000

/-- Baud rate change command. -/
def BAUD_CHANGE_COMMAND : List Nat := [0xDE, 0xAD, 0x05, 0x00, 0xA5, 0x00, 0x09, 0x3D, 0x00]

/-- The running `monitorThread`: the local variable of `monitoringLoop`. -/
structure MonitorThread where
  lastValue : Nat
  deriving DecidableEq

/-- Fields of `class Device::Impl`. `monitorThread` is `none` when the thread
object is not joinable; `mouseButtonCallback` says whether the `std::function`
holds a target; the ghost field `callbackLog` lists its invocations. -/
structure Device.Impl where
  serialPort : SerialPort
  deviceInfo : DeviceInfo
  status : ConnectionStatus
  connected : Bool
  monitoring : Bool
  monitorThread : Option MonitorThread
  mouseButtonCallback : Bool
  currentButtonMask : Nat
  callbackLog : List (MouseButton × Bool)
  deriving DecidableEq

namespace Device

/-- `Device::Device()` with `Impl::Impl()`: `deviceInfo.vid` and `.pid` are left
uninitialised, so their first values are parameters. -/
def Impl.new (vid pid : Nat) : Impl :=
  { serialPort := SerialPort.new,
    deviceInfo := { port := "", description := "", vid := vid, pid := pid, isConnected := false },
    status := .DISCONNECTED, connected := false, monitoring := false, monitorThread := none,
    mouseButtonCallback := false, currentButtonMask := 0, callbackLog := [] }

/-- `Device::Impl::switchToHighSpeedMode`. -/
def Impl.switchToHighSpeedMode (os : OS) (d : Impl) : Option (Bool × Impl) := do
  if !d.serialPort.isOpen then
    return (false, d)
  -- Send baud rate change command
  let (ok, sp) ← d.serialPort.write os BAUD_CHANGE_COMMAND
  let d := { d with serialPort := sp }
  if !ok then
    return (false, d)
  let (ok, sp) ← d.serialPort.flush os
  let d := { d with serialPort := sp }
  if !ok then
    return (false, d)
  -- Close and reopen at high speed
  let portName := d.serialPort.getPortName
  let sp ← d.serialPort.close os
  let d := { d with serialPort := sp }
  let (ok, sp) ← d.serialPort.open os portName HIGH_SPEED_BAUD_RATE
  let d := { d with serialPort := sp }
  if !ok then
    return (false, d)
  return (true, d)

/-- `Device::Impl::initializeDevice`. -/
def Impl.initializeDevice (os : OS) (d : Impl) : Option (Bool × Impl) := do
  if !d.serialPort.isOpen then
    return (false, d)
  -- Enable button monitoring
  let cmd := "km.buttons(1)\r"
  let (ok, sp) ← d.serialPort.writeString os cmd
  let d := { d with serialPort := sp }
  if !ok then
    return (false, d)
  let (ok, sp) ← d.serialPort.flush os
  let d := { d with serialPort := sp }
  if !ok then
    return (false, d)
  return (true, d)

/-- `Device::Impl::startMonitoring`. Assigning a new `std::thread` to a
joinable `monitorThread` calls `std::terminate`, so that case does not return. -/
def Impl.startMonitoring (d : Impl) : Option Impl :=
  if d.monitoring then
    some d
  else
    let d := { d with monitoring := true }
    if d.monitorThread.isSome then none
    else some { d with monitorThread := some { lastValue := 0 } }

/-- `Device::Impl::stopMonitoring`; `join()` ends the thread. -/
def Impl.stopMonitoring (d : Impl) : Impl :=
  if !d.monitoring then
    d
  else
    let d := { d with monitoring := false }
    if d.monitorThread.isSome then { d with monitorThread := none } else d

/-- The loop of `Device::Impl::processButtonData` from `bit` up to 4, `n` being
the number of bits left; the callback invocation is recorded. -/
def Impl.reportBits (data : Nat) : Nat → Nat → Impl → Impl
  | 0, _, d => d
  | n + 1, bit, d =>
    let isPressed := (data &&& (1 <<< bit)) != 0
    let button := MouseButton.ofBit bit
    Impl.reportBits data n (bit + 1) { d with callbackLog := d.callbackLog ++ [(button, isPressed)] }

/-- `Device::Impl::processButtonData`. -/
def Impl.processButtonData (d : Impl) (data : Nat) : Bool × Impl :=
  -- Store the current button mask atomically
  let d := { d with currentButtonMask := data }
  let d := if d.mouseButtonCallback then Impl.reportBits data 5 0 d else d
  (true, d)

/-- `Device::Impl::getCurrentButtonMask`. -/
def Impl.getCurrentButtonMask (d : Impl) : Nat := d.currentButtonMask

/-- The body of the `while` loop of `Device::Impl::monitoringLoop`; the result
is the new `lastValue`. -/
def Impl.monitoringLoopBody (os : OS) (d : Impl) (lastValue : Nat) : Option (Nat × Impl) := do
  let (n, sp) ← d.serialPort.available os
  let d := { d with serialPort := sp }
  if n > 0 then
    let (r, sp) ← d.serialPort.readByte os
    let d := { d with serialPort := sp }
    match r with
    | some byte =>
      if byte ≠ lastValue then
        let (_, d) := d.processButtonData byte
        return (byte, d)
      else
        return (lastValue, d)
    | none => return (lastValue, d)
  else
    return (lastValue, d)

/-- One turn of the listener thread: the loop condition of `monitoringLoop` and,
when it holds, the loop body. A thread that is not running does nothing. -/
def Impl.monitorStep (os : OS) (d : Impl) : Option Impl :=
  match d.monitorThread with
  | none => some d
  | some t =>
    if d.monitoring && d.connected then do
      let (lastValue, d) ← d.monitoringLoopBody os t.lastValue
      return { d with monitorThread := some { lastValue := lastValue } }
    else
      some d

/-- `Device::findDevices`. -/
def findDevices (h : Host) : List DeviceInfo :=
  (SerialPort.findMakcuPorts h).map (fun port =>
    { port := port, description := TARGET_DESC, vid := MAKCU_VID, pid := MAKCU_PID,
      isConnected := false })

/-- `Device::findFirstDevice`. -/
def findFirstDevice (h : Host) : String :=
  match findDevices h with
  | dev :: _ => dev.port
  | [] => ""

/-- `Device::connect`. -/
def connect (os : OS) (h : Host) (port : String) (d : Impl) : Option (Bool × Impl) := do
  if d.connected then
    return (true, d)
  let targetPort := if port.isEmpty then findFirstDevice h else port
  if port.isEmpty && targetPort.isEmpty then
    return (false, { d with status := .CONNECTION_ERROR })
  let d := { d with status := .CONNECTING }
  -- Try to open at initial baud rate
  let (ok, sp) ← d.serialPort.open os targetPort INITIAL_BAUD_RATE
  let d := { d with serialPort := sp }
  if !ok then
    return (false, { d with status := .CONNECTION_ERROR })
  -- Switch to high-speed mode
  let (ok, d) ← d.switchToHighSpeedMode os
  if !ok then
    let sp ← d.serialPort.close os
    return (false, { d with serialPort := sp, status := .CONNECTION_ERROR })
  -- Initialize the device
  let (ok, d) ← d.initializeDevice os
  if !ok then
    let sp ← d.serialPort.close os
    return (false, { d with serialPort := sp, status := .CONNECTION_ERROR })
  -- Update device info
  let d := { d with deviceInfo := { port := targetPort, description := TARGET_DESC,
                                    vid := MAKCU_VID, pid := MAKCU_PID, isConnected := true } }
  let d := { d with connected := true, status := .CONNECTED }
  -- Start monitoring thread
  let d ← d.startMonitoring
  return (true, d)

/-- `Device::disconnect`. -/
def disconnect (os : OS) (d : Impl) : Option Impl := do
  if !d.connected then
    return d
  let d := d.stopMonitoring
  let sp ← d.serialPort.close os
  let d := { d with serialPort := sp }
  let d := { d with connected := false, status := .DISCONNECTED }
  let d := { d with deviceInfo := { d.deviceInfo with isConnected := false } }
  return { d with currentButtonMask := 0 }

/-- `Device::isConnected`. -/
def isConnected (d : Impl) : Bool := d.connected

/-- `Device::getStatus`. -/
def getStatus (d : Impl) : ConnectionStatus := d.status

/-- `Device::getDeviceInfo`. -/
def getDeviceInfo (d : Impl) : DeviceInfo := d.deviceInfo

/-- `Device::setMouseButtonCallback`; `callback` says whether the function
object passed in holds a target. -/
def setMouseButtonCallback (d : Impl) (callback : Bool) : Impl :=
  { d with mouseButtonCallback := callback }

/-- `Device::sendRawCommand`. -/
def sendRawCommand (os : OS) (command : String) (d : Impl) : Option (Bool × Impl) := do
  if !d.connected then
    return (false, d)
  let (ok, sp) ← d.serialPort.writeString os command
  return (ok, { d with serialPort := sp })

/-- `Device::receiveRawResponse`. -/
def receiveRawResponse (os : OS) (d : Impl) : Option (String × Impl) := do
  if !d.connected then
    return ("", d)
  let (s, sp) ← d.serialPort.readString os 1024
  return (s, { d with serialPort := sp })

/-- `Device::setBaudRate`. -/
def setBaudRate (os : OS) (baudRate : Nat) (d : Impl) : Option (Bool × Impl) := do
  if !d.connected then
    return (false, d)
  let (ok, sp) ← d.serialPort.setBaudRate os baudRate
  return (ok, { d with serialPort := sp })

/-- `Device::getButtonMask`. -/
def getButtonMask (d : Impl) : Nat :=
  if !d.connected then 0 else d.getCurrentButtonMask

/-! ### Text formatting and parsing helpers of the standard library -/

/-- `std::ostream << v` for an integer `v` (signed or unsigned): decimal. -/
def ostreamInt (v : Int) : String := toString v

/-- `std::isspace` in the "C" locale. -/
def isspace (c : Char) : Bool :=
  c.toNat = 32 || (9 ≤ c.toNat && c.toNat ≤ 13)

/-- The optional sign `std::stoi` reads: whether it is `-`, and the text after
it. -/
def stoiSign : List Char → Bool × List Char
  | '-' :: t => (true, t)
  | '+' :: t => (false, t)
  | cs => (false, cs)

/-- `std::stoi(str)`: skip white space, read an optional sign and the longest run
of decimal digits; `none` stands for the exception thrown when there is no digit
(`std::invalid_argument`) or the value does not fit an `int`
(`std::out_of_range`). -/
def stoi (str : String) : Option Int :=
  let cs := str.toList.dropWhile isspace
  let (neg, cs) := stoiSign cs
  let ds := cs.takeWhile Char.isDigit
  if ds.isEmpty then none else
  let n : Nat := ds.foldl (fun a c => 10 * a + (c.toNat - 48)) 0
  let v : Int := if neg then -(n : Int) else (n : Int)
  if v < -2147483648 ∨ 2147483647 < v then none else some v

/-- `static_cast<uint8_t>(v)`. -/
def castUInt8 (v : Int) : Nat := (v % 256).toNat

/-! ### Typed commands -/

/-- `Device::getVersion`. -/
def getVersion (os : OS) (d : Impl) : Option (String × Impl) := do
  if !d.connected then
    return ("", d)
  let (ok, d) ← sendRawCommand os "km.version()\r" d
  if ok then
    receiveRawResponse os d
  else
    return ("", d)

/-- `Device::mouseDown`. -/
def mouseDown (os : OS) (button : MouseButton) (d : Impl) : Option (Bool × Impl) :=
  if !d.connected then some (false, d) else
  match button with
  | .LEFT => sendRawCommand os "km.left(1)\r" d
  | .RIGHT => sendRawCommand os "km.right(1)\r" d
  | .MIDDLE => sendRawCommand os "km.middle(1)\r" d
  | _ => some (false, d) -- Side buttons not supported based on test results

/-- `Device::mouseUp`. -/
def mouseUp (os : OS) (button : MouseButton) (d : Impl) : Option (Bool × Impl) :=
  if !d.connected then some (false, d) else
  match button with
  | .LEFT => sendRawCommand os "km.left(0)\r" d
  | .RIGHT => sendRawCommand os "km.right(0)\r" d
  | .MIDDLE => sendRawCommand os "km.middle(0)\r" d
  | _ => some (false, d) -- Side buttons not supported based on test results

/-- The command text chosen by the `switch` of `Device::mouseButtonState`. -/
def mouseButtonStateCmd : MouseButton → Option String
  | .LEFT => some "km.left()\r"
  | .RIGHT => some "km.right()\r"
  | .MIDDLE => some "km.middle()\r"
  | _ => none -- Side buttons not supported based on test results

/-- `Device::mouseButtonState`. -/
def mouseButtonState (os : OS) (button : MouseButton) (d : Impl) : Option (Bool × Impl) := do
  if !d.connected then
    return (false, d)
  match mouseButtonStateCmd button with
  | none => return (false, d)
  | some cmd =>
    let (ok, d) ← sendRawCommand os cmd d
    if ok then
      let (response, d) ← receiveRawResponse os d
      return (strContains response "1", d)
    return (false, d)

/-- `Device::mouseMove`. -/
def mouseMove (os : OS) (x y : Int) (d : Impl) : Option (Bool × Impl) :=
  if !d.connected then some (false, d) else
  sendRawCommand os ("km.move(" ++ ostreamInt x ++ "," ++ ostreamInt y ++ ")\r") d

/-- `Device::mouseMoveSmooth`. -/
def mouseMoveSmooth (os : OS) (x y : Int) (segments : Nat) (d : Impl) : Option (Bool × Impl) :=
  if !d.connected then some (false, d) else
  sendRawCommand os
    ("km.move(" ++ ostreamInt x ++ "," ++ ostreamInt y ++ "," ++ ostreamInt segments ++ ")\r") d

/-- `Device::mouseMoveBezier`. -/
def mouseMoveBezier (os : OS) (x y : Int) (segments : Nat) (ctrl_x ctrl_y : Int) (d : Impl) :
    Option (Bool × Impl) :=
  if !d.connected then some (false, d) else
  sendRawCommand os
    ("km.move(" ++ ostreamInt x ++ "," ++ ostreamInt y ++ "," ++ ostreamInt segments ++ ","
      ++ ostreamInt ctrl_x ++ "," ++ ostreamInt ctrl_y ++ ")\r") d

/-- `Device::mouseWheel`. -/
def mouseWheel (os : OS) (delta : Int) (d : Impl) : Option (Bool × Impl) :=
  if !d.connected then some (false, d) else
  sendRawCommand os ("km.wheel(" ++ ostreamInt delta ++ ")\r") d

/-- `Device::lockMouseX`. -/
def lockMouseX (os : OS) (lock : Bool) (d : Impl) : Option (Bool × Impl) :=
  if !d.connected then some (false, d) else
  sendRawCommand os ("km.lock_mx(" ++ ostreamInt (if lock then 1 else 0) ++ ")\r") d

/-- `Device::lockMouseY`. -/
def lockMouseY (os : OS) (lock : Bool) (d : Impl) : Option (Bool × Impl) :=
  if !d.connected then some (false, d) else
  sendRawCommand os ("km.lock_my(" ++ ostreamInt (if lock then 1 else 0) ++ ")\r") d

/-- `Device::lockMouseLeft`. -/
def lockMouseLeft (os : OS) (lock : Bool) (d : Impl) : Option (Bool × Impl) :=
  if !d.connected then some (false, d) else
  sendRawCommand os ("km.lock_ml(" ++ ostreamInt (if lock then 1 else 0) ++ ")\r") d

/-- `Device::lockMouseMiddle`. -/
def lockMouseMiddle (os : OS) (lock : Bool) (d : Impl) : Option (Bool × Impl) :=
  if !d.connected then some (false, d) else
  sendRawCommand os ("km.lock_mm(" ++ ostreamInt (if lock then 1 else 0) ++ ")\r") d

/-- `Device::lockMouseRight`. -/
def lockMouseRight (os : OS) (lock : Bool) (d : Impl) : Option (Bool × Impl) :=
  if !d.connected then some (false, d) else
  sendRawCommand os ("km.lock_mr(" ++ ostreamInt (if lock then 1 else 0) ++ ")\r") d

/-- `Device::lockMouseSide1`. -/
def lockMouseSide1 (os : OS) (lock : Bool) (d : Impl) : Option (Bool × Impl) :=
  if !d.connected then some (false, d) else
  sendRawCommand os ("km.lock_ms1(" ++ ostreamInt (if lock then 1 else 0) ++ ")\r") d

/-- `Device::lockMouseSide2`. -/
def lockMouseSide2 (os : OS) (lock : Bool) (d : Impl) : Option (Bool × Impl) :=
  if !d.connected then some (false, d) else
  sendRawCommand os ("km.lock_ms2(" ++ ostreamInt (if lock then 1 else 0) ++ ")\r") d

/-- `Device::isMouseXLocked`. -/
def isMouseXLocked (os : OS) (d : Impl) : Option (Bool × Impl) := do
  if !d.connected then
    return (false, d)
  let (ok, d) ← sendRawCommand os "km.lock_mx()\r" d
  if ok then
    let (response, d) ← receiveRawResponse os d
    return (strContains response "1", d)
  return (false, d)

/-- `Device::isMouseYLocked`. -/
def isMouseYLocked (os : OS) (d : Impl) : Option (Bool × Impl) := do
  if !d.connected then
    return (false, d)
  let (ok, d) ← sendRawCommand os "km.lock_my()\r" d
  if ok then
    let (response, d) ← receiveRawResponse os d
    return (strContains response "1", d)
  return (false, d)

/-- `Device::isMouseLeftLocked`. -/
def isMouseLeftLocked (os : OS) (d : Impl) : Option (Bool × Impl) := do
  if !d.connected then
    return (false, d)
  let (ok, d) ← sendRawCommand os "km.lock_ml()\r" d
  if ok then
    let (response, d) ← receiveRawResponse os d
    return (strContains response "1", d)
  return (false, d)

/-- `Device::isMouseMiddleLocked`. -/
def isMouseMiddleLocked (os : OS) (d : Impl) : Option (Bool × Impl) := do
  if !d.connected then
    return (false, d)
  let (ok, d) ← sendRawCommand os "km.lock_mm()\r" d
  if ok then
    let (response, d) ← receiveRawResponse os d
    return (strContains response "1", d)
  return (false, d)

/-- `Device::isMouseRightLocked`. -/
def isMouseRightLocked (os : OS) (d : Impl) : Option (Bool × Impl) := do
  if !d.connected then
    return (false, d)
  let (ok, d) ← sendRawCommand os "km.lock_mr()\r" d
  if ok then
    let (response, d) ← receiveRawResponse os d
    return (strContains response "1", d)
  return (false, d)

/-- `Device::isMouseSide1Locked`. -/
def isMouseSide1Locked (os : OS) (d : Impl) : Option (Bool × Impl) := do
  if !d.connected then
    return (false, d)
  let (ok, d) ← sendRawCommand os "km.lock_ms1()\r" d
  if ok then
    let (response, d) ← receiveRawResponse os d
    return (strContains response "1", d)
  return (false, d)

/-- `Device::isMouseSide2Locked`. -/
def isMouseSide2Locked (os : OS) (d : Impl) : Option (Bool × Impl) := do
  if !d.connected then
    return (false, d)
  let (ok, d) ← sendRawCommand os "km.lock_ms2()\r" d
  if ok then
    let (response, d) ← receiveRawResponse os d
    return (strContains response "1", d)
  return (false, d)

/-- `Device::catchMouseLeft`. -/
def catchMouseLeft (os : OS) (d : Impl) : Option (Nat × Impl) := do
  if !d.connected then
    return (0, d)
  let (ok, d) ← sendRawCommand os "km.catch_ml()\r" d
  if ok then
    let (response, d) ← receiveRawResponse os d
    match stoi response with
    | some v => return (castUInt8 v, d)
    | none => return (0, d)
  return (0, d)

/-- `Device::catchMouseMiddle`. -/
def catchMouseMiddle (os : OS) (d : Impl) : Option (Nat × Impl) := do
  if !d.connected then
    return (0, d)
  let (ok, d) ← sendRawCommand os "km.catch_mm()\r" d
  if ok then
    let (response, d) ← receiveRawResponse os d
    match stoi response with
    | some v => return (castUInt8 v, d)
    | none => return (0, d)
  return (0, d)

/-- `Device::catchMouseRight`. -/
def catchMouseRight (os : OS) (d : Impl) : Option (Nat × Impl) := do
  if !d.connected then
    return (0, d)
  let (ok, d) ← sendRawCommand os "km.catch_mr()\r" d
  if ok then
    let (response, d) ← receiveRawResponse os d
    match stoi response with
    | some v => return (castUInt8 v, d)
    | none => return (0, d)
  return (0, d)

/-- `Device::catchMouseSide1`. -/
def catchMouseSide1 (os : OS) (d : Impl) : Option (Nat × Impl) := do
  if !d.connected then
    return (0, d)
  let (ok, d) ← sendRawCommand os "km.catch_ms1()\r" d
  if ok then
    let (response, d) ← receiveRawResponse os d
    match stoi response with
    | some v => return (castUInt8 v, d)
    | none => return (0, d)
  return (0, d)

/-- `Device::catchMouseSide2`. -/
def catchMouseSide2 (os : OS) (d : Impl) : Option (Nat × Impl) := do
  if !d.connected then
    return (0, d)
  let (ok, d) ← sendRawCommand os "km.catch_ms2()\r" d
  if ok then
    let (response, d) ← receiveRawResponse os d
    match stoi response with
    | some v => return (castUInt8 v, d)
    | none => return (0, d)
  return (0, d)

/-- `Device::enableButtonMonitoring`. -/
def enableButtonMonitoring (os : OS) (enable : Bool) (d : Impl) : Option (Bool × Impl) :=
  if !d.connected then some (false, d) else
  sendRawCommand os ("km.buttons(" ++ ostreamInt (if enable then 1 else 0) ++ ")\r") d

/-- `Device::isButtonMonitoringEnabled`. -/
def isButtonMonitoringEnabled (os : OS) (d : Impl) : Option (Bool × Impl) := do
  if !d.connected then
    return (false, d)
  let (ok, d) ← sendRawCommand os "km.buttons()\r" d
  if ok then
    let (response, d) ← receiveRawResponse os d
    return (strContains response "1", d)
  return (false, d)

/-- `Device::getMouseSerial`. -/
def getMouseSerial (os : OS) (d : Impl) : Option (String × Impl) := do
  if !d.connected then
    return ("", d)
  let (ok, d) ← sendRawCommand os "km.serial()\r" d
  if ok then
    receiveRawResponse os d
  else
    return ("", d)

/-- `Device::setMouseSerial`. -/
def setMouseSerial (os : OS) (serial : String) (d : Impl) : Option (Bool × Impl) :=
  if !d.connected then some (false, d) else
  sendRawCommand os ("km.serial('" ++ serial ++ "')\r") d

/-- `Device::resetMouseSerial`. -/
def resetMouseSerial (os : OS) (d : Impl) : Option (Bool × Impl) :=
  if !d.connected then some (false, d) else
  sendRawCommand os "km.serial(0)\r" d

/-! ### The command vocabulary as data -/

/-- Result of a typed command: `bool`, `uint8_t` or `std::string`. -/
inductive Ret where
  | bool (b : Bool)
  | u8 (n : Nat)
  | str (s : String)
  deriving DecidableEq

/-- One call of a typed command method of `Device`, with its arguments. -/
inductive Command where
  | getVersion
  | mouseDown (button : MouseButton)
  | mouseUp (button : MouseButton)
  | mouseButtonState (button : MouseButton)
  | mouseMove (x y : Int)
  | mouseMoveSmooth (x y : Int) (segments : Nat)
  | mouseMoveBezier (x y : Int) (segments : Nat) (ctrl_x ctrl_y : Int)
  | mouseWheel (delta : Int)
  | lockMouseX (lock : Bool)
  | lockMouseY (lock : Bool)
  | lockMouseLeft (lock : Bool)
  | lockMouseMiddle (lock : Bool)
  | lockMouseRight (lock : Bool)
  | lockMouseSide1 (lock : Bool)
  | lockMouseSide2 (lock : Bool)
  | isMouseXLocked
  | isMouseYLocked
  | isMouseLeftLocked
  | isMouseMiddleLocked
  | isMouseRightLocked
  | isMouseSide1Locked
  | isMouseSide2Locked
  | catchMouseLeft
  | catchMouseMiddle
  | catchMouseRight
  | catchMouseSide1
  | catchMouseSide2
  | enableButtonMonitoring (enable : Bool)
  | isButtonMonitoringEnabled
  | getMouseSerial
  | setMouseSerial (serial : String)
  | resetMouseSerial
  deriving DecidableEq

/-- Wrap a `bool` result. -/
def retBool (r : Option (Bool × Impl)) : Option (Ret × Impl) :=
  r.map (fun p => (Ret.bool p.1, p.2))

/-- Wrap a `uint8_t` result. -/
def retU8 (r : Option (Nat × Impl)) : Option (Ret × Impl) :=
  r.map (fun p => (Ret.u8 p.1, p.2))

/-- Wrap a `std::string` result. -/
def retStr (r : Option (String × Impl)) : Option (Ret × Impl) :=
  r.map (fun p => (Ret.str p.1, p.2))

/-- Run the method a `Command` names. -/
def Command.run (os : OS) (c : Command) (d : Impl) : Option (Ret × Impl) :=
  match c with
  | .getVersion => retStr (Device.getVersion os d)
  | .mouseDown b => retBool (Device.mouseDown os b d)
  | .mouseUp b => retBool (Device.mouseUp os b d)
  | .mouseButtonState b => retBool (Device.mouseButtonState os b d)
  | .mouseMove x y => retBool (Device.mouseMove os x y d)
  | .mouseMoveSmooth x y n => retBool (Device.mouseMoveSmooth os x y n d)
  | .mouseMoveBezier x y n cx cy => retBool (Device.mouseMoveBezier os x y n cx cy d)
  | .mouseWheel delta => retBool (Device.mouseWheel os delta d)
  | .lockMouseX l => retBool (Device.lockMouseX os l d)
  | .lockMouseY l => retBool (Device.lockMouseY os l d)
  | .lockMouseLeft l => retBool (Device.lockMouseLeft os l d)
  | .lockMouseMiddle l => retBool (Device.lockMouseMiddle os l d)
  | .lockMouseRight l => retBool (Device.lockMouseRight os l d)
  | .lockMouseSide1 l => retBool (Device.lockMouseSide1 os l d)
  | .lockMouseSide2 l => retBool (Device.lockMouseSide2 os l d)
  | .isMouseXLocked => retBool (Device.isMouseXLocked os d)
  | .isMouseYLocked => retBool (Device.isMouseYLocked os d)
  | .isMouseLeftLocked => retBool (Device.isMouseLeftLocked os d)
  | .isMouseMiddleLocked => retBool (Device.isMouseMiddleLocked os d)
  | .isMouseRightLocked => retBool (Device.isMouseRightLocked os d)
  | .isMouseSide1Locked => retBool (Device.isMouseSide1Locked os d)
  | .isMouseSide2Locked => retBool (Device.isMouseSide2Locked os d)
  | .catchMouseLeft => retU8 (Device.catchMouseLeft os d)
  | .catchMouseMiddle => retU8 (Device.catchMouseMiddle os d)
  | .catchMouseRight => retU8 (Device.catchMouseRight os d)
  | .catchMouseSide1 => retU8 (Device.catchMouseSide1 os d)
  | .catchMouseSide2 => retU8 (Device.catchMouseSide2 os d)
  | .enableButtonMonitoring e => retBool (Device.enableButtonMonitoring os e d)
  | .isButtonMonitoringEnabled => retBool (Device.isButtonMonitoringEnabled os d)
  | .getMouseSerial => retStr (Device.getMouseSerial os d)
  | .setMouseSerial serial => retBool (Device.setMouseSerial os serial d)
  | .resetMouseSerial => retBool (Device.resetMouseSerial os d)

/-! ### Call sequences -/

/-- One step of a `Device`: a call of its public interface, or one turn of the
listener thread. -/
inductive Call where
  | connect (h : Host) (port : String)
  | disconnect
  | command (c : Command)
  | sendRawCommand (command : String)
  | receiveRawResponse
  | setBaudRate (baudRate : Nat)
  | setMouseButtonCallback (callback : Bool)
  | monitorStep
  deriving DecidableEq

/-- The state after one step (`none`: the step does not return). -/
def Call.exec (os : OS) (c : Call) (d : Impl) : Option Impl :=
  match c with
  | .connect h port => (Device.connect os h port d).map (·.2)
  | .disconnect => Device.disconnect os d
  | .command c => (c.run os d).map (·.2)
  | .sendRawCommand cmd => (Device.sendRawCommand os cmd d).map (·.2)
  | .receiveRawResponse => (Device.receiveRawResponse os d).map (·.2)
  | .setBaudRate r => (Device.setBaudRate os r d).map (·.2)
  | .setMouseButtonCallback callback => some (Device.setMouseButtonCallback d callback)
  | .monitorStep => d.monitorStep os

/-- The state after a sequence of steps. -/
def runCalls (os : OS) : List Call → Impl → Option Impl
  | [], d => some d
  | c :: cs, d => (c.exec os d).bind (runCalls os cs)

/-- A state a `Device` can be in: the outcome of some sequence of steps on a
newly constructed `Device`, on some host. -/
def Reachable (d : Impl) : Prop :=
  ∃ (os : OS) (vid pid : Nat) (calls : List Call), runCalls os calls (Impl.new vid pid) = some d

/-- A host on which every Win32 call succeeds and `WriteFile` takes all bytes. -/
def okOS : OS := fun _ c =>
  match c with
  | .WriteFile _ data => { ok := true, value := data.length, bytes := [] }
  | _ => { ok := true, value := 0, bytes := [] }

/-- A host that lets the first `CreateFileA` through and rejects every later
one; all other calls succeed. -/
def rejectReopenOS : OS := fun hist c =>
  match c with
  | .CreateFileA _ => { ok := hist.isEmpty, value := 0, bytes := [] }
  | .WriteFile _ data => { ok := true, value := data.length, bytes := [] }
  | _ => { ok := true, value := 0, bytes := [] }

/-- A host on which every Win32 call fails. -/
def failOS : OS := fun _ _ => { ok := false, value := 0, bytes := [] }

/-- A host without serial ports. -/
def noPorts : Host := { serialcomm := [], portsClass := none }

/-- A connected `Device`: a new one after `connect("COM3")` on `okOS`. -/
def connectedDevice : Impl :=
  ((connect okOS noPorts "COM3" (Impl.new 0 0)).map (·.2)).getD (Impl.new 0 0)

/-- A host whose input queue holds the bytes `bs`: `ClearCommError` reports what
is left of them, and a `ReadFile` hands them over from where the earlier
`ReadFile` calls (of one byte each) stopped. All calls succeed. -/
def streamOS (bs : List Nat) : OS := fun hist c =>
  let rest := bs.drop (hist.countP (fun e => match e.call with | .ReadFile _ _ => true | _ => false))
  match c with
  | .ReadFile _ _ => { ok := true, value := 0, bytes := rest }
  | .ClearCommError _ => { ok := true, value := rest.length, bytes := [] }
  | .WriteFile _ data => { ok := true, value := data.length, bytes := [] }
  | _ => { ok := true, value := 0, bytes := [] }

/-- The calls of the connection state machine: `connect` and `disconnect`. -/
def Call.isSession : Call → Bool
  | .connect _ _ => true
  | .disconnect => true
  | _ => false

end Device

open Device

/-! ## Predicates used by the statements -/

/-- Every Win32 call on the host succeeds, and `WriteFile` takes all the bytes
it is given. -/
def OkHost (os : OS) : Prop :=
  ∀ hist c, (os hist c).ok = true ∧ ∀ h data, c = OsCall.WriteFile h data → (os hist c).value = data.length

/-- A Transport step that reported failure. -/
def TOp.failed : TOp → Bool
  | .open _ _ r => !r
  | .write _ r => !r
  | .flush r => !r
  | .setBaudRate _ r => !r
  | _ => false

/-- The Transport steps of a complete handshake on port `t`. -/
def handshakeOps (t : String) : List TOp :=
  [.open t 115200 true,
   .write [0xDE, 0xAD, 0x05, 0x00, 0xA5, 0x00, 0x09, 0x3D, 0x00] true,
   .flush true,
   .close,
   .open t 4000000 true,
   .write (SerialPort.bytesOf "km.buttons(1)\r") true,
   .flush true]

/-- Consistency of the engine state between calls. -/
structure Inv (d : Impl) : Prop where
  unlocked : d.serialPort.m_mutex = false
  handle_ok : d.serialPort.m_handle.isSome = d.serialPort.m_isOpen
  isOpen_eq : d.serialPort.m_isOpen = d.connected
  monitoring_eq : d.monitoring = d.connected
  thread_eq : d.monitorThread.isSome = d.connected
  status_iff : d.status = .CONNECTED ↔ d.connected = true
  status_ne : d.status ≠ .CONNECTING
  info_eq : d.deviceInfo.isConnected = d.connected
  info_of_connected : d.connected = true →
    d.deviceInfo = { port := d.serialPort.m_portName, description := TARGET_DESC,
                     vid := MAKCU_VID, pid := MAKCU_PID, isConnected := true }
  mask_zero : d.connected = false → d.currentButtonMask = 0
  mask_eq : ∀ t, d.monitorThread = some t → d.currentButtonMask = t.lastValue

/-- The bytes the Transport handed over: the results of the `read` steps of a
log, in order. -/
def delivered : List TOp → List Nat
  | [] => []
  | .read _ r :: ops => r ++ delivered ops
  | _ :: ops => delivered ops

/-- The five reports made for one byte: each button in ordinal order with the
bit of the byte at the position of its ordinal. -/
def buttonEvents (b : Nat) : List (MouseButton × Bool) :=
  [(.LEFT, b.testBit 0), (.RIGHT, b.testBit 1), (.MIDDLE, b.testBit 2), (.SIDE1, b.testBit 3),
   (.SIDE2, b.testBit 4)]

/-- The reports a byte stream should cause when `prev` is the byte before its
first one: the five reports of every byte that differs from the byte before it. -/
def expectedEvents : Nat → List Nat → List (MouseButton × Bool)
  | _, [] => []
  | prev, b :: bs => (if b ≠ prev then buttonEvents b else []) ++ expectedEvents b bs

/-- The Transport log of a `Device` driven by `connect` and `disconnect` only:
while connected it ends with a complete handshake, otherwise it is empty or
ends with a step other than a successful flush. -/
structure SessionLog (d : Impl) : Prop where
  of_connected : d.connected = true → ∃ pre t, d.serialPort.log = pre ++ handshakeOps t
  of_not_connected : d.connected = false →
    d.serialPort.log = [] ∨ ∃ pre last, d.serialPort.log = pre ++ [last] ∧ last ≠ .flush true

/-- What a step that only uses the Transport changes: `d'` is `d` with a
`SerialPort` that has the same lock, open state, handle and port name, and whose
log grew by `ops`. -/
structure Frame (d d' : Impl) (ops : List TOp) : Prop where
  same : d' = { d with serialPort := d'.serialPort }
  unlocked : d'.serialPort.m_mutex = false
  isOpen_eq : d'.serialPort.m_isOpen = d.serialPort.m_isOpen
  handle_eq : d'.serialPort.m_handle = d.serialPort.m_handle
  portName_eq : d'.serialPort.m_portName = d.serialPort.m_portName
  log_eq : d'.serialPort.log = d.serialPort.log ++ ops

/-- The command text a typed command hands to `sendRawCommand` on a connected
`Device`, read off the method bodies; `none` for the calls that return before
sending anything. -/
def Device.Command.text : Command → Option String
  | .getVersion => some "km.version()\r"
  | .mouseDown .LEFT => some "km.left(1)\r"
  | .mouseDown .RIGHT => some "km.right(1)\r"
  | .mouseDown .MIDDLE => some "km.middle(1)\r"
  | .mouseDown _ => none
  | .mouseUp .LEFT => some "km.left(0)\r"
  | .mouseUp .RIGHT => some "km.right(0)\r"
  | .mouseUp .MIDDLE => some "km.middle(0)\r"
  | .mouseUp _ => none
  | .mouseButtonState b => mouseButtonStateCmd b
  | .mouseMove x y => some ("km.move(" ++ ostreamInt x ++ "," ++ ostreamInt y ++ ")\r")
  | .mouseMoveSmooth x y n =>
    some ("km.move(" ++ ostreamInt x ++ "," ++ ostreamInt y ++ "," ++ ostreamInt n ++ ")\r")
  | .mouseMoveBezier x y n cx cy =>
    some ("km.move(" ++ ostreamInt x ++ "," ++ ostreamInt y ++ "," ++ ostreamInt n ++ ","
      ++ ostreamInt cx ++ "," ++ ostreamInt cy ++ ")\r")
  | .mouseWheel delta => some ("km.wheel(" ++ ostreamInt delta ++ ")\r")
  | .lockMouseX l => some ("km.lock_mx(" ++ ostreamInt (if l then 1 else 0) ++ ")\r")
  | .lockMouseY l => some ("km.lock_my(" ++ ostreamInt (if l then 1 else 0) ++ ")\r")
  | .lockMouseLeft l => some ("km.lock_ml(" ++ ostreamInt (if l then 1 else 0) ++ ")\r")
  | .lockMouseMiddle l => some ("km.lock_mm(" ++ ostreamInt (if l then 1 else 0) ++ ")\r")
  | .lockMouseRight l => some ("km.lock_mr(" ++ ostreamInt (if l then 1 else 0) ++ ")\r")
  | .lockMouseSide1 l => some ("km.lock_ms1(" ++ ostreamInt (if l then 1 else 0) ++ ")\r")
  | .lockMouseSide2 l => some ("km.lock_ms2(" ++ ostreamInt (if l then 1 else 0) ++ ")\r")
  | .isMouseXLocked => some "km.lock_mx()\r"
  | .isMouseYLocked => some "km.lock_my()\r"
  | .isMouseLeftLocked => some "km.lock_ml()\r"
  | .isMouseMiddleLocked => some "km.lock_mm()\r"
  | .isMouseRightLocked => some "km.lock_mr()\r"
  | .isMouseSide1Locked => some "km.lock_ms1()\r"
  | .isMouseSide2Locked => some "km.lock_ms2()\r"
  | .catchMouseLeft => some "km.catch_ml()\r"
  | .catchMouseMiddle => some "km.catch_mm()\r"
  | .catchMouseRight => some "km.catch_mr()\r"
  | .catchMouseSide1 => some "km.catch_ms1()\r"
  | .catchMouseSide2 => some "km.catch_ms2()\r"
  | .enableButtonMonitoring e => some ("km.buttons(" ++ ostreamInt (if e then 1 else 0) ++ ")\r")
  | .isButtonMonitoringEnabled => some "km.buttons()\r"
  | .getMouseSerial => some "km.serial()\r"
  | .setMouseSerial serial => some ("km.serial('" ++ serial ++ "')\r")
  | .resetMouseSerial => some "km.serial(0)\r"

/-- The typed commands that read a reply after a successful write. -/
def Device.Command.isQuery : Command → Bool
  | .getVersion | .mouseButtonState _ | .isMouseXLocked | .isMouseYLocked | .isMouseLeftLocked
  | .isMouseMiddleLocked | .isMouseRightLocked | .isMouseSide1Locked | .isMouseSide2Locked
  | .catchMouseLeft | .catchMouseMiddle | .catchMouseRight | .catchMouseSide1 | .catchMouseSide2
  | .isButtonMonitoringEnabled | .getMouseSerial => true
  | _ => false

/-- Decimal integers separated by commas. -/
def joinArgs : List Int → String
  | [] => ""
  | [a] => toString a
  | a :: b :: rest => toString a ++ "," ++ joinArgs (b :: rest)

/-- A character of a command name: an ASCII letter or digit, a dot or an
underscore. -/
def nameChar (c : Char) : Bool :=
  (decide (97 ≤ c.toNat) && decide (c.toNat ≤ 122)) || (decide (65 ≤ c.toNat) && decide (c.toNat ≤ 90))
    || (decide (48 ≤ c.toNat) && decide (c.toNat ≤ 57)) || c.toNat == 46 || c.toNat == 95

/-- The wire format of a textual command, on the bytes written: the bytes are
ASCII; they are a name, an opening parenthesis, decimal integers separated by
commas, a closing parenthesis and a carriage return; the last byte is the only
carriage return (13); there is no line feed (10). -/
def WireFormat (data : List Nat) : Prop :=
  (∀ b ∈ data, b < 128)
  ∧ (∃ (name : String) (args : List Int), (∀ c ∈ name.toList, nameChar c = true)
      ∧ data = SerialPort.bytesOf (name ++ "(" ++ joinArgs args ++ ")" ++ "\r"))
  ∧ data.getLast? = some 13
  ∧ data.count 13 = 1
  ∧ 10 ∉ data

/-- An ASCII character other than carriage return and line feed. -/
def wireChar (c : Char) : Bool :=
  decide (c.toNat < 128) && c.toNat != 13 && c.toNat != 10

/-- The failure value of a typed command: `false`, `0` or the empty string,
according to its result type. -/
def Device.Command.failure : Command → Ret
  | .getVersion | .getMouseSerial => .str ""
  | .catchMouseLeft | .catchMouseMiddle | .catchMouseRight | .catchMouseSide1
  | .catchMouseSide2 => .u8 0
  | _ => .bool false

/-- The shape of what a typed command does on a connected `Device`. -/
def CommandOutcome (c : Command) (r : Ret) (ops : List TOp) : Prop :=
  (c.text = none ∧ ops = []) ∨
  ∃ text ok, c.text = some text ∧
    ((ops = [.write (SerialPort.bytesOf text) ok] ∧ (c.isQuery = true → ok = false)
        ∧ (c.isQuery = false → r = .bool ok))
     ∨ (c.isQuery = true ∧ ok = true ∧
        ∃ bytes, ops = [.write (SerialPort.bytesOf text) true, .read 1024 bytes]))

/-- The boolean queries: the lock queries, `isButtonMonitoringEnabled`, and
`mouseButtonState` for the three buttons that have a command text. -/
def Device.Command.isBoolQuery : Command → Bool
  | .isMouseXLocked | .isMouseYLocked | .isMouseLeftLocked | .isMouseMiddleLocked
  | .isMouseRightLocked | .isMouseSide1Locked | .isMouseSide2Locked
  | .isButtonMonitoringEnabled => true
  | .mouseButtonState .LEFT | .mouseButtonState .RIGHT | .mouseButtonState .MIDDLE => true
  | _ => false

/-- The lock-state queries. -/
def Device.Command.isLockQuery : Command → Bool
  | .isMouseXLocked | .isMouseYLocked | .isMouseLeftLocked | .isMouseMiddleLocked
  | .isMouseRightLocked | .isMouseSide1Locked | .isMouseSide2Locked => true
  | _ => false

/-- The catch-counter queries. -/
def Device.Command.isCatch : Command → Bool
  | .catchMouseLeft | .catchMouseMiddle | .catchMouseRight | .catchMouseSide1
  | .catchMouseSide2 => true
  | _ => false

/-- The connection state of `d'` is that of `d`: status, `isConnected()`,
`DeviceInfo`, the listener (its running flag and its thread) and the open state
and handle of the Transport are the same. -/
def SameConnection (d d' : Impl) : Prop :=
  getStatus d' = getStatus d ∧ isConnected d' = isConnected d
    ∧ getDeviceInfo d' = getDeviceInfo d
    ∧ d'.monitoring = d.monitoring ∧ d'.monitorThread = d.monitorThread
    ∧ d'.serialPort.isOpen = d.serialPort.isOpen
    ∧ d'.serialPort.m_handle = d.serialPort.m_handle

/-- A host on which every call succeeds, but `WriteFile` takes one byte less
than it is offered. -/
def shortWriteOS : OS := fun _ c =>
  match c with
  | .WriteFile _ data => { ok := true, value := data.length - 1, bytes := [] }
  | _ => { ok := true, value := 0, bytes := [] }

/-- A Transport step that does not open a port other than `p`. -/
def TOp.onPort (p : String) : TOp → Bool
  | .open port _ _ => port == p
  | _ => true

/-- The Win32 calls made between the states `sp` and `sp'` of a `SerialPort`
were all made with `m_mutex` held. -/
def CallsUnderLock (sp sp' : SerialPort) : Prop :=
  ∃ evs, sp'.oscalls = sp.oscalls ++ evs ∧ ∀ e ∈ evs, e.lockHeld = true

/-- Spec side (C27): the number a string of decimal digits denotes, by position:
the first digit counts `10 ^ (number of digits after it)`. -/
def decimalValue : List Char → Nat
  | [] => 0
  | c :: cs => (c.toNat - 48) * 10 ^ cs.length + decimalValue cs

/-- Spec side (C27): the text `s` starts, after optional white space and an
optional sign, with the decimal integer `n`: it is white space `ws`, then
nothing, `+` or `-`, then a non-empty run `ds` of decimal digits that the rest
of the text does not continue, and `n` is the number `ds` denotes, negated after
`-`. -/
def LeadingInt (s : String) (n : Int) : Prop :=
  ∃ (ws sign ds rest : List Char),
    s.toList = ws ++ (sign ++ (ds ++ rest))
    ∧ (∀ c ∈ ws, isspace c = true)
    ∧ (sign = [] ∨ sign = ['+'] ∨ sign = ['-'])
    ∧ ds ≠ [] ∧ (∀ c ∈ ds, c.isDigit = true)
    ∧ (∀ c, rest.head? = some c → c.isDigit = false)
    ∧ n = if sign = ['-'] then -(decimalValue ds : Int) else (decimalValue ds : Int)

/-! ## Button names (`makcu.cpp`, utility functions) -/

/-- `std::toupper` in the "C" locale, on an `unsigned char`: the letters `a` to
`z` become `A` to `Z`, every other character is unchanged. -/
def toupper (c : Char) : Char :=
  if 97 ≤ c.toNat ∧ c.toNat ≤ 122 then Char.ofNat (c.toNat - 32) else c

/-- `mouseButtonToString` (the `return "UNKNOWN"` after the `switch` is not
reached for the five enumerators). -/
def mouseButtonToString : MouseButton → String
  | .LEFT => "LEFT"
  | .RIGHT => "RIGHT"
  | .MIDDLE => "MIDDLE"
  | .SIDE1 => "SIDE1"
  | .SIDE2 => "SIDE2"

/-- `stringToMouseButton`. -/
def stringToMouseButton (buttonName : String) : MouseButton :=
  let upper := String.mk (buttonName.toList.map toupper)
  if upper = "LEFT" then .LEFT
  else if upper = "RIGHT" then .RIGHT
  else if upper = "MIDDLE" then .MIDDLE
  else if upper = "SIDE1" then .SIDE1
  else if upper = "SIDE2" then .SIDE2
  else .LEFT -- Default fallback

/-- Spec side (C28, C29): an ASCII letter. -/
def isAsciiLetter (c : Char) : Bool :=
  (decide (65 ≤ c.toNat) && decide (c.toNat ≤ 90)) || (decide (97 ≤ c.toNat) && decide (c.toNat ≤ 122))

/-- Spec side (C28, C29): two characters are equal up to ASCII letter case: they
are the same character, or both are ASCII letters whose codes differ by 32. -/
def sameUpToCase (a b : Char) : Bool :=
  a == b || (isAsciiLetter a && isAsciiLetter b
    && (a.toNat + 32 == b.toNat || b.toNat + 32 == a.toNat))

/-- Spec side (C28, C29): two texts are equal up to ASCII letter case: they have
the same length and agree, character by character, up to ASCII letter case. -/
def eqUpToCase : List Char → List Char → Bool
  | [], [] => true
  | a :: s, b :: t => sameUpToCase a b && eqUpToCase s t
  | _, _ => false

end makcu

/-! ## The movement sender: `USBSender` (`usb_sender.cpp`) -/

/-- A `float` (IEEE 754 binary32): `finite neg m e` is the value `m * 2 ^ e`,
negated when `neg` is set (a binary32 value has `m < 2 ^ 24` and
`-149 ≤ e ≤ 104`); the other values are the two infinities and NaN. -/
inductive CFloat where
  | finite (neg : Bool) (m : Nat) (e : Int)
  | inf (neg : Bool)
  | nan
  deriving DecidableEq

/-- The number of binary digits of `n`; `fuel` bounds the number of steps. -/
def bitLength : Nat → Nat → Nat
  | 0, _ => 0
  | fuel + 1, n => if n = 0 then 0 else bitLength fuel (n / 2) + 1

/-- Round the exact value `m * 2 ^ e` (negated when `neg` is set) to binary32:
keep at most 24 significant binary digits and no digit below `2 ^ (-149)`, round
to nearest with ties to even, and give infinity when the rounded value reaches
`2 ^ 128`. -/
def CFloat.round (neg : Bool) (m : Nat) (e : Int) : CFloat :=
  let drop : Nat := Int.toNat (max ((bitLength m m : Int) - 24) (-149 - e))
  let q := m / 2 ^ drop
  let rem := m % 2 ^ drop
  let up := decide (2 ^ drop < 2 * rem) || (decide (2 * rem = 2 ^ drop) && decide (q % 2 = 1))
  let q := if up then q + 1 else q
  let e := e + drop
  if (bitLength q q : Int) + e > 128 then .inf neg else .finite neg q e

/-- The product `a * b` of two `float` values, in `float` arithmetic. -/
def CFloat.mul : CFloat → CFloat → CFloat
  | .finite n1 m1 e1, .finite n2 m2 e2 => CFloat.round (n1 != n2) (m1 * m2) (e1 + e2)
  | .finite n1 m1 _, .inf n2 => if m1 = 0 then .nan else .inf (n1 != n2)
  | .inf n1, .finite n2 m2 _ => if m2 = 0 then .nan else .inf (n1 != n2)
  | .inf n1, .inf n2 => .inf (n1 != n2)
  | .nan, _ => .nan
  | _, .nan => .nan

/-- The conversion `static_cast<int>(f)`: truncation toward zero. For NaN, the
infinities and the values whose truncation is outside the range of `int` the
conversion is undefined in C++; the model gives what the conversion instruction
of the x86 (`cvttss2si`) delivers there, `INT_MIN`. -/
def CFloat.toInt : CFloat → Int
  | .finite neg m e =>
    let mag : Nat := if 0 ≤ e then m * 2 ^ e.toNat else m / 2 ^ (-e).toNat
    let v : Int := if neg then -(mag : Int) else (mag : Int)
    if -2147483648 ≤ v ∧ v ≤ 2147483647 then v else -2147483648
  | _ => -2147483648

/-- `cv::Point2f`. -/
structure Point2f where
  x : CFloat
  y : CFloat
  deriving DecidableEq

/-- The field of the global `AppConfig g_config` (`config.h`) that `USBSender`
reads. -/
structure AppConfig where
  mouse_sensitivity : CFloat
  deriving DecidableEq

/-- `class USBSender`; `device_` is `none` for a null `unique_ptr`. -/
structure USBSender where
  device_ : Option makcu.Device.Impl
  connected_ : Bool
  deriving DecidableEq

namespace USBSender

open makcu makcu.Device

/-- `USBSender::USBSender()`. -/
def new : USBSender :=
  { device_ := none, connected_ := false }

/-- The method `initialize` of `USBSender` (its name is a reserved word here);
`vid` and `pid` are the first values of the uninitialised fields of the new
`Device`. -/
def initialise (vid pid : Nat) (u : USBSender) : Bool × USBSender :=
  (true, { u with device_ := some (Impl.new vid pid) })

/-- `USBSender::find_and_connect`. -/
def find_and_connect (os : OS) (h : Host) (u : USBSender) : Option (Bool × USBSender) :=
  match u.device_ with
  | none => some (false, u)
  | some dev =>
    -- Find available MAKCU devices
    match findDevices h with
    | [] => some (false, u)
    | first :: _ => do
      -- Connect to the first available device
      let (ok, dev) ← connect os h first.port dev
      if !ok then
        return (false, { u with device_ := some dev })
      -- Get and display device information
      let (_, dev) ← getVersion os dev
      return (true, { device_ := some dev, connected_ := true })

/-- `USBSender::connect_device`: the two parameters are kept for compatibility
and not used. -/
def connect_device (os : OS) (h : Host) (u : USBSender) (_vendor_id _product_id : Int) :
    Option (Bool × USBSender) :=
  u.find_and_connect os h

/-- `USBSender::send_mouse_movement`. `Device::mouseMove` throws nothing, so the
two `catch` handlers are not reached; a `mouseMove` without result leaves this
call without result. -/
def send_mouse_movement (os : OS) (g_config : AppConfig) (u : USBSender) (movement : Point2f) :
    Option (Bool × USBSender) :=
  match u.device_ with
  | none => some (false, u)
  | some dev =>
    if !u.connected_ || !isConnected dev then
      some (false, u)
    else do
      -- Scale movement by sensitivity
      let scaled_x := (movement.x.mul g_config.mouse_sensitivity).toInt
      let scaled_y := (movement.y.mul g_config.mouse_sensitivity).toInt
      -- Send mouse movement using MAKCU API
      let (_, dev) ← mouseMove os scaled_x scaled_y dev
      return (true, { u with device_ := some dev })

/-- `USBSender::is_connected`. -/
def is_connected (u : USBSender) : Bool :=
  match u.device_ with
  | none => false
  | some dev => u.connected_ && isConnected dev

end USBSender

/-- A host with one MAKCU device on `COM3`. -/
def oneDeviceHost : makcu.Host :=
  { serialcomm := ["COM3"],
    portsClass := some [{ description := some "USB-Enhanced-SERIAL CH343 (COM3)",
                          portName := some "COM3" }] }

/-- A connected sender: a new one after `initialise` and `connect_device` on a
host where every Win32 call succeeds. -/
def connectedSender : USBSender :=
  (((USBSender.new.initialise 0 0).2.connect_device makcu.Device.okOS oneDeviceHost 0 0).map
    (·.2)).getD USBSender.new

/-- The `Device` of the connected sender. -/
def connectedSenderDevice : makcu.Device.Impl :=
  connectedSender.device_.getD (makcu.Device.Impl.new 0 0)

/-! # Proofs -/

namespace makcu

open Device

/-! ## Transport steps on an unlocked `SerialPort` -/

theorem OkHost.ok_eq {os : OS} (hos : OkHost os) (hist : List OsEvent) (c : OsCall) :
    (os hist c).ok = true := (hos hist c).1

theorem OkHost.value_eq {os : OS} (hos : OkHost os) (hist : List OsEvent) (h : Option Nat)
    (data : List Nat) : (os hist (.WriteFile h data)).value = data.length :=
  (hos hist _).2 h data rfl

theorem SerialPort.write_spec (os : OS) (sp : SerialPort) (data : List Nat)
    (h : sp.m_mutex = false) :
    ∃ r sp', sp.write os data = some (r, sp') ∧ sp'.m_mutex = false ∧ sp'.m_isOpen = sp.m_isOpen
      ∧ sp'.m_portName = sp.m_portName ∧ sp'.log = sp.log ++ [.write data r]
      ∧ (OkHost os → data.length < 4294967296 → r = (sp.m_isOpen && !data.isEmpty))
      ∧ sp'.m_handle = sp.m_handle := by
  simp only [SerialPort.write, SerialPort.lock, h]
  cases h1 : sp.m_isOpen <;> cases h2 : data.isEmpty <;>
    simp [h1, h2, SerialPort.record, SerialPort.unlock, SerialPort.oscall]
  cases h3 : (os sp.oscalls (.WriteFile sp.m_handle
      (data.take (data.length % 4294967296)))).ok <;>
  by_cases h4 : (os sp.oscalls (.WriteFile sp.m_handle
      (data.take (data.length % 4294967296)))).value % 4294967296 = data.length <;>
    simp [h3, h4] <;> intro hos <;> by_contra hge <;>
    simp [hos.ok_eq, hos.value_eq, Nat.mod_eq_of_lt (Nat.lt_of_not_le hge)] at h3 h4

theorem SerialPort.flush_spec (os : OS) (sp : SerialPort) (h : sp.m_mutex = false) :
    ∃ r sp', sp.flush os = some (r, sp') ∧ sp'.m_mutex = false ∧ sp'.m_isOpen = sp.m_isOpen
      ∧ sp'.m_portName = sp.m_portName ∧ sp'.log = sp.log ++ [.flush r]
      ∧ (OkHost os → r = sp.m_isOpen)
      ∧ sp'.m_handle = sp.m_handle := by
  simp only [SerialPort.flush, SerialPort.lock, h]
  cases h1 : sp.m_isOpen <;>
    simp [h1, SerialPort.record, SerialPort.unlock, SerialPort.oscall]
  cases h3 : (os sp.oscalls (.FlushFileBuffers sp.m_handle)).ok <;> simp [h3]
  intro hos
  simp [hos.ok_eq] at h3

theorem SerialPort.close_spec (os : OS) (sp : SerialPort) (h : sp.m_mutex = false) :
    ∃ sp', sp.close os = some sp' ∧ sp'.m_mutex = false ∧ sp'.m_isOpen = false
      ∧ sp'.m_portName = sp.m_portName ∧ sp'.log = sp.log ++ [.close]
      ∧ (sp.m_handle.isSome = sp.m_isOpen → sp'.m_handle = none) := by
  simp only [SerialPort.close, SerialPort.lock, h]
  cases h1 : sp.m_isOpen <;> cases h2 : sp.m_handle <;>
    simp [h1, h2, SerialPort.record, SerialPort.unlock, SerialPort.oscall]

theorem SerialPort.open_spec (os : OS) (sp : SerialPort) (port : String) (baud : Nat)
    (h : sp.m_mutex = false) (hc : sp.m_isOpen = false) :
    ∃ r sp', sp.open os port baud = some (r, sp') ∧ sp'.m_mutex = false ∧ sp'.m_isOpen = r
      ∧ sp'.m_portName = port ∧ sp'.log = sp.log ++ [.open port baud r]
      ∧ (OkHost os → r = true)
      ∧ sp'.m_handle.isSome = r := by
  simp only [SerialPort.open, SerialPort.lock, h]
  simp [hc, SerialPort.record, SerialPort.unlock, SerialPort.oscall, SerialPort.configurePort,
    SerialPort.updateTimeouts]
  split_ifs <;> simp_all <;> intro hos <;> simp_all [hos.ok_eq]

theorem SerialPort.read_spec (os : OS) (sp : SerialPort) (maxBytes : Nat)
    (h : sp.m_mutex = false) :
    ∃ r sp', sp.read os maxBytes = some (r, sp') ∧ sp'.m_mutex = false
      ∧ sp'.m_isOpen = sp.m_isOpen ∧ sp'.m_portName = sp.m_portName
      ∧ sp'.log = sp.log ++ [.read maxBytes r] ∧ r.length ≤ maxBytes
      ∧ sp'.m_handle = sp.m_handle := by
  simp only [SerialPort.read, SerialPort.lock, h]
  cases h1 : sp.m_isOpen <;> cases h2 : (maxBytes == 0) <;>
    simp [h1, h2, SerialPort.record, SerialPort.unlock, SerialPort.oscall] <;>
    refine ⟨_, _, ⟨rfl, rfl⟩, ?_⟩ <;> simp
  split_ifs <;> simp
  exact Or.inl (Nat.mod_le _ _)

theorem SerialPort.available_spec (os : OS) (sp : SerialPort) (h : sp.m_mutex = false) :
    ∃ r sp', sp.available os = some (r, sp') ∧ sp'.m_mutex = false
      ∧ sp'.m_isOpen = sp.m_isOpen ∧ sp'.m_portName = sp.m_portName
      ∧ sp'.log = sp.log ++ [.available r]
      ∧ sp'.m_handle = sp.m_handle := by
  simp only [SerialPort.available, SerialPort.lock, h]
  cases h1 : sp.m_isOpen
  · simp [h1, SerialPort.record, SerialPort.unlock]
    exact ⟨_, _, ⟨rfl, rfl⟩, by simp⟩
  · cases h3 : (os sp.oscalls (.ClearCommError sp.m_handle)).ok <;>
      simp [h1, h3, SerialPort.record, SerialPort.unlock, SerialPort.oscall] <;>
      exact ⟨_, _, ⟨rfl, rfl⟩, by simp⟩

theorem SerialPort.setBaudRate_spec (os : OS) (sp : SerialPort) (baud : Nat)
    (h : sp.m_mutex = false) :
    ∃ r sp', sp.setBaudRate os baud = some (r, sp') ∧ sp'.m_mutex = false
      ∧ sp'.m_isOpen = sp.m_isOpen ∧ sp'.m_portName = sp.m_portName
      ∧ sp'.log = sp.log ++ [.setBaudRate baud r]
      ∧ sp'.m_handle = sp.m_handle := by
  simp only [SerialPort.setBaudRate, SerialPort.lock, h]
  cases h1 : sp.m_isOpen
  · simp [h1, SerialPort.record, SerialPort.unlock]
  · cases h3 : (os sp.oscalls (.SetCommState sp.m_handle baud)).ok <;>
      simp [h1, h3, SerialPort.record, SerialPort.unlock, SerialPort.oscall]

/-! ## The connection state machine -/

theorem Device.switchToHighSpeedMode_spec (os : OS) (d : Impl)
    (hm : d.serialPort.m_mutex = false) (ho : d.serialPort.m_isOpen = true)
    (hh : d.serialPort.m_handle.isSome = d.serialPort.m_isOpen) :
    ∃ r sp' ops, d.switchToHighSpeedMode os = some (r, { d with serialPort := sp' })
      ∧ sp'.m_mutex = false ∧ sp'.m_portName = d.serialPort.m_portName
      ∧ sp'.log = d.serialPort.log ++ ops
      ∧ ((r = true ∧ sp'.m_isOpen = true ∧
            ops = [.write BAUD_CHANGE_COMMAND true, .flush true, .close,
                   .open d.serialPort.m_portName HIGH_SPEED_BAUD_RATE true])
         ∨ (r = false ∧ ∃ op ∈ ops, op.failed = true))
      ∧ (OkHost os → r = true)
      ∧ sp'.m_handle.isSome = sp'.m_isOpen := by
  obtain ⟨r1, sp1, e1, m1, o1, n1, l1, k1, g1⟩ :=
    SerialPort.write_spec os d.serialPort BAUD_CHANGE_COMMAND hm
  have hh1 : sp1.m_handle.isSome = sp1.m_isOpen := by rw [g1, o1]; exact hh
  simp only [Impl.switchToHighSpeedMode, SerialPort.isOpen, ho, e1]
  cases r1
  · refine ⟨false, sp1, [.write BAUD_CHANGE_COMMAND false], by simp, m1, n1, l1,
      Or.inr ⟨rfl, _, List.mem_singleton_self _, rfl⟩, ?_, hh1⟩
    intro hos
    simpa [ho, BAUD_CHANGE_COMMAND] using k1 hos
  · obtain ⟨r2, sp2, e2, m2, o2, n2, l2, k2, g2⟩ := SerialPort.flush_spec os sp1 m1
    have hh2 : sp2.m_handle.isSome = sp2.m_isOpen := by rw [g2, o2]; exact hh1
    cases r2
    · refine ⟨false, sp2, [.write BAUD_CHANGE_COMMAND true, .flush false], by simp [e2], m2,
        by rw [n2, n1], by rw [l2, l1, List.append_assoc]; rfl,
        Or.inr ⟨rfl, .flush false, by simp, rfl⟩, ?_, hh2⟩
      intro hos
      simpa [o1, ho] using k2 hos
    · obtain ⟨sp3, e3, m3, o3, n3, l3, -⟩ := SerialPort.close_spec os sp2 m2
      obtain ⟨r4, sp4, e4, m4, o4, n4, l4, k4, g4⟩ :=
        SerialPort.open_spec os sp3 sp2.m_portName HIGH_SPEED_BAUD_RATE m3 o3
      have hn : sp2.m_portName = d.serialPort.m_portName := by rw [n2, n1]
      have hh4 : sp4.m_handle.isSome = sp4.m_isOpen := by rw [g4, o4]
      rw [hn] at e4 n4 l4
      cases r4
      · refine ⟨false, sp4, [.write BAUD_CHANGE_COMMAND true, .flush true, .close,
            .open d.serialPort.m_portName HIGH_SPEED_BAUD_RATE false],
          by simp [e2, e3, e4, hn, SerialPort.getPortName], m4, n4,
          by rw [l4, l3, l2, l1]; simp,
          Or.inr ⟨rfl, .open d.serialPort.m_portName HIGH_SPEED_BAUD_RATE false, by simp, rfl⟩,
          ?_, hh4⟩
        intro hos
        exact absurd (k4 hos) (by simp)
      · exact ⟨true, sp4, [.write BAUD_CHANGE_COMMAND true, .flush true, .close,
            .open d.serialPort.m_portName HIGH_SPEED_BAUD_RATE true],
          by simp [e2, e3, e4, hn, SerialPort.getPortName], m4, n4,
          by rw [l4, l3, l2, l1]; simp, Or.inl ⟨rfl, o4, rfl⟩, fun _ => rfl, hh4⟩

theorem Device.initializeDevice_spec (os : OS) (d : Impl)
    (hm : d.serialPort.m_mutex = false) (ho : d.serialPort.m_isOpen = true) :
    ∃ r sp' ops, d.initializeDevice os = some (r, { d with serialPort := sp' })
      ∧ sp'.m_mutex = false ∧ sp'.m_portName = d.serialPort.m_portName
      ∧ sp'.m_isOpen = true
      ∧ sp'.log = d.serialPort.log ++ ops
      ∧ ((r = true ∧
            ops = [.write (SerialPort.bytesOf "km.buttons(1)\r") true, .flush true])
         ∨ (r = false ∧ ∃ op ∈ ops, op.failed = true))
      ∧ (OkHost os → r = true)
      ∧ sp'.m_handle = d.serialPort.m_handle := by
  obtain ⟨r1, sp1, e1, m1, o1, n1, l1, k1, g1⟩ :=
    SerialPort.write_spec os d.serialPort (SerialPort.bytesOf "km.buttons(1)\r") hm
  simp only [Impl.initializeDevice, SerialPort.isOpen, ho, SerialPort.writeString, e1]
  cases r1
  · refine ⟨false, sp1, [.write (SerialPort.bytesOf "km.buttons(1)\r") false], by simp, m1, n1,
      by rw [o1, ho], l1, Or.inr ⟨rfl, _, List.mem_singleton_self _, rfl⟩, ?_, g1⟩
    intro hos
    have := k1 hos
    simp [ho, SerialPort.bytesOf] at this
  · obtain ⟨r2, sp2, e2, m2, o2, n2, l2, k2, g2⟩ := SerialPort.flush_spec os sp1 m1
    cases r2
    · refine ⟨false, sp2, [.write (SerialPort.bytesOf "km.buttons(1)\r") true, .flush false],
        by simp [e2], m2, by rw [n2, n1], by rw [o2, o1, ho],
        by rw [l2, l1, List.append_assoc]; rfl,
        Or.inr ⟨rfl, .flush false, by simp, rfl⟩, ?_, by rw [g2, g1]⟩
      intro hos
      simpa [o1, ho] using k2 hos
    · exact ⟨true, sp2, [.write (SerialPort.bytesOf "km.buttons(1)\r") true, .flush true],
        by simp [e2], m2, by rw [n2, n1], by rw [o2, o1, ho],
        by rw [l2, l1, List.append_assoc]; rfl, Or.inl ⟨rfl, rfl⟩, fun _ => rfl,
        by rw [g2, g1]⟩

theorem Inv.of_failed {d : Impl} (hi : Inv d) (hnc : d.connected = false) (sp' : SerialPort)
    (m : sp'.m_mutex = false) (o : sp'.m_isOpen = false) (g : sp'.m_handle = none) :
    Inv { d with serialPort := sp', status := .CONNECTION_ERROR } where
  unlocked := m
  handle_ok := by simp [o, g]
  isOpen_eq := by simp [o, hnc]
  monitoring_eq := hi.monitoring_eq
  thread_eq := hi.thread_eq
  status_iff := by simp [hnc]
  status_ne := by simp
  info_eq := hi.info_eq
  info_of_connected := by simp [hnc]
  mask_zero := hi.mask_zero
  mask_eq := hi.mask_eq

theorem Inv.of_connected {d : Impl} (hi : Inv d) (hnc : d.connected = false) (sp' : SerialPort)
    (m : sp'.m_mutex = false) (o : sp'.m_isOpen = true) (g : sp'.m_handle.isSome = true) :
    Inv { d with
      serialPort := sp',
      deviceInfo := { port := sp'.m_portName, description := TARGET_DESC, vid := MAKCU_VID,
                      pid := MAKCU_PID, isConnected := true },
      connected := true, status := .CONNECTED, monitoring := true,
      monitorThread := some { lastValue := 0 } } where
  unlocked := m
  handle_ok := by simp [o, g]
  isOpen_eq := by simp [o]
  monitoring_eq := rfl
  thread_eq := rfl
  status_iff := by simp
  status_ne := by simp
  info_eq := rfl
  info_of_connected := by simp
  mask_zero := by simp
  mask_eq := by
    intro t ht
    simp at ht
    subst ht
    exact hi.mask_zero hnc

theorem Device.connect_of_connected (os : OS) (h : Host) (p : String) (d : Impl)
    (hc : d.connected = true) : connect os h p d = some (true, d) := by
  simp [connect, hc]

theorem Device.connect_no_port (os : OS) (h : Host) (d : Impl)
    (hnc : d.connected = false) (hf : findFirstDevice h = "") :
    connect os h "" d = some (false, { d with status := .CONNECTION_ERROR }) := by
  simp [connect, hnc, hf, String.isEmpty_iff]

theorem Device.connect_spec (os : OS) (h : Host) (p : String) (d : Impl) (hi : Inv d)
    (hnc : d.connected = false) (t : String)
    (ht : t = if p.isEmpty then findFirstDevice h else p) (hne : t ≠ "") :
    ∃ r d' ops, connect os h p d = some (r, d') ∧ Inv d'
      ∧ d'.serialPort.log = d.serialPort.log ++ ops
      ∧ d'.mouseButtonCallback = d.mouseButtonCallback ∧ d'.callbackLog = d.callbackLog
      ∧ ((r = true ∧ ops = handshakeOps t ∧ d'.connected = true
            ∧ d'.deviceInfo = { port := t, description := "USB-Enhanced-SERIAL CH343",
                                vid := 0x1A86, pid := 0x55D3, isConnected := true }
            ∧ d'.monitorThread = some { lastValue := 0 })
         ∨ (r = false ∧ (∃ op ∈ ops, op.failed = true)
            ∧ (∃ pre last, ops = pre ++ [last] ∧ last ≠ .flush true)
            ∧ d'.connected = false ∧ d'.status = .CONNECTION_ERROR
            ∧ d'.deviceInfo = d.deviceInfo))
      ∧ (OkHost os → r = true) := by
  have hte : t.isEmpty = false := by
    cases hh : t.isEmpty
    · rfl
    · exact absurd ((String.isEmpty_iff t).1 hh) hne
  have hmon : d.monitoring = false := by rw [hi.monitoring_eq, hnc]
  have hthr : d.monitorThread = none := by
    have := hi.thread_eq; rw [hnc] at this; simpa using this
  have hmask : d.currentButtonMask = 0 := hi.mask_zero hnc
  obtain ⟨r1, sp1, e1, m1, o1, n1, l1, k1, g1⟩ :=
    SerialPort.open_spec os d.serialPort t INITIAL_BAUD_RATE hi.unlocked (by rw [hi.isOpen_eq, hnc])
  simp only [connect, hnc, ← ht, hte]
  simp only [Bool.false_eq_true, if_false, Bool.and_false, e1]
  cases r1
  · refine ⟨false, { d with serialPort := sp1, status := .CONNECTION_ERROR },
      [.open t INITIAL_BAUD_RATE false], by simp [hnc],
      hi.of_failed hnc sp1 m1 o1 (by simpa using g1), l1, rfl, rfl,
      Or.inr ⟨rfl, ⟨_, List.mem_singleton_self _, rfl⟩, ⟨[], _, rfl, by simp⟩, hnc, rfl, rfl⟩, ?_⟩
    intro hos
    exact absurd (k1 hos) (by simp)
  · obtain ⟨r2, sp2, ops2, e2, m2, n2, l2, c2, k2, g2⟩ :=
      Device.switchToHighSpeedMode_spec os
        { d with status := .CONNECTING, serialPort := sp1, connected := false } m1 o1
        (by rw [g1, o1])
    simp only [] at e2 n2 l2 c2
    rw [n1] at n2 c2
    rw [l1, List.append_assoc] at l2
    rcases c2 with ⟨rfl, o2, rfl⟩ | ⟨rfl, op, hop, hf⟩
    · obtain ⟨r3, sp3, ops3, e3, m3, n3, o3, l3, c3, k3, g3⟩ :=
        Device.initializeDevice_spec os
          { d with status := .CONNECTING, serialPort := sp2, connected := false } m2 o2
      simp only [] at e3 n3 l3 c3 o3 g3
      have hh3 : sp3.m_handle.isSome = sp3.m_isOpen := by rw [g3, o3, g2, o2]
      rw [n2] at n3
      rw [l2, List.append_assoc] at l3
      rcases c3 with ⟨rfl, rfl⟩ | ⟨rfl, op, hop, hf⟩
      · refine ⟨true, { d with
            serialPort := sp3,
            deviceInfo := { port := t, description := TARGET_DESC, vid := MAKCU_VID,
                            pid := MAKCU_PID, isConnected := true },
            connected := true, status := .CONNECTED, monitoring := true,
            monitorThread := some { lastValue := 0 } }, handshakeOps t,
          by simp [e2, e3]; simp [Impl.startMonitoring, hmon, hthr],
          ?_, ?_, rfl, rfl, Or.inl ⟨rfl, rfl, rfl, ?_, rfl⟩, fun _ => rfl⟩
        · have := hi.of_connected hnc sp3 m3 o3 (by rw [hh3, o3])
          rw [n3] at this
          exact this
        · simpa [handshakeOps, INITIAL_BAUD_RATE, HIGH_SPEED_BAUD_RATE, BAUD_CHANGE_COMMAND] using l3
        · simp [TARGET_DESC, MAKCU_VID, MAKCU_PID]
      · obtain ⟨sp4, e4, m4, o4, n4, l4, g4⟩ := SerialPort.close_spec os sp3 m3
        refine ⟨false, { d with serialPort := sp4, status := .CONNECTION_ERROR },
          ([TOp.open t INITIAL_BAUD_RATE true] ++
            [TOp.write BAUD_CHANGE_COMMAND true, TOp.flush true, TOp.close,
              TOp.open t HIGH_SPEED_BAUD_RATE true] ++ ops3) ++ [.close],
          by simp [e2, e3, e4, hnc],
          hi.of_failed hnc sp4 m4 o4 (g4 hh3), by rw [l4, l3, List.append_assoc], rfl, rfl,
          Or.inr ⟨rfl, ⟨op, by simp [hop], hf⟩, ⟨_, _, rfl, by simp⟩, hnc, rfl, rfl⟩, ?_⟩
        intro hos
        exact absurd (k3 hos) (by simp)
    · obtain ⟨sp4, e4, m4, o4, n4, l4, g4⟩ := SerialPort.close_spec os sp2 m2
      refine ⟨false, { d with serialPort := sp4, status := .CONNECTION_ERROR },
        ([TOp.open t INITIAL_BAUD_RATE true] ++ ops2) ++ [.close], by simp [e2, e4, hnc],
        hi.of_failed hnc sp4 m4 o4 (g4 g2), by rw [l4, l2, List.append_assoc], rfl, rfl,
        Or.inr ⟨rfl, ⟨op, by simp [hop], hf⟩, ⟨_, _, rfl, by simp⟩, hnc, rfl, rfl⟩, ?_⟩
      intro hos
      exact absurd (k2 hos) (by simp)


/-! ## Steps that only use the Transport -/

theorem Frame.preserves_inv {d d' : Impl} {ops : List TOp} (hf : Frame d d' ops) (hi : Inv d) : Inv d' := by
  have hs := hf.same
  have e1 : d'.deviceInfo = d.deviceInfo := by rw [hs]
  have e2 : d'.status = d.status := by rw [hs]
  have e3 : d'.connected = d.connected := by rw [hs]
  have e4 : d'.monitoring = d.monitoring := by rw [hs]
  have e5 : d'.monitorThread = d.monitorThread := by rw [hs]
  have e6 : d'.currentButtonMask = d.currentButtonMask := by rw [hs]
  constructor
  · exact hf.unlocked
  · rw [hf.handle_eq, hf.isOpen_eq]; exact hi.handle_ok
  · rw [hf.isOpen_eq, e3]; exact hi.isOpen_eq
  · rw [e4, e3]; exact hi.monitoring_eq
  · rw [e5, e3]; exact hi.thread_eq
  · rw [e2, e3]; exact hi.status_iff
  · rw [e2]; exact hi.status_ne
  · rw [e1, e3]; exact hi.info_eq
  · rw [e1, e3, hf.portName_eq]; exact hi.info_of_connected
  · rw [e3, e6]; exact hi.mask_zero
  · rw [e5, e6]; exact hi.mask_eq

theorem Frame.refl (d : Impl) (hm : d.serialPort.m_mutex = false) : Frame d d [] :=
  ⟨rfl, hm, rfl, rfl, rfl, by simp⟩

theorem Frame.trans {d d' d'' : Impl} {ops ops' : List TOp} (h1 : Frame d d' ops)
    (h2 : Frame d' d'' ops') : Frame d d'' (ops ++ ops') := by
  refine ⟨?_, h2.unlocked, by rw [h2.isOpen_eq, h1.isOpen_eq],
    by rw [h2.handle_eq, h1.handle_eq],
    by rw [h2.portName_eq, h1.portName_eq], by rw [h2.log_eq, h1.log_eq, List.append_assoc]⟩
  have a := h1.same
  have b := h2.same
  rw [a] at b
  rw [b]

theorem Device.sendRawCommand_spec (os : OS) (text : String) (d : Impl)
    (hm : d.serialPort.m_mutex = false) (hc : d.connected = true) :
    ∃ ok d', sendRawCommand os text d = some (ok, d')
      ∧ Frame d d' [.write (SerialPort.bytesOf text) ok] := by
  obtain ⟨r, sp', e, m, o, n, l, -, g⟩ :=
    SerialPort.write_spec os d.serialPort (SerialPort.bytesOf text) hm
  exact ⟨r, { d with serialPort := sp' }, by simp [sendRawCommand, hc, SerialPort.writeString, e],
    rfl, m, o, g, n, l⟩

theorem Device.receiveRawResponse_spec (os : OS) (d : Impl)
    (hm : d.serialPort.m_mutex = false) (hc : d.connected = true) :
    ∃ bytes d', receiveRawResponse os d = some (SerialPort.stringOf bytes, d')
      ∧ Frame d d' [.read 1024 bytes] := by
  obtain ⟨r, sp', e, m, o, n, l, -, g⟩ := SerialPort.read_spec os d.serialPort 1024 hm
  exact ⟨r, { d with serialPort := sp' },
    by simp [receiveRawResponse, hc, SerialPort.readString, e], rfl, m, o, g, n, l⟩

theorem Device.setBaudRate_frame (os : OS) (baud : Nat) (d : Impl)
    (hm : d.serialPort.m_mutex = false) :
    ∃ ok d' ops, setBaudRate os baud d = some (ok, d') ∧ Frame d d' ops := by
  cases hc : d.connected
  · exact ⟨false, d, [], by simp [setBaudRate, hc], Frame.refl d hm⟩
  · obtain ⟨r, sp', e, m, o, n, l, g⟩ := SerialPort.setBaudRate_spec os d.serialPort baud hm
    exact ⟨r, { d with serialPort := sp' }, _, by simp [setBaudRate, hc, e], rfl, m, o, g, n, l⟩


theorem Device.Command.run_fire (os : OS) (c : Command) (d : Impl) (text : String)
    (hm : d.serialPort.m_mutex = false) (hc : d.connected = true)
    (ht : c.text = some text) (hq : c.isQuery = false)
    (hrun : c.run os d = retBool (sendRawCommand os text d)) :
    ∃ r d' ops, c.run os d = some (r, d') ∧ Frame d d' ops ∧ CommandOutcome c r ops := by
  obtain ⟨ok, d', e, f⟩ := Device.sendRawCommand_spec os text d hm hc
  refine ⟨.bool ok, d', _, by rw [hrun, e]; rfl, f, Or.inr ⟨text, ok, ht, Or.inl ⟨rfl, ?_, fun _ => rfl⟩⟩⟩
  rw [hq]
  intro h
  exact absurd h (by simp)

theorem Device.Command.run_query (os : OS) (c : Command) (d : Impl) (text : String)
    (hm : d.serialPort.m_mutex = false) (hc : d.connected = true)
    (ht : c.text = some text) (hq : c.isQuery = true)
    (hfail : ∀ d1, sendRawCommand os text d = some (false, d1) → ∃ r, c.run os d = some (r, d1))
    (hok : ∀ d1 resp d2, sendRawCommand os text d = some (true, d1) →
      receiveRawResponse os d1 = some (resp, d2) → ∃ r, c.run os d = some (r, d2)) :
    ∃ r d' ops, c.run os d = some (r, d') ∧ Frame d d' ops ∧ CommandOutcome c r ops := by
  obtain ⟨ok, d1, e, f⟩ := Device.sendRawCommand_spec os text d hm hc
  cases ok
  · obtain ⟨r, hr⟩ := hfail d1 e
    exact ⟨r, d1, _, hr, f, Or.inr ⟨text, false, ht, Or.inl ⟨rfl, fun _ => rfl, by simp [hq]⟩⟩⟩
  · have hc1 : d1.connected = true := by rw [f.same]; exact hc
    obtain ⟨bytes, d2, e2, f2⟩ := Device.receiveRawResponse_spec os d1 f.unlocked hc1
    obtain ⟨r, hr⟩ := hok d1 _ d2 e e2
    exact ⟨r, d2, _, hr, f.trans f2, Or.inr ⟨text, true, ht, Or.inr ⟨hq, rfl, bytes, rfl⟩⟩⟩

theorem Device.Command.run_spec (os : OS) (c : Command) (d : Impl)
    (hm : d.serialPort.m_mutex = false) (hc : d.connected = true) :
    ∃ r d' ops, c.run os d = some (r, d') ∧ Frame d d' ops ∧ CommandOutcome c r ops := by
  cases c
  case mouseDown b =>
    cases b
    case SIDE1 => exact ⟨.bool false, d, [], by simp [Command.run, Device.mouseDown, hc, retBool], Frame.refl d hm, Or.inl ⟨rfl, rfl⟩⟩
    case SIDE2 => exact ⟨.bool false, d, [], by simp [Command.run, Device.mouseDown, hc, retBool], Frame.refl d hm, Or.inl ⟨rfl, rfl⟩⟩
    all_goals
      exact Device.Command.run_fire os _ d _ hm hc rfl rfl (by simp [Command.run, Device.mouseDown, hc])
  case mouseUp b =>
    cases b
    case SIDE1 => exact ⟨.bool false, d, [], by simp [Command.run, Device.mouseUp, hc, retBool], Frame.refl d hm, Or.inl ⟨rfl, rfl⟩⟩
    case SIDE2 => exact ⟨.bool false, d, [], by simp [Command.run, Device.mouseUp, hc, retBool], Frame.refl d hm, Or.inl ⟨rfl, rfl⟩⟩
    all_goals
      exact Device.Command.run_fire os _ d _ hm hc rfl rfl (by simp [Command.run, Device.mouseUp, hc])
  case mouseButtonState b =>
    cases b
    case SIDE1 => exact ⟨.bool false, d, [], by simp [Command.run, Device.mouseButtonState, mouseButtonStateCmd, hc, retBool], Frame.refl d hm, Or.inl ⟨rfl, rfl⟩⟩
    case SIDE2 => exact ⟨.bool false, d, [], by simp [Command.run, Device.mouseButtonState, mouseButtonStateCmd, hc, retBool], Frame.refl d hm, Or.inl ⟨rfl, rfl⟩⟩
    all_goals
      refine Device.Command.run_query os _ d _ hm hc rfl rfl ?_ ?_
      · intro d1 e
        simp [Command.run, Device.mouseButtonState, mouseButtonStateCmd, hc, e, retBool]
      · intro d1 resp d2 e e2
        simp [Command.run, Device.mouseButtonState, mouseButtonStateCmd, hc, e, e2, retBool]
  all_goals first
    | exact Device.Command.run_fire os _ d _ hm hc rfl rfl
        (by simp [Command.run, Device.mouseMove, Device.mouseMoveSmooth, Device.mouseMoveBezier, Device.mouseWheel, Device.lockMouseX,
          Device.lockMouseY, Device.lockMouseLeft, Device.lockMouseMiddle, Device.lockMouseRight, Device.lockMouseSide1,
          Device.lockMouseSide2, Device.enableButtonMonitoring, Device.setMouseSerial, Device.resetMouseSerial, hc])
    | skip
  all_goals
    refine Device.Command.run_query os _ d _ hm hc rfl rfl ?_ ?_
    · intro d1 e
      simp [Command.run, Device.getVersion, Device.isMouseXLocked, Device.isMouseYLocked, Device.isMouseLeftLocked,
        Device.isMouseMiddleLocked, Device.isMouseRightLocked, Device.isMouseSide1Locked, Device.isMouseSide2Locked,
        Device.catchMouseLeft, Device.catchMouseMiddle, Device.catchMouseRight, Device.catchMouseSide1, Device.catchMouseSide2,
        Device.isButtonMonitoringEnabled, Device.getMouseSerial, hc, e, retBool, retU8, retStr]
    · intro d1 resp d2 e e2
      simp [Command.run, Device.getVersion, Device.isMouseXLocked, Device.isMouseYLocked, Device.isMouseLeftLocked,
        Device.isMouseMiddleLocked, Device.isMouseRightLocked, Device.isMouseSide1Locked, Device.isMouseSide2Locked,
        Device.catchMouseLeft, Device.catchMouseMiddle, Device.catchMouseRight, Device.catchMouseSide1, Device.catchMouseSide2,
        Device.isButtonMonitoringEnabled, Device.getMouseSerial, hc, e, e2, retBool, retU8, retStr]
      try (cases stoi resp <;> simp)


/-! ## The listener -/

theorem land_shift_ne_zero (data bit : Nat) :
    ((data &&& (1 <<< bit)) != 0) = data.testBit bit := by
  rw [Nat.one_shiftLeft, Nat.and_two_pow]
  cases h : data.testBit bit <;> simp

theorem Device.processButtonData_eq (d : Impl) (data : Nat) (hcb : d.mouseButtonCallback = true) :
    d.processButtonData data =
      (true, { d with currentButtonMask := data,
                      callbackLog := d.callbackLog ++ buttonEvents data }) := by
  simp only [Impl.processButtonData, hcb, if_true, Impl.reportBits, land_shift_ne_zero,
    MouseButton.ofBit, buttonEvents, List.append_assoc, List.singleton_append, Nat.zero_add,
    Nat.reduceAdd]
  simp

theorem Device.processButtonData_eq_of_no_callback (d : Impl) (data : Nat)
    (hcb : d.mouseButtonCallback = false) :
    d.processButtonData data = (true, { d with currentButtonMask := data }) := by
  simp [Impl.processButtonData, hcb]

theorem Inv.of_listener {d : Impl} (hi : Inv d) (hc : d.connected = true) (sp' : SerialPort)
    (m : sp'.m_mutex = false) (o : sp'.m_isOpen = d.serialPort.m_isOpen)
    (g : sp'.m_handle = d.serialPort.m_handle)
    (n : sp'.m_portName = d.serialPort.m_portName) (b : Nat) (cl : List (MouseButton × Bool)) :
    Inv { d with serialPort := sp', currentButtonMask := b, callbackLog := cl,
                 monitorThread := some { lastValue := b } } where
  unlocked := m
  handle_ok := by simp [o, g, hi.handle_ok]
  isOpen_eq := by simp [o, hi.isOpen_eq]
  monitoring_eq := hi.monitoring_eq
  thread_eq := by simp [hc]
  status_iff := hi.status_iff
  status_ne := hi.status_ne
  info_eq := hi.info_eq
  info_of_connected := by
    intro h
    simp only [n]
    exact hi.info_of_connected h
  mask_zero := by simp [hc]
  mask_eq := by
    intro t ht
    simp at ht
    subst ht
    rfl

theorem Device.monitorStep_spec (os : OS) (d : Impl) (hi : Inv d) :
    ∃ d' ops, d.monitorStep os = some d' ∧ Inv d'
      ∧ d'.serialPort.log = d.serialPort.log ++ ops
      ∧ d'.connected = d.connected ∧ d'.mouseButtonCallback = d.mouseButtonCallback
      ∧ ∀ lv, d.monitorThread = some { lastValue := lv } →
          d'.monitorThread = some { lastValue := (delivered ops).getLastD lv }
          ∧ (d.mouseButtonCallback = true →
              d'.callbackLog = d.callbackLog ++ expectedEvents lv (delivered ops)) := by
  cases ht : d.monitorThread with
  | none =>
    refine ⟨d, [], by simp [Impl.monitorStep, ht], hi, by simp, rfl, rfl, ?_⟩
    intro lv h
    exact absurd h (by simp)
  | some t =>
    have hc : d.connected = true := by
      have := hi.thread_eq; rw [ht] at this; simpa using this.symm
    have hmon : d.monitoring = true := by rw [hi.monitoring_eq, hc]
    have hmask : d.currentButtonMask = t.lastValue := hi.mask_eq t ht
    obtain ⟨n, sp1, e1, m1, o1, n1, l1, g1⟩ := SerialPort.available_spec os d.serialPort hi.unlocked
    have hquiet : ∀ (sp : SerialPort), sp.m_mutex = false → sp.m_isOpen = d.serialPort.m_isOpen →
        sp.m_handle = d.serialPort.m_handle → sp.m_portName = d.serialPort.m_portName →
        Inv { d with serialPort := sp, monitorThread := some { lastValue := t.lastValue } } := by
      intro sp m o g n
      have := hi.of_listener hc sp m o g n t.lastValue d.callbackLog
      rw [← hmask] at this ⊢
      exact this
    by_cases hn : n > 0
    · obtain ⟨r, sp2, e2, m2, o2, n2, l2, len2, g2⟩ := SerialPort.read_spec os sp1 1 m1
      match r, e2, l2, len2 with
      | [], e2, l2, _ =>
        have hs : d.monitorStep os = some { d with
            serialPort := sp2, monitorThread := some { lastValue := t.lastValue } } := by
          simp [Impl.monitorStep, ht, hmon, hc, Impl.monitoringLoopBody, e1, hn,
            SerialPort.readByte, e2]
        refine ⟨_, [.available n, .read 1 []], hs,
          hquiet sp2 m2 (by rw [o2, o1]) (by rw [g2, g1]) (by rw [n2, n1]), by simp [l2, l1], rfl, rfl, ?_⟩
        intro lv h
        simp at h
        subst h
        simp [delivered, expectedEvents]
      | [b], e2, l2, _ =>
        by_cases hb : b = t.lastValue
        · have hs : d.monitorStep os = some { d with
              serialPort := sp2, monitorThread := some { lastValue := t.lastValue } } := by
            simp [Impl.monitorStep, ht, hmon, hc, Impl.monitoringLoopBody, e1, hn,
              SerialPort.readByte, e2, hb]
          refine ⟨_, [.available n, .read 1 [b]], hs,
            hquiet sp2 m2 (by rw [o2, o1]) (by rw [g2, g1]) (by rw [n2, n1]), by simp [l2, l1], rfl, rfl, ?_⟩
          intro lv h
          simp at h
          subst h
          simp [delivered, expectedEvents, hb]
        · have hs : d.monitorStep os = some { d with
              serialPort := sp2,
              currentButtonMask := b,
              callbackLog := (if d.mouseButtonCallback then d.callbackLog ++ buttonEvents b
                              else d.callbackLog),
              monitorThread := some { lastValue := b } } := by
            cases hcb : d.mouseButtonCallback
            · simp [Impl.monitorStep, ht, hmon, hc, Impl.monitoringLoopBody, e1, hn,
                SerialPort.readByte, e2, hb, Device.processButtonData_eq_of_no_callback, hcb]
            · simp [Impl.monitorStep, ht, hmon, hc, Impl.monitoringLoopBody, e1, hn,
                SerialPort.readByte, e2, hb, Device.processButtonData_eq, hcb]
          refine ⟨_, [.available n, .read 1 [b]], hs,
            hi.of_listener hc sp2 m2 (by rw [o2, o1]) (by rw [g2, g1]) (by rw [n2, n1]) b _, by simp [l2, l1],
            rfl, rfl, ?_⟩
          intro lv h
          simp at h
          subst h
          simp [delivered, expectedEvents, hb]
          intro h1 h2
          rw [h1] at h2
          exact absurd h2 (by simp)
      | _ :: _ :: _, _, _, len2 => simp at len2
    · have hs : d.monitorStep os = some { d with
          serialPort := sp1, monitorThread := some { lastValue := t.lastValue } } := by
        simp [Impl.monitorStep, ht, hmon, hc, Impl.monitoringLoopBody, e1, hn]
      refine ⟨_, [.available n], hs, hquiet sp1 m1 o1 g1 n1, l1, rfl, rfl, ?_⟩
      intro lv h
      simp at h
      subst h
      simp [delivered, expectedEvents]


/-! ## Disconnecting, and the invariant along call sequences -/

theorem Device.disconnect_of_not_connected (os : OS) (d : Impl) (hnc : d.connected = false) :
    disconnect os d = some d := by
  simp [disconnect, hnc]

theorem Device.disconnect_spec (os : OS) (d : Impl) (hi : Inv d) (hc : d.connected = true) :
    ∃ sp', disconnect os d = some { d with
        serialPort := sp', connected := false, status := .DISCONNECTED,
        monitoring := false, monitorThread := none,
        deviceInfo := { d.deviceInfo with isConnected := false },
        currentButtonMask := 0 }
      ∧ sp'.m_mutex = false ∧ sp'.m_isOpen = false
      ∧ sp'.m_portName = d.serialPort.m_portName
      ∧ sp'.log = d.serialPort.log ++ [.close]
      ∧ sp'.m_handle = none := by
  have hmon : d.monitoring = true := by rw [hi.monitoring_eq, hc]
  obtain ⟨sp', e, m, o, n, l, g⟩ := SerialPort.close_spec os d.serialPort hi.unlocked
  refine ⟨sp', ?_, m, o, n, l, g hi.handle_ok⟩
  cases hthr : d.monitorThread <;>
    simp [disconnect, hc, Impl.stopMonitoring, hmon, hthr, e]

theorem Inv.of_disconnected {d : Impl} (_ : Inv d) (sp' : SerialPort)
    (m : sp'.m_mutex = false) (o : sp'.m_isOpen = false) (g : sp'.m_handle = none) :
    Inv { d with
        serialPort := sp', connected := false, status := .DISCONNECTED,
        monitoring := false, monitorThread := none,
        deviceInfo := { d.deviceInfo with isConnected := false },
        currentButtonMask := 0 } where
  unlocked := m
  handle_ok := by simp [o, g]
  isOpen_eq := o
  monitoring_eq := rfl
  thread_eq := rfl
  status_iff := by simp
  status_ne := by simp
  info_eq := rfl
  info_of_connected := by simp
  mask_zero := by simp
  mask_eq := by simp

theorem Inv.of_new (vid pid : Nat) : Inv (Impl.new vid pid) where
  unlocked := rfl
  handle_ok := rfl
  isOpen_eq := rfl
  monitoring_eq := rfl
  thread_eq := rfl
  status_iff := by simp [Impl.new]
  status_ne := by simp [Impl.new]
  info_eq := rfl
  info_of_connected := by simp [Impl.new]
  mask_zero := by simp [Impl.new]
  mask_eq := by simp [Impl.new]

theorem Device.connect_inv (os : OS) (h : Host) (p : String) (d : Impl) (hi : Inv d) :
    ∃ r d', connect os h p d = some (r, d') ∧ Inv d' := by
  cases hc : d.connected
  · by_cases ht : (if p.isEmpty then findFirstDevice h else p) = ""
    · have hp : p = "" := by
        by_cases hp : p.isEmpty
        · exact (String.isEmpty_iff p).1 hp
        · simp [hp] at ht
          exact ht
      subst hp
      have he : "".isEmpty = true := by decide
      have hf : findFirstDevice h = "" := by simpa [he] using ht
      refine ⟨false, _, Device.connect_no_port os h d hc hf, ?_⟩
      have ho : d.serialPort.m_isOpen = false := by rw [hi.isOpen_eq, hc]
      have hg : d.serialPort.m_handle = none := by
        have := hi.handle_ok
        rw [ho] at this
        simpa using this
      have := hi.of_failed hc d.serialPort hi.unlocked ho hg
      exact this
    · obtain ⟨r, d', ops, e, hi', -⟩ := Device.connect_spec os h p d hi hc _ rfl ht
      exact ⟨r, d', e, hi'⟩
  · exact ⟨true, d, Device.connect_of_connected os h p d hc, hi⟩

theorem Device.disconnect_inv (os : OS) (d : Impl) (hi : Inv d) :
    ∃ d', disconnect os d = some d' ∧ Inv d' := by
  cases hc : d.connected
  · exact ⟨d, Device.disconnect_of_not_connected os d hc, hi⟩
  · obtain ⟨sp', e, m, o, -, -, g⟩ := Device.disconnect_spec os d hi hc
    exact ⟨_, e, hi.of_disconnected sp' m o g⟩

theorem Device.Command.run_of_not_connected (os : OS) (c : Command) (d : Impl)
    (hnc : d.connected = false) : c.run os d = some (c.failure, d) := by
  cases c <;>
    simp [Command.run, Command.failure, hnc, retBool, retU8, retStr, Device.getVersion,
      Device.mouseDown, Device.mouseUp, Device.mouseButtonState, Device.mouseMove,
      Device.mouseMoveSmooth, Device.mouseMoveBezier, Device.mouseWheel, Device.lockMouseX,
      Device.lockMouseY, Device.lockMouseLeft, Device.lockMouseMiddle, Device.lockMouseRight,
      Device.lockMouseSide1, Device.lockMouseSide2, Device.isMouseXLocked, Device.isMouseYLocked,
      Device.isMouseLeftLocked, Device.isMouseMiddleLocked, Device.isMouseRightLocked,
      Device.isMouseSide1Locked, Device.isMouseSide2Locked, Device.catchMouseLeft,
      Device.catchMouseMiddle, Device.catchMouseRight, Device.catchMouseSide1,
      Device.catchMouseSide2, Device.enableButtonMonitoring, Device.isButtonMonitoringEnabled,
      Device.getMouseSerial, Device.setMouseSerial, Device.resetMouseSerial]

theorem Device.Command.run_inv (os : OS) (c : Command) (d : Impl) (hi : Inv d) :
    ∃ r d', c.run os d = some (r, d') ∧ Inv d' := by
  cases hc : d.connected
  · exact ⟨_, d, Device.Command.run_of_not_connected os c d hc, hi⟩
  · obtain ⟨r, d', ops, e, f, -⟩ := Device.Command.run_spec os c d hi.unlocked hc
    exact ⟨r, d', e, f.preserves_inv hi⟩


theorem Device.Call.exec_inv (os : OS) (c : Call) (d : Impl) (hi : Inv d) :
    ∃ d', c.exec os d = some d' ∧ Inv d' := by
  cases c with
  | connect h port =>
    obtain ⟨r, d', e, hi'⟩ := Device.connect_inv os h port d hi
    exact ⟨d', by simp [Call.exec, e], hi'⟩
  | disconnect => exact Device.disconnect_inv os d hi
  | command c =>
    obtain ⟨r, d', e, hi'⟩ := Device.Command.run_inv os c d hi
    exact ⟨d', by simp [Call.exec, e], hi'⟩
  | sendRawCommand cmd =>
    cases hc : d.connected
    · exact ⟨d, by simp [Call.exec, Device.sendRawCommand, hc], hi⟩
    · obtain ⟨ok, d', e, f⟩ := Device.sendRawCommand_spec os cmd d hi.unlocked hc
      exact ⟨d', by simp [Call.exec, e], f.preserves_inv hi⟩
  | receiveRawResponse =>
    cases hc : d.connected
    · exact ⟨d, by simp [Call.exec, Device.receiveRawResponse, hc], hi⟩
    · obtain ⟨bytes, d', e, f⟩ := Device.receiveRawResponse_spec os d hi.unlocked hc
      exact ⟨d', by simp [Call.exec, e], f.preserves_inv hi⟩
  | setBaudRate r =>
    obtain ⟨ok, d', ops, e, f⟩ := Device.setBaudRate_frame os r d hi.unlocked
    exact ⟨d', by simp [Call.exec, e], f.preserves_inv hi⟩
  | setMouseButtonCallback callback =>
    exact ⟨_, rfl, ⟨hi.unlocked, hi.handle_ok, hi.isOpen_eq, hi.monitoring_eq, hi.thread_eq, hi.status_iff,
      hi.status_ne, hi.info_eq, hi.info_of_connected, hi.mask_zero, hi.mask_eq⟩⟩
  | monitorStep =>
    obtain ⟨d', ops, e, hi', -⟩ := Device.monitorStep_spec os d hi
    exact ⟨d', e, hi'⟩

theorem runCalls_inv (os : OS) (calls : List Call) (d : Impl) (hi : Inv d) :
    ∃ d', runCalls os calls d = some d' ∧ Inv d' := by
  induction calls generalizing d with
  | nil => exact ⟨d, rfl, hi⟩
  | cons c cs ih =>
    obtain ⟨d1, e1, hi1⟩ := Device.Call.exec_inv os c d hi
    obtain ⟨d2, e2, hi2⟩ := ih d1 hi1
    exact ⟨d2, by simp [runCalls, e1, e2], hi2⟩

theorem Device.Reachable.holds_inv {d : Impl} (hr : Reachable d) : Inv d := by
  obtain ⟨os, vid, pid, calls, e⟩ := hr
  obtain ⟨d', e', hi⟩ := runCalls_inv os calls _ (Inv.of_new vid pid)
  rw [e] at e'
  cases e'
  exact hi

theorem Device.Reachable.fresh (vid pid : Nat) : Reachable (Impl.new vid pid) :=
  ⟨okOS, vid, pid, [], rfl⟩

theorem runCalls_append (os : OS) (cs1 cs2 : List Call) (d : Impl) :
    runCalls os (cs1 ++ cs2) d = (runCalls os cs1 d).bind (runCalls os cs2) := by
  induction cs1 generalizing d with
  | nil => simp [runCalls]
  | cons c cs ih =>
    simp only [List.cons_append, runCalls]
    cases c.exec os d <;> simp [ih]


/-! ## Connecting (C1, C2, C3) -/

theorem okOS_ok : OkHost okOS := by
  intro hist c
  cases c <;> simp [okOS]

theorem findFirstDevice_of_ports (h : Host) (t : String) (rest : List String)
    (hp : SerialPort.findMakcuPorts h = t :: rest) : findFirstDevice h = t := by
  simp [findFirstDevice, findDevices, hp]

theorem handshakeOps_not_failed (t : String) (op : TOp) (hop : op ∈ handshakeOps t) :
    op.failed = false := by
  simp only [handshakeOps, List.mem_cons, List.mem_singleton, List.not_mem_nil, or_false] at hop
  rcases hop with rfl | rfl | rfl | rfl | rfl | rfl | rfl <;> rfl

/-- C1: on a host where every step succeeds, `connect(p)` on a `Device` that is
not connected returns `true` after performing exactly the Transport steps
open(t, 115200), write of `DE AD 05 00 A5 00 09 3D 00`, flush, close,
open(t, 4000000), write of `km.buttons(1)\r`, flush, in this order, where `t` is
`p` when `p` is not empty and otherwise the first discovered port (a port has a
non-empty name); afterwards the status is `CONNECTED`, `DeviceInfo` is
`{t, "USB-Enhanced-SERIAL CH343", 0x1A86, 0x55D3, true}` and the listener runs. -/
theorem connect_performs_handshake (os : OS) (h : Host) (p t : String) (d : Impl)
    (hr : Reachable d) (hnc : isConnected d = false) (hos : OkHost os)
    (ht : (p ≠ "" ∧ t = p) ∨
          (p = "" ∧ ∃ rest, SerialPort.findMakcuPorts h = t :: rest ∧ t ≠ "")) :
    ∃ d', connect os h p d = some (true, d')
      ∧ d'.serialPort.log = d.serialPort.log ++
          [.open t 115200 true,
           .write [0xDE, 0xAD, 0x05, 0x00, 0xA5, 0x00, 0x09, 0x3D, 0x00] true,
           .flush true,
           .close,
           .open t 4000000 true,
           .write (SerialPort.bytesOf "km.buttons(1)\r") true,
           .flush true]
      ∧ getStatus d' = .CONNECTED
      ∧ getDeviceInfo d' = { port := t, description := "USB-Enhanced-SERIAL CH343",
                             vid := 0x1A86, pid := 0x55D3, isConnected := true }
      ∧ isConnected d' = true
      ∧ d'.monitoring = true
      ∧ d'.monitorThread = some { lastValue := 0 } := by
  have hi := hr.holds_inv
  have hne : t ≠ "" := by
    rcases ht with ⟨hp, rfl⟩ | ⟨-, rest, -, hne⟩
    · exact hp
    · exact hne
  have htarget : t = if p.isEmpty then findFirstDevice h else p := by
    rcases ht with ⟨hp, htp⟩ | ⟨rfl, rest, hf, -⟩
    · have : p.isEmpty = false := by
        cases hh : p.isEmpty
        · rfl
        · exact absurd ((String.isEmpty_iff p).1 hh) hp
      simp [this, htp]
    · have he : "".isEmpty = true := by decide
      simp [he, findFirstDevice_of_ports h t rest hf]
  obtain ⟨r, d', ops, e, hi', hl, -, -, hcase, hok⟩ :=
    Device.connect_spec os h p d hi hnc t htarget hne
  have hrt : r = true := hok hos
  subst hrt
  rcases hcase with ⟨-, hops, hc', hinfo, hthr⟩ | ⟨hfalse, -⟩
  · refine ⟨d', e, ?_, hi'.status_iff.2 hc', hinfo, hc', ?_, hthr⟩
    · rw [hl, hops]; rfl
    · rw [hi'.monitoring_eq, hc']
  · exact absurd hfalse (by simp)

theorem connect_performs_handshake_witness :
    ∃ d', connect okOS noPorts "COM3" (Impl.new 0 0) = some (true, d')
      ∧ d'.serialPort.log = (Impl.new 0 0).serialPort.log ++
          [.open "COM3" 115200 true,
           .write [0xDE, 0xAD, 0x05, 0x00, 0xA5, 0x00, 0x09, 0x3D, 0x00] true,
           .flush true,
           .close,
           .open "COM3" 4000000 true,
           .write (SerialPort.bytesOf "km.buttons(1)\r") true,
           .flush true]
      ∧ getStatus d' = .CONNECTED
      ∧ getDeviceInfo d' = { port := "COM3", description := "USB-Enhanced-SERIAL CH343",
                             vid := 0x1A86, pid := 0x55D3, isConnected := true }
      ∧ isConnected d' = true
      ∧ d'.monitoring = true
      ∧ d'.monitorThread = some { lastValue := 0 } :=
  connect_performs_handshake okOS noPorts "COM3" "COM3" (Impl.new 0 0) (Reachable.fresh 0 0) rfl
    okOS_ok (Or.inl ⟨by decide, rfl⟩)


/-- C2: in every connect attempt on a reachable `Device`, on any host, `connect`
returns; and when one of its Transport steps fails (an open, a write or a flush
reports failure) it returns `false`, the status is `CONNECTION_ERROR`, the
Transport is closed (and holds no handle), `isConnected()` is `false` and the
listener is not running. -/
theorem connect_step_failure (os : OS) (h : Host) (p : String) (d : Impl)
    (hr : Reachable d) :
    ∃ r d' ops, connect os h p d = some (r, d')
      ∧ d'.serialPort.log = d.serialPort.log ++ ops
      ∧ ((∃ op ∈ ops, op.failed = true) →
          r = false ∧ getStatus d' = .CONNECTION_ERROR ∧ d'.serialPort.isOpen = false
          ∧ d'.serialPort.m_handle = none
          ∧ isConnected d' = false ∧ d'.monitoring = false ∧ d'.monitorThread = none) := by
  have hi := hr.holds_inv
  cases hc : d.connected
  · by_cases ht : (if p.isEmpty then findFirstDevice h else p) = ""
    · have hp : p = "" := by
        by_cases hp : p.isEmpty
        · exact (String.isEmpty_iff p).1 hp
        · simp [hp] at ht
          exact ht
      subst hp
      have he : "".isEmpty = true := by decide
      have hf : findFirstDevice h = "" := by simpa [he] using ht
      refine ⟨false, _, [], Device.connect_no_port os h d hc hf, by simp, ?_⟩
      rintro ⟨op, hop, -⟩
      exact absurd hop (List.not_mem_nil op)
    · obtain ⟨r, d', ops, e, hi', hl, -, -, hcase, -⟩ :=
        Device.connect_spec os h p d hi hc _ rfl ht
      refine ⟨r, d', ops, e, hl, ?_⟩
      rintro ⟨op, hop, hfail⟩
      rcases hcase with ⟨-, hops, -⟩ | ⟨hrf, -, -, hc', hst, -⟩
      · rw [hops] at hop
        rw [handshakeOps_not_failed _ op hop] at hfail
        exact absurd hfail (by simp)
      · have ho' : d'.serialPort.m_isOpen = false := by rw [hi'.isOpen_eq, hc']
        refine ⟨hrf, hst, ho', ?_, hc', ?_, ?_⟩
        · have := hi'.handle_ok
          rw [ho'] at this
          simpa using this
        · rw [hi'.monitoring_eq, hc']
        · have := hi'.thread_eq
          rw [hc'] at this
          simpa using this
  · refine ⟨true, d, [], Device.connect_of_connected os h p d hc, by simp, ?_⟩
    rintro ⟨op, hop, -⟩
    exact absurd hop (List.not_mem_nil op)

set_option maxRecDepth 4096 in
theorem connect_step_failure_witness :
    (∃ r d' ops, connect rejectReopenOS noPorts "COM3" (Impl.new 0 0) = some (r, d')
      ∧ d'.serialPort.log = (Impl.new 0 0).serialPort.log ++ ops
      ∧ ((∃ op ∈ ops, op.failed = true) →
          r = false ∧ getStatus d' = .CONNECTION_ERROR ∧ d'.serialPort.isOpen = false
          ∧ d'.serialPort.m_handle = none
          ∧ isConnected d' = false ∧ d'.monitoring = false ∧ d'.monitorThread = none))
    ∧ (connect rejectReopenOS noPorts "COM3" (Impl.new 0 0)).map
        (fun x => (x.1, x.2.status, x.2.serialPort.m_isOpen, x.2.serialPort.m_handle,
                   x.2.serialPort.log))
      = some (false, .CONNECTION_ERROR, false, none,
          [.open "COM3" 115200 true,
           .write [0xDE, 0xAD, 0x05, 0x00, 0xA5, 0x00, 0x09, 0x3D, 0x00] true,
           .flush true,
           .close,
           .open "COM3" 4000000 false,
           .close]) :=
  ⟨connect_step_failure rejectReopenOS noPorts "COM3" (Impl.new 0 0) (Reachable.fresh 0 0),
   by decide⟩

/-- C3: on a reachable `Device` whose status is `CONNECTED`, `connect` with any
port argument returns `true` and leaves the whole state as it was (no Transport
step is logged, no Win32 call is made, the listener, status, `DeviceInfo` and
button mask are unchanged); a second `connect` does the same. -/
theorem connect_when_connected (os : OS) (h h2 : Host) (p p2 : String) (d : Impl)
    (hr : Reachable d) (hs : getStatus d = .CONNECTED) :
    ∃ d', connect os h p d = some (true, d')
      ∧ d' = d
      ∧ d'.serialPort.log = d.serialPort.log
      ∧ d'.serialPort.oscalls = d.serialPort.oscalls
      ∧ d'.monitorThread = d.monitorThread
      ∧ getStatus d' = getStatus d
      ∧ getDeviceInfo d' = getDeviceInfo d
      ∧ d'.currentButtonMask = d.currentButtonMask
      ∧ connect os h2 p2 d' = some (true, d') := by
  have hc : d.connected = true := hr.holds_inv.status_iff.1 hs
  exact ⟨d, Device.connect_of_connected os h p d hc, rfl, rfl, rfl, rfl, rfl, rfl, rfl,
    Device.connect_of_connected os h2 p2 d hc⟩


theorem connectedDevice_reachable : Reachable connectedDevice :=
  ⟨okOS, 0, 0, [.connect noPorts "COM3"], by decide⟩

theorem connect_when_connected_witness :
    ∃ d', connect failOS noPorts "" connectedDevice = some (true, d')
      ∧ d' = connectedDevice
      ∧ d'.serialPort.log = connectedDevice.serialPort.log
      ∧ d'.serialPort.oscalls = connectedDevice.serialPort.oscalls
      ∧ d'.monitorThread = connectedDevice.monitorThread
      ∧ getStatus d' = getStatus connectedDevice
      ∧ getDeviceInfo d' = getDeviceInfo connectedDevice
      ∧ d'.currentButtonMask = connectedDevice.currentButtonMask
      ∧ connect failOS noPorts "COM9" d' = some (true, d') :=
  connect_when_connected failOS noPorts noPorts "" "COM9" connectedDevice
    connectedDevice_reachable (by decide)

/-! ## Status, Transport and `isConnected` agree (C4) -/

theorem SessionLog.not_handshake {d : Impl} (hs : SessionLog d) (hnc : d.connected = false)
    (pre : List TOp) (t : String) : d.serialPort.log ≠ pre ++ handshakeOps t := by
  intro hl
  have hlast : (pre ++ handshakeOps t).getLast? = some (.flush true) := by
    simp [handshakeOps]
  rcases hs.of_not_connected hnc with h0 | ⟨pre', last, h1, hne⟩
  · rw [h0] at hl
    rw [← hl] at hlast
    simp at hlast
  · rw [h1] at hl
    rw [← hl] at hlast
    simp at hlast
    exact hne hlast

theorem SessionLog.of_exec (os : OS) (c : Call) (d d' : Impl) (hi : Inv d) (hs : SessionLog d)
    (hc : c.isSession = true) (e : c.exec os d = some d') : SessionLog d' := by
  cases c with
  | connect h port =>
    cases hcon : d.connected
    · by_cases ht : (if port.isEmpty then findFirstDevice h else port) = ""
      · have hp : port = "" := by
          by_cases hp : port.isEmpty
          · exact (String.isEmpty_iff port).1 hp
          · simp [hp] at ht
            exact ht
        subst hp
        have he : "".isEmpty = true := by decide
        have hf : findFirstDevice h = "" := by simpa [he] using ht
        simp [Call.exec, Device.connect_no_port os h d hcon hf] at e
        subst e
        exact ⟨fun h' => absurd h' (by simp [hcon]), fun _ => hs.of_not_connected hcon⟩
      · obtain ⟨r, d1, ops, e1, hi1, hl, -, -, hcase, -⟩ :=
          Device.connect_spec os h port d hi hcon _ rfl ht
        simp [Call.exec, e1] at e
        subst e
        rcases hcase with ⟨-, hops, hc1, -⟩ | ⟨-, -, ⟨pre, last, hops, hne⟩, hc1, -⟩
        · exact ⟨fun _ => ⟨_, _, by rw [hl, hops]⟩, fun h' => absurd h' (by simp [hc1])⟩
        · refine ⟨fun h' => absurd h' (by simp [hc1]), fun _ => Or.inr ⟨d.serialPort.log ++ pre, last, ?_, hne⟩⟩
          rw [hl, hops, List.append_assoc]
    · simp [Call.exec, Device.connect_of_connected os h port d hcon] at e
      subst e
      exact hs
  | disconnect =>
    cases hcon : d.connected
    · simp [Call.exec, Device.disconnect_of_not_connected os d hcon] at e
      subst e
      exact hs
    · obtain ⟨sp', e1, -, -, -, hl, -⟩ := Device.disconnect_spec os d hi hcon
      simp [Call.exec, e1] at e
      subst e
      exact ⟨fun h' => absurd h' (by simp), fun _ => Or.inr ⟨_, .close, hl, by simp⟩⟩
  | command c => simp [Call.isSession] at hc
  | sendRawCommand cmd => simp [Call.isSession] at hc
  | receiveRawResponse => simp [Call.isSession] at hc
  | setBaudRate r => simp [Call.isSession] at hc
  | setMouseButtonCallback callback => simp [Call.isSession] at hc
  | monitorStep => simp [Call.isSession] at hc

theorem SessionLog.of_runCalls (os : OS) (calls : List Call) (d d' : Impl) (hi : Inv d)
    (hs : SessionLog d) (hc : ∀ c ∈ calls, c.isSession = true)
    (e : runCalls os calls d = some d') : SessionLog d' := by
  induction calls generalizing d with
  | nil =>
    simp [Device.runCalls] at e
    subst e
    exact hs
  | cons c cs ih =>
    obtain ⟨d1, e1, hi1⟩ := Device.Call.exec_inv os c d hi
    simp [Device.runCalls, e1] at e
    exact ih d1 hi1 (SessionLog.of_exec os c d d1 hi hs (hc c (List.mem_cons_self _ _)) e1)
      (fun c' hc' => hc c' (List.mem_cons_of_mem _ hc')) e

/-- C4: every finite sequence of calls on a new `Device`, on any host, returns,
and afterwards the status is `CONNECTED` exactly when the Transport is open
(`isOpen()`, and equally: its handle is valid) and exactly when `isConnected()`
is `true`; when the calls are `connect` and `disconnect` only, this is also
exactly when the Transport log ends with a complete handshake (that of the last
connect). -/
theorem status_connected_iff_open (os : OS) (vid pid : Nat) (calls : List Call) :
    ∃ d, runCalls os calls (Impl.new vid pid) = some d
      ∧ (getStatus d = .CONNECTED ↔ d.serialPort.isOpen = true)
      ∧ (getStatus d = .CONNECTED ↔ d.serialPort.m_handle.isSome = true)
      ∧ (getStatus d = .CONNECTED ↔ isConnected d = true)
      ∧ ((∀ c ∈ calls, c.isSession = true) →
          (getStatus d = .CONNECTED ↔ ∃ pre t, d.serialPort.log = pre ++ handshakeOps t)) := by
  obtain ⟨d, e, hi⟩ := runCalls_inv os calls _ (Inv.of_new vid pid)
  refine ⟨d, e, ?_, ?_, hi.status_iff, ?_⟩
  · show d.status = .CONNECTED ↔ d.serialPort.m_isOpen = true
    rw [hi.isOpen_eq]
    exact hi.status_iff
  · rw [hi.handle_ok, hi.isOpen_eq]
    exact hi.status_iff
  · intro hc
    have hs : SessionLog d :=
      SessionLog.of_runCalls os calls _ d (Inv.of_new vid pid)
        ⟨fun h' => absurd h' (by simp [Impl.new]), fun _ => Or.inl rfl⟩ hc e
    constructor
    · intro hst
      exact hs.of_connected (hi.status_iff.1 hst)
    · rintro ⟨pre, t, hl⟩
      cases hcon : d.connected
      · exact absurd hl (hs.not_handshake hcon pre t)
      · exact hi.status_iff.2 hcon


theorem status_connected_iff_open_witness :
    ∃ d, runCalls okOS [.connect noPorts "COM3", .disconnect, .connect noPorts "COM3"]
        (Impl.new 0 0) = some d
      ∧ (getStatus d = .CONNECTED ↔ d.serialPort.isOpen = true)
      ∧ (getStatus d = .CONNECTED ↔ d.serialPort.m_handle.isSome = true)
      ∧ (getStatus d = .CONNECTED ↔ isConnected d = true)
      ∧ ((∀ c ∈ [Call.connect noPorts "COM3", .disconnect, .connect noPorts "COM3"],
            c.isSession = true) →
          (getStatus d = .CONNECTED ↔ ∃ pre t, d.serialPort.log = pre ++ handshakeOps t)) :=
  status_connected_iff_open okOS 0 0 [.connect noPorts "COM3", .disconnect, .connect noPorts "COM3"]


/-! ## Disconnecting (C5, C6) -/

/-- C5, as stated, fails: after a `connect` that failed (every Win32 call
fails), the status is `CONNECTION_ERROR`, and `disconnect()` returns at its
`!connected` guard, so the status after `disconnect()` is still
`CONNECTION_ERROR`, not `DISCONNECTED`. -/
theorem disconnect_after_failed_connect_counterexample :
    ∃ d, runCalls failOS [.connect noPorts "COM3", .disconnect] (Impl.new 0 0) = some d
      ∧ getStatus d = .CONNECTION_ERROR ∧ getStatus d ≠ .DISCONNECTED :=
  ⟨_, rfl, by decide, by decide⟩

/-- C5, amended: on a reachable `Device` (whose status is never `CONNECTING`),
`disconnect()` returns; afterwards the status is `DISCONNECTED` when it was
`CONNECTED` or `DISCONNECTED` before, the state is unchanged (status still
`CONNECTION_ERROR`) when it was `CONNECTION_ERROR`, and the status is never
`CONNECTED`. -/
theorem disconnect_status (os : OS) (d : Impl) (hr : Reachable d) :
    ∃ d', disconnect os d = some d'
      ∧ getStatus d ≠ .CONNECTING
      ∧ (getStatus d = .CONNECTED ∨ getStatus d = .DISCONNECTED → getStatus d' = .DISCONNECTED)
      ∧ (getStatus d = .CONNECTION_ERROR → d' = d)
      ∧ getStatus d' ≠ .CONNECTED := by
  have hi := hr.holds_inv
  cases hc : d.connected
  · have hns : d.status ≠ .CONNECTED := fun h => by
      have := hi.status_iff.1 h
      rw [hc] at this
      exact absurd this (by simp)
    refine ⟨d, Device.disconnect_of_not_connected os d hc, hi.status_ne, ?_, fun _ => rfl, hns⟩
    rintro (h | h)
    · exact absurd h hns
    · exact h
  · obtain ⟨sp', e, -⟩ := Device.disconnect_spec os d hi hc
    refine ⟨_, e, hi.status_ne, fun _ => rfl, ?_, by simp [getStatus]⟩
    intro h
    have := hi.status_iff.2 hc
    rw [getStatus] at h
    rw [h] at this
    exact absurd this (by simp)

theorem disconnect_status_witness :
    ∃ d', disconnect okOS connectedDevice = some d'
      ∧ getStatus connectedDevice ≠ .CONNECTING
      ∧ (getStatus connectedDevice = .CONNECTED ∨ getStatus connectedDevice = .DISCONNECTED →
          getStatus d' = .DISCONNECTED)
      ∧ (getStatus connectedDevice = .CONNECTION_ERROR → d' = connectedDevice)
      ∧ getStatus d' ≠ .CONNECTED :=
  disconnect_status okOS connectedDevice connectedDevice_reachable

/-- C6: `disconnect()` on a reachable `Device` whose status is `CONNECTED`
stops the listener, closes the Transport (one `close` step), sets the status to
`DISCONNECTED`, sets `DeviceInfo.isConnected` to `false` and leaves the other
`DeviceInfo` fields as the successful connect set them, and sets the button mask
to 0; a second `disconnect()`, on any host, returns the same state. -/
theorem disconnect_connected (os os2 : OS) (d : Impl) (hr : Reachable d)
    (hs : getStatus d = .CONNECTED) :
    ∃ d', disconnect os d = some d'
      ∧ d'.monitoring = false ∧ d'.monitorThread = none
      ∧ d'.serialPort.isOpen = false ∧ d'.serialPort.m_handle = none
      ∧ d'.serialPort.log = d.serialPort.log ++ [.close]
      ∧ getStatus d' = .DISCONNECTED
      ∧ isConnected d' = false
      ∧ getDeviceInfo d' = { getDeviceInfo d with isConnected := false }
      ∧ getDeviceInfo d' = { port := d.serialPort.getPortName,
                             description := "USB-Enhanced-SERIAL CH343",
                             vid := 0x1A86, pid := 0x55D3, isConnected := false }
      ∧ d'.currentButtonMask = 0
      ∧ disconnect os2 d' = some d' := by
  have hi := hr.holds_inv
  have hc : d.connected = true := hi.status_iff.1 hs
  obtain ⟨sp', e, m, o, n, l, g⟩ := Device.disconnect_spec os d hi hc
  refine ⟨_, e, rfl, rfl, o, g, l, rfl, rfl, rfl, ?_, rfl, ?_⟩
  · simp only [getDeviceInfo, hi.info_of_connected hc, SerialPort.getPortName, TARGET_DESC,
      MAKCU_VID, MAKCU_PID]
  · exact Device.disconnect_of_not_connected os2 _ rfl

theorem disconnect_connected_witness :
    ∃ d', disconnect okOS connectedDevice = some d'
      ∧ d'.monitoring = false ∧ d'.monitorThread = none
      ∧ d'.serialPort.isOpen = false ∧ d'.serialPort.m_handle = none
      ∧ d'.serialPort.log = connectedDevice.serialPort.log ++ [.close]
      ∧ getStatus d' = .DISCONNECTED
      ∧ isConnected d' = false
      ∧ getDeviceInfo d' = { getDeviceInfo connectedDevice with isConnected := false }
      ∧ getDeviceInfo d' = { port := connectedDevice.serialPort.getPortName,
                             description := "USB-Enhanced-SERIAL CH343",
                             vid := 0x1A86, pid := 0x55D3, isConnected := false }
      ∧ d'.currentButtonMask = 0
      ∧ disconnect failOS d' = some d' :=
  disconnect_connected okOS failOS connectedDevice connectedDevice_reachable (by decide)


/-! ## The listener coalesces repeated bytes (C7, C8) -/

theorem wireChar_digitChar (k : Nat) (hk : k < 10) : wireChar (Nat.digitChar k) = true := by
  revert k
  decide

theorem wireChar_toDigitsCore (fuel n : Nat) (ds : List Char)
    (hds : ∀ c ∈ ds, wireChar c = true) :
    ∀ c ∈ Nat.toDigitsCore 10 fuel n ds, wireChar c = true := by
  induction fuel generalizing n ds with
  | zero => simpa [Nat.toDigitsCore] using hds
  | succ fuel ih =>
    have hcons : ∀ c ∈ Nat.digitChar (n % 10) :: ds, wireChar c = true := by
      intro c hc
      rcases List.mem_cons.1 hc with rfl | hc
      · exact wireChar_digitChar _ (Nat.mod_lt _ (by decide))
      · exact hds c hc
    simp only [Nat.toDigitsCore]
    split
    · exact hcons
    · exact ih _ _ hcons

theorem wireChar_toString_nat (n : Nat) : ∀ c ∈ (toString n).toList, wireChar c = true := by
  show ∀ c ∈ (Nat.repr n).toList, wireChar c = true
  simp only [Nat.repr, Nat.toDigits, List.asString, String.toList]
  exact wireChar_toDigitsCore _ _ [] (by simp)

theorem wireChar_toString_int (x : Int) : ∀ c ∈ (toString x).toList, wireChar c = true := by
  cases x with
  | ofNat m => exact wireChar_toString_nat m
  | negSucc m =>
    show ∀ c ∈ ("-" ++ toString (m + 1)).toList, wireChar c = true
    intro c hc
    simp only [String.toList, String.data_append, List.mem_append] at hc
    rcases hc with hc | hc
    · have : c = '-' := by simpa using hc
      subst this
      decide
    · exact wireChar_toString_nat (m + 1) c hc

theorem wireChar_joinArgs (args : List Int) : ∀ c ∈ (joinArgs args).toList, wireChar c = true := by
  induction args with
  | nil => simp [joinArgs]
  | cons a rest ih =>
    cases rest with
    | nil => exact wireChar_toString_int a
    | cons b rest =>
      intro c hc
      simp only [joinArgs, String.toList, String.data_append, List.mem_append] at hc
      rcases hc with (hc | hc) | hc
      · exact wireChar_toString_int a c hc
      · have : c = ',' := by simpa using hc
        subst this
        decide
      · exact ih c hc


theorem wireFormat_of_body (body : String) (hb : ∀ c ∈ body.toList, wireChar c = true) :
    (∀ b ∈ SerialPort.bytesOf (body ++ "\r"), b < 128)
    ∧ (SerialPort.bytesOf (body ++ "\r")).getLast? = some 13
    ∧ (SerialPort.bytesOf (body ++ "\r")).count 13 = 1
    ∧ 10 ∉ SerialPort.bytesOf (body ++ "\r") := by
  have hcr : ("\r" : String).data = [Char.ofNat 13] := by decide
  have hdata : SerialPort.bytesOf (body ++ "\r")
      = body.toList.map (fun c => c.toNat % 256) ++ [13] := by
    simp only [SerialPort.bytesOf, String.toList, String.data_append, List.map_append, hcr]
    rfl
  have hbyte : ∀ c ∈ body.toList, c.toNat % 256 < 128 ∧ c.toNat % 256 ≠ 13 ∧ c.toNat % 256 ≠ 10 := by
    intro c hc
    have := hb c hc
    simp only [wireChar, Bool.and_eq_true, decide_eq_true_eq, bne_iff_ne, ne_eq] at this
    obtain ⟨⟨h1, h2⟩, h3⟩ := this
    have hm : c.toNat % 256 = c.toNat := Nat.mod_eq_of_lt (by omega)
    rw [hm]
    exact ⟨h1, h2, h3⟩
  rw [hdata]
  refine ⟨?_, by simp, ?_, ?_⟩
  · intro b hbm
    rcases List.mem_append.1 hbm with h | h
    · obtain ⟨c, hc, rfl⟩ := List.mem_map.1 h
      exact (hbyte c hc).1
    · have : b = 13 := by simpa using h
      omega
  · rw [List.count_append]
    have : (body.toList.map (fun c => c.toNat % 256)).count 13 = 0 := by
      rw [List.count_eq_zero]
      intro h
      obtain ⟨c, hc, he⟩ := List.mem_map.1 h
      exact (hbyte c hc).2.1 he
    rw [this]
    rfl
  · intro h
    rcases List.mem_append.1 h with h | h
    · obtain ⟨c, hc, he⟩ := List.mem_map.1 h
      exact (hbyte c hc).2.2 he
    · simp at h

theorem wireChar_of_nameChar (c : Char) (h : nameChar c = true) : wireChar c = true := by
  simp only [nameChar, Bool.or_eq_true, Bool.and_eq_true, decide_eq_true_eq, beq_iff_eq] at h
  simp only [wireChar, Bool.and_eq_true, decide_eq_true_eq, bne_iff_ne, ne_eq]
  omega

theorem wireFormat_of_name_args (name : String) (args : List Int)
    (hn' : ∀ c ∈ name.toList, nameChar c = true) :
    WireFormat (SerialPort.bytesOf (name ++ "(" ++ joinArgs args ++ ")" ++ "\r")) := by
  have hn : ∀ c ∈ name.toList, wireChar c = true := fun c hc => wireChar_of_nameChar c (hn' c hc)
  have hb : ∀ c ∈ (name ++ "(" ++ joinArgs args ++ ")").toList, wireChar c = true := by
    intro c hc
    simp only [String.toList, String.data_append, List.mem_append] at hc
    rcases hc with ((hc | hc) | hc) | hc
    · exact hn c hc
    · have : c = '(' := by simpa using hc
      subst this
      decide
    · exact wireChar_joinArgs args c hc
    · have : c = ')' := by simpa using hc
      subst this
      decide
  obtain ⟨h1, h2, h3, h4⟩ := wireFormat_of_body _ hb
  exact ⟨h1, ⟨name, args, hn', rfl⟩, h2, h3, h4⟩

theorem Device.Command.text_format (c : Command) (text : String)
    (hns : ∀ serial, c ≠ .setMouseSerial serial) (ht : c.text = some text) :
    ∃ (name : String) (args : List Int), (∀ ch ∈ name.toList, nameChar ch = true)
      ∧ text = name ++ "(" ++ joinArgs args ++ ")" ++ "\r" := by
  have hp : (")\r" : String) = ")" ++ "\r" := by decide
  cases c with
  | setMouseSerial serial => exact absurd rfl (hns serial)
  | mouseDown b =>
    cases b <;> simp only [Command.text, Option.some.injEq] at ht <;> first
      | exact absurd ht (by simp)
      | (subst ht; first
          | exact ⟨"km.left", [1], by decide, by decide⟩
          | exact ⟨"km.right", [1], by decide, by decide⟩
          | exact ⟨"km.middle", [1], by decide, by decide⟩)
  | mouseUp b =>
    cases b <;> simp only [Command.text, Option.some.injEq] at ht <;> first
      | exact absurd ht (by simp)
      | (subst ht; first
          | exact ⟨"km.left", [0], by decide, by decide⟩
          | exact ⟨"km.right", [0], by decide, by decide⟩
          | exact ⟨"km.middle", [0], by decide, by decide⟩)
  | mouseButtonState b =>
    cases b <;> simp only [Command.text, mouseButtonStateCmd, Option.some.injEq] at ht <;> first
      | exact absurd ht (by simp)
      | (subst ht; first
          | exact ⟨"km.left", [], by decide, by decide⟩
          | exact ⟨"km.right", [], by decide, by decide⟩
          | exact ⟨"km.middle", [], by decide, by decide⟩)
  | getVersion =>
    simp only [Command.text, Option.some.injEq] at ht
    subst ht
    exact ⟨"km.version", [], by decide, by decide⟩
  | isMouseXLocked =>
    simp only [Command.text, Option.some.injEq] at ht
    subst ht
    exact ⟨"km.lock_mx", [], by decide, by decide⟩
  | isMouseYLocked =>
    simp only [Command.text, Option.some.injEq] at ht
    subst ht
    exact ⟨"km.lock_my", [], by decide, by decide⟩
  | isMouseLeftLocked =>
    simp only [Command.text, Option.some.injEq] at ht
    subst ht
    exact ⟨"km.lock_ml", [], by decide, by decide⟩
  | isMouseMiddleLocked =>
    simp only [Command.text, Option.some.injEq] at ht
    subst ht
    exact ⟨"km.lock_mm", [], by decide, by decide⟩
  | isMouseRightLocked =>
    simp only [Command.text, Option.some.injEq] at ht
    subst ht
    exact ⟨"km.lock_mr", [], by decide, by decide⟩
  | isMouseSide1Locked =>
    simp only [Command.text, Option.some.injEq] at ht
    subst ht
    exact ⟨"km.lock_ms1", [], by decide, by decide⟩
  | isMouseSide2Locked =>
    simp only [Command.text, Option.some.injEq] at ht
    subst ht
    exact ⟨"km.lock_ms2", [], by decide, by decide⟩
  | catchMouseLeft =>
    simp only [Command.text, Option.some.injEq] at ht
    subst ht
    exact ⟨"km.catch_ml", [], by decide, by decide⟩
  | catchMouseMiddle =>
    simp only [Command.text, Option.some.injEq] at ht
    subst ht
    exact ⟨"km.catch_mm", [], by decide, by decide⟩
  | catchMouseRight =>
    simp only [Command.text, Option.some.injEq] at ht
    subst ht
    exact ⟨"km.catch_mr", [], by decide, by decide⟩
  | catchMouseSide1 =>
    simp only [Command.text, Option.some.injEq] at ht
    subst ht
    exact ⟨"km.catch_ms1", [], by decide, by decide⟩
  | catchMouseSide2 =>
    simp only [Command.text, Option.some.injEq] at ht
    subst ht
    exact ⟨"km.catch_ms2", [], by decide, by decide⟩
  | isButtonMonitoringEnabled =>
    simp only [Command.text, Option.some.injEq] at ht
    subst ht
    exact ⟨"km.buttons", [], by decide, by decide⟩
  | getMouseSerial =>
    simp only [Command.text, Option.some.injEq] at ht
    subst ht
    exact ⟨"km.serial", [], by decide, by decide⟩
  | resetMouseSerial =>
    simp only [Command.text, Option.some.injEq] at ht
    subst ht
    exact ⟨"km.serial", [0], by decide, by decide⟩
  | mouseMove x y =>
    simp only [Command.text, Option.some.injEq] at ht
    subst ht
    have hq : ("km.move(" : String) = "km.move" ++ "(" := by decide
    exact ⟨"km.move", [x, y], by decide,
      by simp only [joinArgs, ostreamInt, hp, hq, String.append_assoc]⟩
  | mouseMoveSmooth x y n =>
    simp only [Command.text, Option.some.injEq] at ht
    subst ht
    have hq : ("km.move(" : String) = "km.move" ++ "(" := by decide
    exact ⟨"km.move", [x, y, (n : Int)], by decide,
      by simp only [joinArgs, ostreamInt, hp, hq, String.append_assoc]⟩
  | mouseMoveBezier x y n cx cy =>
    simp only [Command.text, Option.some.injEq] at ht
    subst ht
    have hq : ("km.move(" : String) = "km.move" ++ "(" := by decide
    exact ⟨"km.move", [x, y, (n : Int), cx, cy], by decide,
      by simp only [joinArgs, ostreamInt, hp, hq, String.append_assoc]⟩
  | mouseWheel delta =>
    simp only [Command.text, Option.some.injEq] at ht
    subst ht
    have hq : ("km.wheel(" : String) = "km.wheel" ++ "(" := by decide
    exact ⟨"km.wheel", [delta], by decide,
      by simp only [joinArgs, ostreamInt, hp, hq, String.append_assoc]⟩
  | lockMouseX l =>
    simp only [Command.text, Option.some.injEq] at ht
    subst ht
    have hq : ("km.lock_mx(" : String) = "km.lock_mx" ++ "(" := by decide
    exact ⟨"km.lock_mx", [if l then 1 else 0], by decide,
      by simp only [joinArgs, ostreamInt, hp, hq, String.append_assoc]⟩
  | lockMouseY l =>
    simp only [Command.text, Option.some.injEq] at ht
    subst ht
    have hq : ("km.lock_my(" : String) = "km.lock_my" ++ "(" := by decide
    exact ⟨"km.lock_my", [if l then 1 else 0], by decide,
      by simp only [joinArgs, ostreamInt, hp, hq, String.append_assoc]⟩
  | lockMouseLeft l =>
    simp only [Command.text, Option.some.injEq] at ht
    subst ht
    have hq : ("km.lock_ml(" : String) = "km.lock_ml" ++ "(" := by decide
    exact ⟨"km.lock_ml", [if l then 1 else 0], by decide,
      by simp only [joinArgs, ostreamInt, hp, hq, String.append_assoc]⟩
  | lockMouseMiddle l =>
    simp only [Command.text, Option.some.injEq] at ht
    subst ht
    have hq : ("km.lock_mm(" : String) = "km.lock_mm" ++ "(" := by decide
    exact ⟨"km.lock_mm", [if l then 1 else 0], by decide,
      by simp only [joinArgs, ostreamInt, hp, hq, String.append_assoc]⟩
  | lockMouseRight l =>
    simp only [Command.text, Option.some.injEq] at ht
    subst ht
    have hq : ("km.lock_mr(" : String) = "km.lock_mr" ++ "(" := by decide
    exact ⟨"km.lock_mr", [if l then 1 else 0], by decide,
      by simp only [joinArgs, ostreamInt, hp, hq, String.append_assoc]⟩
  | lockMouseSide1 l =>
    simp only [Command.text, Option.some.injEq] at ht
    subst ht
    have hq : ("km.lock_ms1(" : String) = "km.lock_ms1" ++ "(" := by decide
    exact ⟨"km.lock_ms1", [if l then 1 else 0], by decide,
      by simp only [joinArgs, ostreamInt, hp, hq, String.append_assoc]⟩
  | lockMouseSide2 l =>
    simp only [Command.text, Option.some.injEq] at ht
    subst ht
    have hq : ("km.lock_ms2(" : String) = "km.lock_ms2" ++ "(" := by decide
    exact ⟨"km.lock_ms2", [if l then 1 else 0], by decide,
      by simp only [joinArgs, ostreamInt, hp, hq, String.append_assoc]⟩
  | enableButtonMonitoring e =>
    simp only [Command.text, Option.some.injEq] at ht
    subst ht
    have hq : ("km.buttons(" : String) = "km.buttons" ++ "(" := by decide
    exact ⟨"km.buttons", [if e then 1 else 0], by decide,
      by simp only [joinArgs, ostreamInt, hp, hq, String.append_assoc]⟩


theorem CommandOutcome.write_text {c : Command} {r : Ret} {ops : List TOp}
    (ho : CommandOutcome c r ops) (data : List Nat) (ok : Bool) (hw : TOp.write data ok ∈ ops) :
    ∃ text, c.text = some text ∧ data = SerialPort.bytesOf text := by
  rcases ho with ⟨-, rfl⟩ | ⟨text, ok', ht, ⟨rfl, -⟩ | ⟨-, -, bytes, rfl⟩⟩
  · exact absurd hw (List.not_mem_nil _)
  · simp at hw
    exact ⟨text, ht, hw.1⟩
  · simp at hw
    exact ⟨text, ht, hw.1⟩

/-- C10, as stated, fails for `setMouseSerial`: with the serial string made of a
carriage return and a line feed, the bytes written on a connected `Device` are
those of `km.serial('\r\n')\r`, which contain a line feed and two carriage
returns and whose parameter is not a decimal integer. -/
theorem setMouseSerial_text_counterexample :
    ((Command.setMouseSerial "\r\n").run okOS connectedDevice).map
        (fun x => x.2.serialPort.log.drop connectedDevice.serialPort.log.length)
      = some [.write (SerialPort.bytesOf "km.serial('\r\n')\r") true]
    ∧ ¬ WireFormat (SerialPort.bytesOf "km.serial('\r\n')\r") := by
  refine ⟨by decide, ?_⟩
  rintro ⟨-, -, -, -, h⟩
  exact h (by decide)

/-- C10, amended: for every typed command call on a reachable connected
`Device` and all argument values, the call returns, and every text it writes to
the Transport is, for each command other than `setMouseSerial`, in the wire
format (ASCII; a name, parenthesised decimal integers separated by commas, then
a carriage return that is the only one; no line feed). For
`setMouseSerial(serial)` the text written is `km.serial('serial')` followed by a
carriage return: its parameter is the quoted serial string, and the text is
ASCII with a single, final carriage return and no line feed when `serial` is
ASCII and has neither carriage return nor line feed. -/
theorem command_text_format (os : OS) (c : Command) (d : Impl) (hr : Reachable d)
    (hc : isConnected d = true) :
    ∃ r d' ops, c.run os d = some (r, d')
      ∧ d'.serialPort.log = d.serialPort.log ++ ops
      ∧ ∀ data ok, TOp.write data ok ∈ ops →
          ((∀ serial, c ≠ .setMouseSerial serial) → WireFormat data)
          ∧ (∀ serial, c = .setMouseSerial serial →
              data = SerialPort.bytesOf ("km.serial('" ++ serial ++ "')" ++ "\r")
              ∧ ((∀ ch ∈ serial.toList, wireChar ch = true) →
                  (∀ b ∈ data, b < 128) ∧ data.getLast? = some 13 ∧ data.count 13 = 1
                  ∧ 10 ∉ data)) := by
  obtain ⟨r, d', ops, e, f, ho⟩ := Device.Command.run_spec os c d hr.holds_inv.unlocked hc
  refine ⟨r, d', ops, e, f.log_eq, ?_⟩
  intro data ok hw
  obtain ⟨text, ht, rfl⟩ := ho.write_text data ok hw
  constructor
  · intro hns
    obtain ⟨name, args, hn, rfl⟩ := Device.Command.text_format c text hns ht
    exact wireFormat_of_name_args name args hn
  · rintro serial rfl
    have hp : ("')\r" : String) = "')" ++ "\r" := by decide
    simp only [Command.text, Option.some.injEq] at ht
    subst ht
    have htxt : "km.serial('" ++ serial ++ "')\r" = "km.serial('" ++ serial ++ "')" ++ "\r" := by
      simp only [hp, String.append_assoc]
    rw [htxt]
    refine ⟨rfl, ?_⟩
    intro hs
    apply wireFormat_of_body
    intro ch hch
    simp only [String.toList, String.data_append, List.mem_append] at hch
    rcases hch with (hch | hch) | hch
    · revert ch
      decide
    · exact hs ch hch
    · revert ch
      decide

theorem command_text_format_witness :
    ∃ r d' ops, (Command.mouseMove 3 (-4)).run okOS connectedDevice = some (r, d')
      ∧ d'.serialPort.log = connectedDevice.serialPort.log ++ ops
      ∧ ∀ data ok, TOp.write data ok ∈ ops →
          ((∀ serial, Command.mouseMove 3 (-4) ≠ .setMouseSerial serial) → WireFormat data)
          ∧ (∀ serial, Command.mouseMove 3 (-4) = .setMouseSerial serial →
              data = SerialPort.bytesOf ("km.serial('" ++ serial ++ "')" ++ "\r")
              ∧ ((∀ ch ∈ serial.toList, wireChar ch = true) →
                  (∀ b ∈ data, b < 128) ∧ data.getLast? = some 13 ∧ data.count 13 = 1
                  ∧ 10 ∉ data)) :=
  command_text_format okOS (.mouseMove 3 (-4)) connectedDevice connectedDevice_reachable
    (by decide)


/-- C9: on a reachable connected `Device`, for all integers `x`, `y`, `ctrl_x`,
`ctrl_y` and every natural number `segments` (so for all 32-bit values),
`mouseMoveBezier` returns and performs exactly one Transport step, the write of
the text `km.move(x,y,segments,ctrl_x,ctrl_y)` with the numbers in decimal,
followed by one carriage return, which is the last byte and the only carriage
return written. -/
theorem mouseMoveBezier_text (os : OS) (x y : Int) (segments : Nat) (ctrl_x ctrl_y : Int)
    (d : Impl) (hr : Reachable d) (hc : isConnected d = true) :
    ∃ ok d' data, mouseMoveBezier os x y segments ctrl_x ctrl_y d = some (ok, d')
      ∧ d'.serialPort.log = d.serialPort.log ++ [.write data ok]
      ∧ data = SerialPort.bytesOf
          ("km.move(" ++ toString x ++ "," ++ toString y ++ "," ++ toString segments ++ ","
            ++ toString ctrl_x ++ "," ++ toString ctrl_y ++ ")" ++ "\r")
      ∧ data.getLast? = some 13
      ∧ data.count 13 = 1 := by
  obtain ⟨ok, d', e, f⟩ := Device.sendRawCommand_spec os
    ("km.move(" ++ ostreamInt x ++ "," ++ ostreamInt y ++ "," ++ ostreamInt segments ++ ","
      ++ ostreamInt ctrl_x ++ "," ++ ostreamInt ctrl_y ++ ")\r") d hr.holds_inv.unlocked hc
  have hp : (")\r" : String) = ")" ++ "\r" := by decide
  have hq : ("km.move(" : String) = "km.move" ++ "(" := by decide
  have hseg : toString (segments : Int) = toString segments := rfl
  have htxt : "km.move(" ++ ostreamInt x ++ "," ++ ostreamInt y ++ "," ++ ostreamInt segments
      ++ "," ++ ostreamInt ctrl_x ++ "," ++ ostreamInt ctrl_y ++ ")\r"
      = "km.move" ++ "(" ++ joinArgs [x, y, (segments : Int), ctrl_x, ctrl_y] ++ ")" ++ "\r" := by
    simp only [joinArgs, ostreamInt, hp, hq, String.append_assoc]
  have hw := wireFormat_of_name_args "km.move" [x, y, (segments : Int), ctrl_x, ctrl_y]
    (by decide)
  rw [← htxt] at hw
  refine ⟨ok, d', _, ?_, f.log_eq, ?_, hw.2.2.1, hw.2.2.2.1⟩
  · have hc' : d.connected = true := hc
    simp only [mouseMoveBezier, hc', Bool.not_true, Bool.false_eq_true, if_false]
    exact e
  · simp only [ostreamInt, hp, hseg, String.append_assoc]

set_option maxRecDepth 8192 in
theorem mouseMoveBezier_text_witness :
    (∃ ok d' data, mouseMoveBezier okOS 100 (-50) 20 10 10 connectedDevice = some (ok, d')
      ∧ d'.serialPort.log = connectedDevice.serialPort.log ++ [.write data ok]
      ∧ data = SerialPort.bytesOf
          ("km.move(" ++ toString (100 : Int) ++ "," ++ toString (-50 : Int) ++ ","
            ++ toString (20 : Nat) ++ "," ++ toString (10 : Int) ++ "," ++ toString (10 : Int)
            ++ ")" ++ "\r")
      ∧ data.getLast? = some 13
      ∧ data.count 13 = 1)
    ∧ (mouseMoveBezier okOS 100 (-50) 20 10 10 connectedDevice).map
        (fun r => (r.1, r.2.serialPort.log.drop connectedDevice.serialPort.log.length))
      = some (true, [.write (SerialPort.bytesOf "km.move(100,-50,20,10,10)\r") true]) :=
  ⟨mouseMoveBezier_text okOS 100 (-50) 20 10 10 connectedDevice connectedDevice_reachable
      (by decide),
   by decide⟩

/-! ## Decoding the reply of a query (C11, C12) -/

theorem tails_any_one (l : List Char) :
    l.tails.any (fun t => ['1'].isPrefixOf t) = true ↔ '1' ∈ l := by
  induction l with
  | nil => simp only [List.tails, List.any_cons, List.any_nil, List.isPrefixOf, Bool.or_false,
      Bool.false_eq_true, List.not_mem_nil]
  | cons a l ih =>
    have h1 : (['1'].isPrefixOf (a :: l)) = ('1' == a) := by
      simp only [List.isPrefixOf, Bool.and_true]
    rw [List.tails, List.any_cons, Bool.or_eq_true, ih, h1, List.mem_cons, beq_iff_eq]

theorem strContains_one (s : String) : strContains s "1" = true ↔ '1' ∈ s.toList :=
  tails_any_one s.toList

theorem Device.Command.run_query_value (os : OS) (c : Command) (d : Impl) (text : String)
    (hm : d.serialPort.m_mutex = false) (hc : d.connected = true) (ht : c.text = some text)
    (r0 : Ret) (f : String → Ret)
    (hfail : ∀ d1, sendRawCommand os text d = some (false, d1) → c.run os d = some (r0, d1))
    (hok : ∀ d1 resp d2, sendRawCommand os text d = some (true, d1) →
      receiveRawResponse os d1 = some (resp, d2) → c.run os d = some (f resp, d2)) :
    ∃ text r d', c.text = some text ∧ c.run os d = some (r, d')
      ∧ ((Frame d d' [.write (SerialPort.bytesOf text) false] ∧ r = r0)
         ∨ ∃ reply, Frame d d' [.write (SerialPort.bytesOf text) true, .read 1024 reply]
             ∧ r = f (SerialPort.stringOf reply)) := by
  obtain ⟨ok, d1, e, fr⟩ := Device.sendRawCommand_spec os text d hm hc
  cases ok
  · exact ⟨text, r0, d1, ht, hfail d1 e, Or.inl ⟨fr, rfl⟩⟩
  · have hc1 : d1.connected = true := by rw [fr.same]; exact hc
    obtain ⟨bytes, d2, e2, f2⟩ := Device.receiveRawResponse_spec os d1 fr.unlocked hc1
    exact ⟨text, _, d2, ht, hok d1 _ d2 e e2, Or.inr ⟨bytes, fr.trans f2, rfl⟩⟩

theorem Device.Command.boolQuery_spec (os : OS) (c : Command) (d : Impl)
    (hm : d.serialPort.m_mutex = false) (hc : d.connected = true) (hq : c.isBoolQuery = true) :
    ∃ text r d', c.text = some text ∧ c.run os d = some (r, d')
      ∧ ((Frame d d' [.write (SerialPort.bytesOf text) false] ∧ r = .bool false)
         ∨ ∃ reply, Frame d d' [.write (SerialPort.bytesOf text) true, .read 1024 reply]
             ∧ r = .bool (strContains (SerialPort.stringOf reply) "1")) := by
  cases c
  case mouseButtonState b =>
    cases b
    case SIDE1 => simp [Command.isBoolQuery] at hq
    case SIDE2 => simp [Command.isBoolQuery] at hq
    all_goals
      refine Device.Command.run_query_value os _ d ?_ hm hc ?_ (.bool false)
        (fun s => .bool (strContains s "1")) ?_ ?_
      rotate_left
      · exact rfl
      · intro d1 e
        simp [Command.run, Device.mouseButtonState, mouseButtonStateCmd, hc, e, retBool]
      · intro d1 resp d2 e e2
        simp [Command.run, Device.mouseButtonState, mouseButtonStateCmd, hc, e, e2, retBool]
  all_goals first
    | (simp [Command.isBoolQuery] at hq; done)
    | skip
  all_goals
    refine Device.Command.run_query_value os _ d ?_ hm hc ?_ (.bool false)
      (fun s => .bool (strContains s "1")) ?_ ?_
    rotate_left
    · exact rfl
    · intro d1 e
      simp [Command.run, Device.isMouseXLocked, Device.isMouseYLocked, Device.isMouseLeftLocked,
        Device.isMouseMiddleLocked, Device.isMouseRightLocked, Device.isMouseSide1Locked,
        Device.isMouseSide2Locked, Device.isButtonMonitoringEnabled, hc, e, retBool]
    · intro d1 resp d2 e e2
      simp [Command.run, Device.isMouseXLocked, Device.isMouseYLocked, Device.isMouseLeftLocked,
        Device.isMouseMiddleLocked, Device.isMouseRightLocked, Device.isMouseSide1Locked,
        Device.isMouseSide2Locked, Device.isButtonMonitoringEnabled, hc, e, e2, retBool]

/-- C11: a boolean query (`isMouseXLocked`, `isMouseYLocked`, `isMouseLeftLocked`,
`isMouseMiddleLocked`, `isMouseRightLocked`, `isMouseSide1Locked`,
`isMouseSide2Locked`, `isButtonMonitoringEnabled`, `mouseButtonState` for LEFT,
RIGHT, MIDDLE) on a reachable connected `Device` returns, on every host. Either
the write of its command text failed, then nothing is read and the result is
false; or the write succeeded, then exactly one reply is read back and the
result is true if and only if the reply text contains the character `1`
somewhere. -/
theorem boolean_query_true_iff_one (os : OS) (c : Command) (d : Impl) (hr : Reachable d)
    (hc : isConnected d = true) (hq : c.isBoolQuery = true) :
    ∃ text b d', c.text = some text ∧ c.run os d = some (.bool b, d')
      ∧ ((d'.serialPort.log = d.serialPort.log ++ [.write (SerialPort.bytesOf text) false]
            ∧ b = false)
         ∨ ∃ reply, d'.serialPort.log = d.serialPort.log
               ++ [.write (SerialPort.bytesOf text) true, .read 1024 reply]
             ∧ (b = true ↔ '1' ∈ (SerialPort.stringOf reply).toList)) := by
  obtain ⟨text, r, d', ht, e, ⟨f, rfl⟩ | ⟨reply, f, rfl⟩⟩ :=
    Device.Command.boolQuery_spec os c d hr.holds_inv.unlocked hc hq
  · exact ⟨text, false, d', ht, e, Or.inl ⟨f.log_eq, rfl⟩⟩
  · exact ⟨text, _, d', ht, e, Or.inr ⟨reply, f.log_eq, strContains_one _⟩⟩

set_option maxRecDepth 8192 in
theorem boolean_query_true_iff_one_witness :
    (∃ text b d', Command.isMouseLeftLocked.text = some text
      ∧ Command.isMouseLeftLocked.run (streamOS [48, 49, 13]) connectedDevice = some (.bool b, d')
      ∧ ((d'.serialPort.log = connectedDevice.serialPort.log
              ++ [.write (SerialPort.bytesOf text) false]
            ∧ b = false)
         ∨ ∃ reply, d'.serialPort.log = connectedDevice.serialPort.log
               ++ [.write (SerialPort.bytesOf text) true, .read 1024 reply]
             ∧ (b = true ↔ '1' ∈ (SerialPort.stringOf reply).toList)))
    ∧ (Command.isMouseLeftLocked.run (streamOS [48, 49, 13]) connectedDevice).map
        (fun x => (x.1, x.2.serialPort.log.drop connectedDevice.serialPort.log.length))
      = some (.bool true,
          [.write (SerialPort.bytesOf "km.lock_ml()\r") true, .read 1024 [48, 49, 13]])
    ∧ (Command.isMouseLeftLocked.run (streamOS [48, 13]) connectedDevice).map (·.1)
      = some (.bool false) :=
  ⟨boolean_query_true_iff_one (streamOS [48, 49, 13]) .isMouseLeftLocked connectedDevice
      connectedDevice_reachable (by decide) (by decide),
   by decide, by decide⟩

/-- C12, as stated, fails for a garbage reply that contains the character `1`:
on a connected `Device` whose host delivers the two bytes `x1` as the reply,
`isMouseXLocked` writes its command, reads `x1` and returns true, not false. -/
theorem lock_query_garbage_counterexample :
    (isMouseXLocked (streamOS [120, 49]) connectedDevice).map
        (fun x => (x.1, x.2.serialPort.log.drop connectedDevice.serialPort.log.length))
      = some (true, [.write (SerialPort.bytesOf "km.lock_mx()\r") true, .read 1024 [120, 49]])
    ∧ SerialPort.stringOf [120, 49] = "x1" := by
  decide

/-- C12, amended: a lock-state query on a reachable connected `Device` returns
a boolean for every host and so for every reply (no exception: the call
returns). When the write of the command text failed the result is false. When
it succeeded one reply is read, and the reply `1` decodes to true, the reply
`0` decodes to false, the empty reply decodes to false, and any other text
decodes to false when it does not contain the character `1` and to true when it
contains the character `1` anywhere. -/
theorem lock_query_decoding (os : OS) (c : Command) (d : Impl) (hr : Reachable d)
    (hc : isConnected d = true) (hq : c.isLockQuery = true) :
    ∃ text b d', c.text = some text ∧ c.run os d = some (.bool b, d')
      ∧ ((d'.serialPort.log = d.serialPort.log ++ [.write (SerialPort.bytesOf text) false]
            ∧ b = false)
         ∨ ∃ reply, d'.serialPort.log = d.serialPort.log
               ++ [.write (SerialPort.bytesOf text) true, .read 1024 reply]
             ∧ (SerialPort.stringOf reply = "1" → b = true)
             ∧ (SerialPort.stringOf reply = "0" → b = false)
             ∧ (SerialPort.stringOf reply = "" → b = false)
             ∧ ('1' ∉ (SerialPort.stringOf reply).toList → b = false)
             ∧ ('1' ∈ (SerialPort.stringOf reply).toList → b = true)) := by
  have hb : c.isBoolQuery = true := by
    cases c <;> first | rfl | exact absurd hq (by simp [Command.isLockQuery])
  obtain ⟨text, r, d', ht, e, ⟨f, rfl⟩ | ⟨reply, f, rfl⟩⟩ :=
    Device.Command.boolQuery_spec os c d hr.holds_inv.unlocked hc hb
  · exact ⟨text, false, d', ht, e, Or.inl ⟨f.log_eq, rfl⟩⟩
  · refine ⟨text, _, d', ht, e, Or.inr ⟨reply, f.log_eq, ?_, ?_, ?_, ?_, ?_⟩⟩
    · intro h
      rw [h]
      decide
    · intro h
      rw [h]
      decide
    · intro h
      rw [h]
      decide
    · intro h
      cases hs : strContains (SerialPort.stringOf reply) "1"
      · rfl
      · exact absurd ((strContains_one _).1 hs) h
    · exact (strContains_one _).2

set_option maxRecDepth 8192 in
theorem lock_query_decoding_witness :
    (∃ text b d', Command.isMouseYLocked.text = some text
      ∧ Command.isMouseYLocked.run (streamOS [48]) connectedDevice = some (.bool b, d')
      ∧ ((d'.serialPort.log = connectedDevice.serialPort.log
              ++ [.write (SerialPort.bytesOf text) false]
            ∧ b = false)
         ∨ ∃ reply, d'.serialPort.log = connectedDevice.serialPort.log
               ++ [.write (SerialPort.bytesOf text) true, .read 1024 reply]
             ∧ (SerialPort.stringOf reply = "1" → b = true)
             ∧ (SerialPort.stringOf reply = "0" → b = false)
             ∧ (SerialPort.stringOf reply = "" → b = false)
             ∧ ('1' ∉ (SerialPort.stringOf reply).toList → b = false)
             ∧ ('1' ∈ (SerialPort.stringOf reply).toList → b = true)))
    ∧ (Command.isMouseYLocked.run (streamOS [48]) connectedDevice).map (·.1)
        = some (.bool false)
    ∧ (Command.isMouseYLocked.run (streamOS [49]) connectedDevice).map (·.1)
        = some (.bool true)
    ∧ (Command.isMouseYLocked.run (streamOS []) connectedDevice).map (·.1)
        = some (.bool false) :=
  ⟨lock_query_decoding (streamOS [48]) .isMouseYLocked connectedDevice
      connectedDevice_reachable (by decide) (by decide),
   by decide, by decide, by decide⟩

/-! ## Calls that fail without touching the Transport (C13, C14, C15) -/

/-- C13: for the button SIDE1 or SIDE2, in every `Device` state (connected or
not) and on every host, `mouseDown`, `mouseUp` and `mouseButtonState` return
false and leave the whole state as it was: the Transport log and the record of
Win32 calls are unchanged, so nothing was written. -/
theorem side_button_calls_fail (os : OS) (b : MouseButton) (d : Impl)
    (hb : b = .SIDE1 ∨ b = .SIDE2) :
    mouseDown os b d = some (false, d) ∧ mouseUp os b d = some (false, d)
      ∧ mouseButtonState os b d = some (false, d) := by
  rcases hb with rfl | rfl <;> cases hc : d.connected <;>
    simp [mouseDown, mouseUp, mouseButtonState, mouseButtonStateCmd, hc]

set_option maxRecDepth 8192 in
theorem side_button_calls_fail_witness :
    (MouseButton.SIDE1 = .SIDE1 ∨ MouseButton.SIDE1 = .SIDE2)
    ∧ (mouseDown okOS .SIDE1 connectedDevice = some (false, connectedDevice)
      ∧ mouseUp okOS .SIDE1 connectedDevice = some (false, connectedDevice)
      ∧ mouseButtonState okOS .SIDE1 connectedDevice = some (false, connectedDevice))
    ∧ isConnected connectedDevice = true :=
  ⟨Or.inl rfl, side_button_calls_fail okOS .SIDE1 connectedDevice (Or.inl rfl), by decide⟩

/-- C14, as stated, fails on a connected `Device` whose Transport accepts
writes: `lockMouseSide1(true)` writes the text `km.lock_ms1(1)` with a carriage
return and returns true, and `lockMouseSide2(false)` writes `km.lock_ms2(0)`
with a carriage return and returns true. -/
theorem lockMouseSide_writes_counterexample :
    (lockMouseSide1 okOS true connectedDevice).map
        (fun x => (x.1, x.2.serialPort.log.drop connectedDevice.serialPort.log.length))
      = some (true, [.write (SerialPort.bytesOf "km.lock_ms1(1)\r") true])
    ∧ (lockMouseSide2 okOS false connectedDevice).map
        (fun x => (x.1, x.2.serialPort.log.drop connectedDevice.serialPort.log.length))
      = some (true, [.write (SerialPort.bytesOf "km.lock_ms2(0)\r") true])
    ∧ isConnected connectedDevice = true := by
  decide

/-- C14, amended: `lockMouseSide1` and `lockMouseSide2` fail without writing to
the Transport exactly when the `Device` is not connected (the state is then
unchanged). On a reachable connected `Device`, for every lock argument and every
host, each of them returns after exactly one Transport step, the write of the
text `km.lock_ms1(v)` respectively `km.lock_ms2(v)` followed by a carriage
return, with `v` being 1 for lock and 0 for unlock, and its result is the result
of that write; on a host where every Win32 call succeeds the result is true. -/
theorem lockMouseSide_behaviour (os : OS) (lock : Bool) (d : Impl) (hr : Reachable d) :
    (isConnected d = false →
      lockMouseSide1 os lock d = some (false, d) ∧ lockMouseSide2 os lock d = some (false, d))
    ∧ (isConnected d = true →
      (∃ ok d', lockMouseSide1 os lock d = some (ok, d')
        ∧ d'.serialPort.log = d.serialPort.log
            ++ [.write (SerialPort.bytesOf ("km.lock_ms1(" ++ (if lock then "1" else "0") ++ ")\r"))
                  ok]
        ∧ (OkHost os → ok = true))
      ∧ (∃ ok d', lockMouseSide2 os lock d = some (ok, d')
        ∧ d'.serialPort.log = d.serialPort.log
            ++ [.write (SerialPort.bytesOf ("km.lock_ms2(" ++ (if lock then "1" else "0") ++ ")\r"))
                  ok]
        ∧ (OkHost os → ok = true))) := by
  have hi := hr.holds_inv
  constructor
  · intro hnc
    have hnc' : d.connected = false := hnc
    simp [lockMouseSide1, lockMouseSide2, hnc']
  · intro hc
    have hc' : d.connected = true := hc
    have ho : d.serialPort.m_isOpen = true := by rw [hi.isOpen_eq]; exact hc'
    have key : ∀ text : String, text.toList ≠ [] → text.length < 4294967296 →
        ∃ ok d', sendRawCommand os text d = some (ok, d')
          ∧ d'.serialPort.log = d.serialPort.log ++ [.write (SerialPort.bytesOf text) ok]
          ∧ (OkHost os → ok = true) := by
      intro text hne hlen
      obtain ⟨r, sp', e, -, -, -, l, k, -⟩ :=
        SerialPort.write_spec os d.serialPort (SerialPort.bytesOf text) hi.unlocked
      refine ⟨r, { d with serialPort := sp' },
        by simp [sendRawCommand, hc', SerialPort.writeString, e], l, ?_⟩
      intro hos
      rw [k hos (by simpa [SerialPort.bytesOf] using hlen), ho]
      cases h : text.toList with
      | nil => exact absurd h hne
      | cons a t =>
        have h' : text.data = a :: t := h
        simp [SerialPort.bytesOf, h']
    constructor
    · have := key ("km.lock_ms1(" ++ (if lock then "1" else "0") ++ ")\r")
        (by cases lock <;> decide) (by cases lock <;> decide)
      cases lock <;> simpa [lockMouseSide1, hc', ostreamInt] using this
    · have := key ("km.lock_ms2(" ++ (if lock then "1" else "0") ++ ")\r")
        (by cases lock <;> decide) (by cases lock <;> decide)
      cases lock <;> simpa [lockMouseSide2, hc', ostreamInt] using this

theorem lockMouseSide_behaviour_witness :
    (isConnected connectedDevice = false →
      lockMouseSide1 okOS true connectedDevice = some (false, connectedDevice)
      ∧ lockMouseSide2 okOS true connectedDevice = some (false, connectedDevice))
    ∧ (isConnected connectedDevice = true →
      (∃ ok d', lockMouseSide1 okOS true connectedDevice = some (ok, d')
        ∧ d'.serialPort.log = connectedDevice.serialPort.log
            ++ [.write (SerialPort.bytesOf ("km.lock_ms1(" ++ (if true then "1" else "0") ++ ")\r"))
                  ok]
        ∧ (OkHost okOS → ok = true))
      ∧ (∃ ok d', lockMouseSide2 okOS true connectedDevice = some (ok, d')
        ∧ d'.serialPort.log = connectedDevice.serialPort.log
            ++ [.write (SerialPort.bytesOf ("km.lock_ms2(" ++ (if true then "1" else "0") ++ ")\r"))
                  ok]
        ∧ (OkHost okOS → ok = true))) :=
  lockMouseSide_behaviour okOS true connectedDevice connectedDevice_reachable

/-- C15: when the `Device` is not connected, on every host and for all
arguments, every typed command (movement, wheel, button press, release and
state, lock set and lock query, catch counters, monitoring toggle and query,
serial get, set and reset, `getVersion`) returns its failure value, which is
false, 0 or the empty string according to its result type; `getButtonMask`
returns 0; `setBaudRate` and `sendRawCommand` return false and
`receiveRawResponse` returns the empty string. Each call returns with the whole
state unchanged, so the Transport log and the record of Win32 calls are as
before: no Transport write and no Transport read was performed. -/
theorem not_connected_commands_fail (os : OS) (d : Impl) (hnc : isConnected d = false) :
    (∀ c : Command, c.run os d = some (c.failure, d)
        ∧ (c.failure = .bool false ∨ c.failure = .u8 0 ∨ c.failure = .str ""))
      ∧ getButtonMask d = 0
      ∧ (∀ baudRate, setBaudRate os baudRate d = some (false, d))
      ∧ (∀ command, sendRawCommand os command d = some (false, d))
      ∧ receiveRawResponse os d = some ("", d) := by
  have hnc' : d.connected = false := hnc
  refine ⟨fun c => ⟨Device.Command.run_of_not_connected os c d hnc', ?_⟩, ?_, ?_, ?_, ?_⟩
  · cases c <;> simp [Command.failure]
  · simp [getButtonMask, hnc']
  · intro baudRate
    simp [setBaudRate, hnc']
  · intro command
    simp [sendRawCommand, hnc']
  · simp [receiveRawResponse, hnc']

theorem not_connected_commands_fail_witness :
    isConnected (Impl.new 0 0) = false
    ∧ ((∀ c : Command, c.run okOS (Impl.new 0 0) = some (c.failure, Impl.new 0 0)
        ∧ (c.failure = .bool false ∨ c.failure = .u8 0 ∨ c.failure = .str ""))
      ∧ getButtonMask (Impl.new 0 0) = 0
      ∧ (∀ baudRate, setBaudRate okOS baudRate (Impl.new 0 0) = some (false, Impl.new 0 0))
      ∧ (∀ command, sendRawCommand okOS command (Impl.new 0 0) = some (false, Impl.new 0 0))
      ∧ receiveRawResponse okOS (Impl.new 0 0) = some ("", Impl.new 0 0)) :=
  ⟨by decide, not_connected_commands_fail okOS (Impl.new 0 0) (by decide)⟩

/-! ## Catch counters (C16) -/

theorem Device.Command.catch_spec (os : OS) (c : Command) (d : Impl)
    (hm : d.serialPort.m_mutex = false) (hc : d.connected = true) (hq : c.isCatch = true) :
    ∃ text r d', c.text = some text ∧ c.run os d = some (r, d')
      ∧ ((Frame d d' [.write (SerialPort.bytesOf text) false] ∧ r = .u8 0)
         ∨ ∃ reply, Frame d d' [.write (SerialPort.bytesOf text) true, .read 1024 reply]
             ∧ r = .u8 (((stoi (SerialPort.stringOf reply)).map castUInt8).getD 0)) := by
  cases c
  all_goals first
    | (simp [Command.isCatch] at hq; done)
    | skip
  all_goals
    refine Device.Command.run_query_value os _ d ?_ hm hc ?_ (.u8 0)
      (fun s => .u8 (((stoi s).map castUInt8).getD 0)) ?_ ?_
    rotate_left
    · exact rfl
    · intro d1 e
      simp [Command.run, Device.catchMouseLeft, Device.catchMouseMiddle, Device.catchMouseRight,
        Device.catchMouseSide1, Device.catchMouseSide2, hc, e, retU8]
    · intro d1 resp d2 e e2
      simp [Command.run, Device.catchMouseLeft, Device.catchMouseMiddle, Device.catchMouseRight,
        Device.catchMouseSide1, Device.catchMouseSide2, hc, e, e2, retU8]
      cases stoi resp <;> simp

/-- C16, as stated, fails for a non-numeric reply: on a connected `Device`,
`catchMouseLeft` returns 0 when the reply read back is the text `abc`, the same
value it returns when the reply is the count `0`, so the caller cannot tell the
two apart. A reply whose number does not fit a byte is not returned as parsed
either: the reply `300` gives 44. -/
theorem catch_non_numeric_counterexample :
    (catchMouseLeft (streamOS [97, 98, 99]) connectedDevice).map
        (fun x => (x.1, x.2.serialPort.log.drop connectedDevice.serialPort.log.length))
      = some (0, [.write (SerialPort.bytesOf "km.catch_ml()\r") true, .read 1024 [97, 98, 99]])
    ∧ (catchMouseLeft (streamOS [48]) connectedDevice).map
        (fun x => (x.1, x.2.serialPort.log.drop connectedDevice.serialPort.log.length))
      = some (0, [.write (SerialPort.bytesOf "km.catch_ml()\r") true, .read 1024 [48]])
    ∧ (catchMouseLeft (streamOS [51, 48, 48]) connectedDevice).map (·.1) = some 44
    ∧ SerialPort.stringOf [97, 98, 99] = "abc" ∧ SerialPort.stringOf [48] = "0"
    ∧ SerialPort.stringOf [51, 48, 48] = "300" := by
  decide

theorem castUInt8_lt (v : Int) : castUInt8 v < 256 := by
  unfold castUInt8
  omega

/-- C16, amended: a catch-counter query (`catchMouseLeft`, `catchMouseMiddle`,
`catchMouseRight`, `catchMouseSide1`, `catchMouseSide2`) on a reachable connected
`Device` returns a byte for every host and so for every reply (no exception
escapes: the call returns). When the write of the command text failed the
result is 0. When it succeeded one reply is read; if `std::stoi` parses an
integer `v` at the start of the reply the result is `v` reduced modulo 256, and
if it parses none (no leading decimal integer, or one outside the `int` range)
the result is 0, the same value as for a parsed count of 0. -/
theorem catch_counter_decoding (os : OS) (c : Command) (d : Impl) (hr : Reachable d)
    (hc : isConnected d = true) (hq : c.isCatch = true) :
    ∃ text n d', c.text = some text ∧ c.run os d = some (.u8 n, d') ∧ n < 256
      ∧ ((d'.serialPort.log = d.serialPort.log ++ [.write (SerialPort.bytesOf text) false]
            ∧ n = 0)
         ∨ ∃ reply, d'.serialPort.log = d.serialPort.log
               ++ [.write (SerialPort.bytesOf text) true, .read 1024 reply]
             ∧ (∀ v, stoi (SerialPort.stringOf reply) = some v → n = (v % 256).toNat)
             ∧ (stoi (SerialPort.stringOf reply) = none → n = 0)) := by
  obtain ⟨text, r, d', ht, e, ⟨f, rfl⟩ | ⟨reply, f, rfl⟩⟩ :=
    Device.Command.catch_spec os c d hr.holds_inv.unlocked hc hq
  · exact ⟨text, 0, d', ht, e, by decide, Or.inl ⟨f.log_eq, rfl⟩⟩
  · refine ⟨text, _, d', ht, e, ?_, Or.inr ⟨reply, f.log_eq, ?_, ?_⟩⟩
    · cases stoi (SerialPort.stringOf reply) with
      | none => simp
      | some v => simpa using castUInt8_lt v
    · intro v hv
      simp [hv, castUInt8]
    · intro hv
      simp [hv]

set_option maxRecDepth 8192 in
theorem catch_counter_decoding_witness :
    (∃ text n d', Command.catchMouseRight.text = some text
      ∧ Command.catchMouseRight.run (streamOS [32, 49, 50, 13, 10]) connectedDevice
          = some (.u8 n, d')
      ∧ n < 256
      ∧ ((d'.serialPort.log = connectedDevice.serialPort.log
              ++ [.write (SerialPort.bytesOf text) false]
            ∧ n = 0)
         ∨ ∃ reply, d'.serialPort.log = connectedDevice.serialPort.log
               ++ [.write (SerialPort.bytesOf text) true, .read 1024 reply]
             ∧ (∀ v, stoi (SerialPort.stringOf reply) = some v → n = (v % 256).toNat)
             ∧ (stoi (SerialPort.stringOf reply) = none → n = 0)))
    ∧ (Command.catchMouseRight.run (streamOS [32, 49, 50, 13, 10]) connectedDevice).map
        (fun x => (x.1, x.2.serialPort.log.drop connectedDevice.serialPort.log.length))
      = some (.u8 12,
          [.write (SerialPort.bytesOf "km.catch_mr()\r") true, .read 1024 [32, 49, 50, 13, 10]])
    ∧ (Command.catchMouseRight.run (streamOS [45, 51]) connectedDevice).map (·.1)
      = some (.u8 253)
    ∧ (Command.catchMouseRight.run (streamOS []) connectedDevice).map (·.1) = some (.u8 0) :=
  ⟨catch_counter_decoding (streamOS [32, 49, 50, 13, 10]) .catchMouseRight connectedDevice
      connectedDevice_reachable (by decide) (by decide),
   by decide, by decide, by decide⟩

/-! ## Fire-and-forget commands and the frame of a command (C17, C18) -/

/-- C17: on a reachable connected `Device`, on every host and for all
arguments, a typed command that is not a query and has a command text
(`mouseMove`, `mouseMoveSmooth`, `mouseMoveBezier`, `mouseWheel`, `mouseDown` and
`mouseUp` for LEFT, RIGHT, MIDDLE, the lock setters, `enableButtonMonitoring`,
`setMouseSerial`, `resetMouseSerial`) returns after exactly one Transport step,
the write of its command text, and its result is the result of that write: true
if and only if the write succeeded. The write is the only step the call adds to
the Transport log, so it reads nothing: the response is not read. -/
theorem fire_and_forget_result (os : OS) (c : Command) (text : String) (d : Impl)
    (hr : Reachable d) (hc : isConnected d = true) (hq : c.isQuery = false)
    (ht : c.text = some text) :
    ∃ ok d', c.run os d = some (.bool ok, d')
      ∧ d'.serialPort.log = d.serialPort.log ++ [.write (SerialPort.bytesOf text) ok] := by
  obtain ⟨r, d', ops, e, f, ho⟩ := Device.Command.run_spec os c d hr.holds_inv.unlocked hc
  rcases ho with ⟨hn, -⟩ | ⟨text', ok, ht', ⟨rfl, -, hres⟩ | ⟨hq', -⟩⟩
  · rw [ht] at hn
    cases hn
  · rw [ht] at ht'
    cases ht'
    rw [hres hq] at e
    exact ⟨ok, d', e, f.log_eq⟩
  · rw [hq] at hq'
    cases hq'

set_option maxRecDepth 8192 in
theorem fire_and_forget_result_witness :
    (∃ ok d', (Command.mouseWheel (-2)).run okOS connectedDevice = some (.bool ok, d')
      ∧ d'.serialPort.log = connectedDevice.serialPort.log
          ++ [.write (SerialPort.bytesOf "km.wheel(-2)\r") ok])
    ∧ (Command.mouseWheel (-2)).run failOS connectedDevice
      = some (.bool false, { connectedDevice with serialPort :=
          { connectedDevice.serialPort with
            oscalls := connectedDevice.serialPort.oscalls
              ++ [{ call := .WriteFile connectedDevice.serialPort.m_handle
                      (SerialPort.bytesOf "km.wheel(-2)\r"), lockHeld := true }]
            log := connectedDevice.serialPort.log
              ++ [.write (SerialPort.bytesOf "km.wheel(-2)\r") false] } }) :=
  ⟨fire_and_forget_result okOS (.mouseWheel (-2)) "km.wheel(-2)\r" connectedDevice
      connectedDevice_reachable (by decide) (by decide) (by decide),
   by decide⟩

theorem Frame.sameConnection {d d' : Impl} {ops : List TOp} (f : Frame d d' ops) :
    SameConnection d d' := by
  have h := f.same
  refine ⟨?_, ?_, ?_, ?_, ?_, f.isOpen_eq, f.handle_eq⟩ <;> rw [h] <;> rfl

/-- C18: every command call on a reachable connected `Device` returns, on every
host (so whether its Transport write or read succeeds or fails), and leaves
status, `isConnected()`, `DeviceInfo`, the listener (its running flag and its
thread) and the open state and handle of the Transport as they were before the
call: the `Device` is still connected with status CONNECTED. This holds for
every typed command and for `sendRawCommand`, `receiveRawResponse` and
`setBaudRate`. -/
theorem command_keeps_connection (os : OS) (d : Impl) (hr : Reachable d)
    (hc : isConnected d = true) :
    (∀ c : Command, ∃ r d', c.run os d = some (r, d') ∧ SameConnection d d'
        ∧ isConnected d' = true ∧ getStatus d' = .CONNECTED)
      ∧ (∀ command, ∃ ok d', sendRawCommand os command d = some (ok, d')
          ∧ SameConnection d d')
      ∧ (∃ response d', receiveRawResponse os d = some (response, d') ∧ SameConnection d d')
      ∧ (∀ baudRate, ∃ ok d', setBaudRate os baudRate d = some (ok, d')
          ∧ SameConnection d d') := by
  have hi := hr.holds_inv
  refine ⟨?_, ?_, ?_, ?_⟩
  · intro c
    obtain ⟨r, d', ops, e, f, -⟩ := Device.Command.run_spec os c d hi.unlocked hc
    have hs := f.sameConnection
    exact ⟨r, d', e, hs, hs.2.1.trans hc, hs.1.trans (hi.status_iff.2 hc)⟩
  · intro command
    obtain ⟨ok, d', e, f⟩ := Device.sendRawCommand_spec os command d hi.unlocked hc
    exact ⟨ok, d', e, f.sameConnection⟩
  · obtain ⟨bytes, d', e, f⟩ := Device.receiveRawResponse_spec os d hi.unlocked hc
    exact ⟨_, d', e, f.sameConnection⟩
  · intro baudRate
    obtain ⟨ok, d', ops, e, f⟩ := Device.setBaudRate_frame os baudRate d hi.unlocked
    exact ⟨ok, d', e, f.sameConnection⟩

set_option maxRecDepth 8192 in
theorem command_keeps_connection_witness :
    ((∀ c : Command, ∃ r d', c.run failOS connectedDevice = some (r, d')
        ∧ SameConnection connectedDevice d'
        ∧ isConnected d' = true ∧ getStatus d' = .CONNECTED)
      ∧ (∀ command, ∃ ok d', sendRawCommand failOS command connectedDevice = some (ok, d')
          ∧ SameConnection connectedDevice d')
      ∧ (∃ response d', receiveRawResponse failOS connectedDevice = some (response, d')
          ∧ SameConnection connectedDevice d')
      ∧ (∀ baudRate, ∃ ok d', setBaudRate failOS baudRate connectedDevice = some (ok, d')
          ∧ SameConnection connectedDevice d'))
    ∧ (Command.isMouseXLocked.run failOS connectedDevice).map
        (fun x => (x.1, getStatus x.2, isConnected x.2, x.2.serialPort.isOpen,
          x.2.monitoring, x.2.monitorThread.isSome))
      = some (.bool false, .CONNECTED, true, true, true, true) :=
  ⟨command_keeps_connection failOS connectedDevice connectedDevice_reachable (by decide),
   by decide⟩

/-! ## `SerialPort::write` and re-opening (C19, C20) -/

/-- C19, as stated, fails for the empty byte sequence: on an open port, on a
host that takes every byte of every write (asked, it accepts exactly the 0
bytes requested), `write` of the empty sequence returns false, and it does so
without calling `WriteFile`. `sendRawCommand` with the empty text on a connected
`Device` reaches this case. -/
theorem write_empty_counterexample :
    connectedDevice.serialPort.isOpen = true
    ∧ (connectedDevice.serialPort.write okOS []).map
        (fun x => (x.1, x.2.oscalls.drop connectedDevice.serialPort.oscalls.length))
      = some (false, [])
    ∧ (okOS connectedDevice.serialPort.oscalls
        (.WriteFile connectedDevice.serialPort.m_handle [])).ok = true
    ∧ (okOS connectedDevice.serialPort.oscalls
        (.WriteFile connectedDevice.serialPort.m_handle [])).value = ([] : List Nat).length
    ∧ (sendRawCommand okOS "" connectedDevice).map
        (fun x => (x.1, x.2.serialPort.log.drop connectedDevice.serialPort.log.length))
      = some (false, [.write [] false]) := by
  decide

/-- C19, amended: `SerialPort::write`, called by a thread that does not hold
`m_mutex`, returns for every byte sequence and every host. For every non-empty
byte sequence on an open port there is exactly one `WriteFile` call, made with
the lock held, and the result is true if and only if that call succeeded and
reported as many bytes written as the sequence has: when it reports fewer the
result is false, never a partial success. The empty sequence is refused (false)
on an open port before the host is asked. On a closed port the result is false
and the host is not called. (A sequence of 2^32 bytes or more is always
refused: the 32-bit count reported cannot reach its length.) -/
theorem write_succeeds_iff_all_accepted (os : OS) (sp : SerialPort) (data : List Nat)
    (hm : sp.m_mutex = false) :
    ∃ r sp' reply, sp.write os data = some (r, sp')
      ∧ sp'.log = sp.log ++ [.write data r]
      ∧ reply = os sp.oscalls (.WriteFile sp.m_handle (data.take (data.length % 4294967296)))
      ∧ (sp.isOpen = false → r = false ∧ sp'.oscalls = sp.oscalls)
      ∧ (sp.isOpen = true → data = [] → r = false ∧ sp'.oscalls = sp.oscalls)
      ∧ (sp.isOpen = true → data ≠ [] →
          sp'.oscalls = sp.oscalls
            ++ [{ call := .WriteFile sp.m_handle (data.take (data.length % 4294967296)),
                  lockHeld := true }]
          ∧ (r = true ↔ reply.ok = true ∧ reply.value % 4294967296 = data.length)
          ∧ (reply.value % 4294967296 < data.length → r = false)
          ∧ (4294967296 ≤ data.length → r = false)) := by
  simp only [SerialPort.write, SerialPort.lock, SerialPort.isOpen, hm]
  cases h1 : sp.m_isOpen
  · simp [h1, SerialPort.record, SerialPort.unlock]
  · cases data with
    | nil => simp [h1, SerialPort.record, SerialPort.unlock]
    | cons a t =>
      simp only [h1, SerialPort.record, SerialPort.unlock, SerialPort.oscall, List.isEmpty_cons,
        Bool.not_true, Bool.or_false, Bool.false_eq_true, if_false, Option.pure_def,
        Option.bind_eq_bind, Option.some_bind]
      refine ⟨_, _, _, rfl, rfl, rfl, by simp, by simp, fun _ _ => ⟨rfl, ?_, ?_, ?_⟩⟩
      · simp
      · intro hlt
        simp only [List.length_cons] at hlt
        simp
        intro _
        omega
      · intro hge
        simp only [List.length_cons] at hge
        simp
        intro _
        omega

set_option maxRecDepth 8192 in
theorem write_succeeds_iff_all_accepted_witness :
    (∃ r sp' reply, connectedDevice.serialPort.write shortWriteOS [1, 2, 3] = some (r, sp')
      ∧ sp'.log = connectedDevice.serialPort.log ++ [.write [1, 2, 3] r]
      ∧ reply = shortWriteOS connectedDevice.serialPort.oscalls
          (.WriteFile connectedDevice.serialPort.m_handle
            ([1, 2, 3].take ([1, 2, 3].length % 4294967296)))
      ∧ (connectedDevice.serialPort.isOpen = false →
          r = false ∧ sp'.oscalls = connectedDevice.serialPort.oscalls)
      ∧ (connectedDevice.serialPort.isOpen = true → [1, 2, 3] = [] →
          r = false ∧ sp'.oscalls = connectedDevice.serialPort.oscalls)
      ∧ (connectedDevice.serialPort.isOpen = true → [1, 2, 3] ≠ [] →
          sp'.oscalls = connectedDevice.serialPort.oscalls
            ++ [{ call := .WriteFile connectedDevice.serialPort.m_handle
                    ([1, 2, 3].take ([1, 2, 3].length % 4294967296)),
                  lockHeld := true }]
          ∧ (r = true ↔ reply.ok = true ∧ reply.value % 4294967296 = [1, 2, 3].length)
          ∧ (reply.value % 4294967296 < [1, 2, 3].length → r = false)
          ∧ (4294967296 ≤ [1, 2, 3].length → r = false)))
    ∧ connectedDevice.serialPort.isOpen = true
    ∧ (connectedDevice.serialPort.write shortWriteOS [1, 2, 3]).map (·.1) = some false
    ∧ (connectedDevice.serialPort.write okOS [1, 2, 3]).map (·.1) = some true
    ∧ (connectedDevice.serialPort.write okOS []).map (·.1) = some false
    ∧ (SerialPort.new.write okOS [1, 2, 3]).map (·.1) = some false :=
  ⟨write_succeeds_iff_all_accepted shortWriteOS connectedDevice.serialPort [1, 2, 3] (by decide),
   by decide, by decide, by decide, by decide, by decide⟩

/-- C20: `SerialPort::open` called on a port that is open has no result, for
every host, port name and rate: it takes `m_mutex`, finds `m_isOpen` set and
calls `close()`, whose first statement locks the same non-recursive mutex
again. The call does not get past that lock, so it never closes the old handle
and never opens the named port. -/
theorem open_on_open_port_has_no_result (os : OS) (sp : SerialPort) (port : String)
    (baudRate : Nat) (ho : sp.isOpen = true) : sp.open os port baudRate = none := by
  have ho' : sp.m_isOpen = true := ho
  cases hm : sp.m_mutex <;>
    simp [SerialPort.open, SerialPort.close, SerialPort.lock, hm, ho']

set_option maxRecDepth 8192 in
theorem open_on_open_port_has_no_result_witness :
    connectedDevice.serialPort.isOpen = true
    ∧ connectedDevice.serialPort.m_mutex = false
    ∧ connectedDevice.serialPort.open okOS "COM3" 4000000 = none
    ∧ ((SerialPort.new.open okOS "COM3" 115200).bind
        (fun x => x.2.open okOS "COM3" 115200)) = none
    ∧ ((SerialPort.new.open okOS "COM3" 115200).map (fun x => (x.1, x.2.isOpen)))
        = some (true, true) :=
  ⟨by decide, by decide,
   open_on_open_port_has_no_result okOS connectedDevice.serialPort "COM3" 4000000 (by decide),
   by decide, by decide⟩

/-! ## Choosing the port (C21) -/

theorem Device.switchToHighSpeedMode_on_port (os : OS) (d : Impl)
    (hm : d.serialPort.m_mutex = false) (ho : d.serialPort.m_isOpen = true) :
    ∃ r sp' ops, d.switchToHighSpeedMode os = some (r, { d with serialPort := sp' })
      ∧ sp'.m_mutex = false ∧ sp'.m_portName = d.serialPort.m_portName
      ∧ sp'.log = d.serialPort.log ++ ops
      ∧ ∀ op ∈ ops, op.onPort d.serialPort.m_portName = true := by
  obtain ⟨r1, sp1, e1, m1, o1, n1, l1, -, -⟩ :=
    SerialPort.write_spec os d.serialPort BAUD_CHANGE_COMMAND hm
  simp only [Impl.switchToHighSpeedMode, SerialPort.isOpen, ho, e1]
  cases r1
  · exact ⟨false, sp1, _, by simp, m1, n1, l1, by simp [TOp.onPort]⟩
  · obtain ⟨r2, sp2, e2, m2, o2, n2, l2, -, -⟩ := SerialPort.flush_spec os sp1 m1
    cases r2
    · exact ⟨false, sp2, [.write BAUD_CHANGE_COMMAND true, .flush false], by simp [e2], m2,
        by rw [n2, n1], by rw [l2, l1, List.append_assoc]; rfl, by simp [TOp.onPort]⟩
    · obtain ⟨sp3, e3, m3, o3, n3, l3, -⟩ := SerialPort.close_spec os sp2 m2
      obtain ⟨r4, sp4, e4, m4, o4, n4, l4, -, -⟩ :=
        SerialPort.open_spec os sp3 sp2.m_portName HIGH_SPEED_BAUD_RATE m3 o3
      have hn : sp2.m_portName = d.serialPort.m_portName := by rw [n2, n1]
      rw [hn] at e4 n4 l4
      refine ⟨r4, sp4, [.write BAUD_CHANGE_COMMAND true, .flush true, .close,
          .open d.serialPort.m_portName HIGH_SPEED_BAUD_RATE r4], ?_, m4, n4,
        by rw [l4, l3, l2, l1]; simp, by simp [TOp.onPort]⟩
      cases r4 <;> simp [e2, e3, e4, hn, SerialPort.getPortName]

theorem Device.initializeDevice_on_port (os : OS) (d : Impl)
    (hm : d.serialPort.m_mutex = false) (p : String) :
    ∃ r sp' ops, d.initializeDevice os = some (r, { d with serialPort := sp' })
      ∧ sp'.m_mutex = false ∧ sp'.m_portName = d.serialPort.m_portName
      ∧ sp'.log = d.serialPort.log ++ ops
      ∧ ∀ op ∈ ops, op.onPort p = true := by
  cases ho : d.serialPort.m_isOpen
  · exact ⟨false, d.serialPort, [], by simp [Impl.initializeDevice, SerialPort.isOpen, ho], hm,
      rfl, by simp, by simp⟩
  obtain ⟨r1, sp1, e1, m1, o1, n1, l1, -, -⟩ :=
    SerialPort.write_spec os d.serialPort (SerialPort.bytesOf "km.buttons(1)\r") hm
  simp only [Impl.initializeDevice, SerialPort.isOpen, ho, SerialPort.writeString, e1]
  cases r1
  · exact ⟨false, sp1, _, by simp, m1, n1, l1, by simp [TOp.onPort]⟩
  · obtain ⟨r2, sp2, e2, m2, o2, n2, l2, -, -⟩ := SerialPort.flush_spec os sp1 m1
    refine ⟨r2, sp2, [.write (SerialPort.bytesOf "km.buttons(1)\r") true, .flush r2], ?_, m2,
      by rw [n2, n1], by rw [l2, l1, List.append_assoc]; rfl, by simp [TOp.onPort]⟩
    cases r2 <;> simp [e2]

theorem Device.connect_on_port (os : OS) (h : Host) (p : String) (d : Impl) (hi : Inv d)
    (hnc : d.connected = false) (hne : p ≠ "") :
    ∃ r d' ok rest, connect os h p d = some (r, d')
      ∧ d'.serialPort.log = d.serialPort.log ++ .open p INITIAL_BAUD_RATE ok :: rest
      ∧ (∀ op ∈ rest, op.onPort p = true)
      ∧ d'.serialPort.m_portName = p := by
  have hpe : p.isEmpty = false := by
    cases hh : p.isEmpty
    · rfl
    · exact absurd ((String.isEmpty_iff p).1 hh) hne
  have hmon : d.monitoring = false := by rw [hi.monitoring_eq, hnc]
  have hthr : d.monitorThread = none := by
    have := hi.thread_eq; rw [hnc] at this; simpa using this
  obtain ⟨r1, sp1, e1, m1, o1, n1, l1, -, -⟩ :=
    SerialPort.open_spec os d.serialPort p INITIAL_BAUD_RATE hi.unlocked (by rw [hi.isOpen_eq, hnc])
  simp only [connect, hnc, hpe]
  simp only [Bool.false_eq_true, if_false, Bool.false_and, e1]
  cases r1
  · exact ⟨false, { d with serialPort := sp1, status := .CONNECTION_ERROR }, false, [],
      by simp [hnc], l1, by simp, n1⟩
  · obtain ⟨r2, sp2, ops2, e2, m2, n2, l2, p2⟩ :=
      Device.switchToHighSpeedMode_on_port os
        { d with status := .CONNECTING, serialPort := sp1, connected := false } m1 o1
    simp only [] at e2 n2 l2 p2
    rw [n1] at n2 p2
    cases r2
    · obtain ⟨sp4, e4, m4, o4, n4, l4, -⟩ := SerialPort.close_spec os sp2 m2
      refine ⟨false, { d with serialPort := sp4, status := .CONNECTION_ERROR }, true,
        ops2 ++ [.close], by simp [e2, e4, hnc], by rw [l4, l2, l1]; simp, ?_, by rw [n4, n2]⟩
      intro op hop
      rcases List.mem_append.1 hop with hop | hop
      · exact p2 op hop
      · simp at hop
        subst hop
        rfl
    · obtain ⟨r3, sp3, ops3, e3, m3, n3, l3, p3⟩ :=
        Device.initializeDevice_on_port os
          { d with status := .CONNECTING, serialPort := sp2, connected := false } m2 p
      simp only [] at e3 n3 l3 p3
      cases r3
      · obtain ⟨sp4, e4, m4, o4, n4, l4, -⟩ := SerialPort.close_spec os sp3 m3
        refine ⟨false, { d with serialPort := sp4, status := .CONNECTION_ERROR }, true,
          ops2 ++ ops3 ++ [.close], by simp [e2, e3, e4, hnc], by rw [l4, l3, l2, l1]; simp, ?_,
          by rw [n4, n3, n2]⟩
        intro op hop
        rcases List.mem_append.1 hop with hop | hop
        · rcases List.mem_append.1 hop with hop | hop
          · exact p2 op hop
          · exact p3 op hop
        · simp at hop
          subst hop
          rfl
      · refine ⟨true, { d with
            serialPort := sp3,
            deviceInfo := { port := p, description := TARGET_DESC, vid := MAKCU_VID,
                            pid := MAKCU_PID, isConnected := true },
            connected := true, status := .CONNECTED, monitoring := true,
            monitorThread := some { lastValue := 0 } }, true, ops2 ++ ops3,
          by simp [e2, e3]; simp [Impl.startMonitoring, hmon, hthr],
          by rw [l3, l2, l1]; simp, ?_, by rw [n3, n2]⟩
        intro op hop
        rcases List.mem_append.1 hop with hop | hop
        · exact p2 op hop
        · exact p3 op hop

/-- C21: on a reachable `Device` that is not connected, on every host.
`connect` with the empty port, when discovery finds no device, returns false
with status CONNECTION_ERROR and changes nothing else: the Transport, its log
and the record of Win32 calls are as before, so no Transport operation was
performed. `connect` with a non-empty port `p` does not depend on what discovery
would find; it returns, its first Transport step is `open(p, 115200)`, every
later open step of the attempt is on `p` as well, the port name of the Transport
is `p` afterwards, and when it succeeds `DeviceInfo` names `p`. -/
theorem connect_port_choice (os : OS) (h : Host) (p : String) (d : Impl) (hr : Reachable d)
    (hnc : isConnected d = false) :
    (findDevices h = [] →
      connect os h "" d = some (false, { d with status := .CONNECTION_ERROR }))
    ∧ (p ≠ "" →
      (∀ h2, connect os h2 p d = connect os h p d)
      ∧ ∃ r d' ok rest, connect os h p d = some (r, d')
          ∧ d'.serialPort.log = d.serialPort.log ++ .open p 115200 ok :: rest
          ∧ (∀ port baud res, TOp.open port baud res ∈ rest → port = p)
          ∧ d'.serialPort.getPortName = p
          ∧ (r = true → (getDeviceInfo d').port = p)) := by
  have hi := hr.holds_inv
  have hnc' : d.connected = false := hnc
  constructor
  · intro hf
    exact Device.connect_no_port os h d hnc' (by simp [findFirstDevice, hf])
  · intro hne
    have hpe : p.isEmpty = false := by
      cases hh : p.isEmpty
      · rfl
      · exact absurd ((String.isEmpty_iff p).1 hh) hne
    refine ⟨fun h2 => by simp only [connect, hpe, Bool.false_eq_true, if_false], ?_⟩
    obtain ⟨r, d', ok, rest, e, l, hp, n⟩ := Device.connect_on_port os h p d hi hnc' hne
    refine ⟨r, d', ok, rest, e, l, ?_, n, ?_⟩
    · intro port baud res hmem
      have := hp _ hmem
      simpa [TOp.onPort] using this
    · intro hrt
      obtain ⟨r2, d2, ops, e2, -, -, -, -, hcase, -⟩ :=
        Device.connect_spec os h p d hi hnc' p (by simp [hpe]) hne
      rw [e] at e2
      cases e2
      rcases hcase with ⟨-, -, -, hinfo, -⟩ | ⟨hf, -⟩
      · show d'.deviceInfo.port = p
        rw [hinfo]
      · rw [hrt] at hf
        cases hf

set_option maxRecDepth 8192 in
theorem connect_port_choice_witness :
    ((findDevices noPorts = [] →
      connect rejectReopenOS noPorts "" (Impl.new 0 0)
        = some (false, { Impl.new 0 0 with status := .CONNECTION_ERROR }))
    ∧ ("COM3" ≠ "" →
      (∀ h2, connect rejectReopenOS h2 "COM3" (Impl.new 0 0)
        = connect rejectReopenOS noPorts "COM3" (Impl.new 0 0))
      ∧ ∃ r d' ok rest, connect rejectReopenOS noPorts "COM3" (Impl.new 0 0) = some (r, d')
          ∧ d'.serialPort.log = (Impl.new 0 0).serialPort.log ++ .open "COM3" 115200 ok :: rest
          ∧ (∀ port baud res, TOp.open port baud res ∈ rest → port = "COM3")
          ∧ d'.serialPort.getPortName = "COM3"
          ∧ (r = true → (getDeviceInfo d').port = "COM3")))
    ∧ findDevices noPorts = []
    ∧ (connect rejectReopenOS noPorts "COM3" (Impl.new 0 0)).map
        (fun x => (x.1, x.2.serialPort.log))
      = some (false, [.open "COM3" 115200 true,
          .write [0xDE, 0xAD, 0x05, 0x00, 0xA5, 0x00, 0x09, 0x3D, 0x00] true, .flush true, .close,
          .open "COM3" 4000000 false, .close])
    ∧ (connect okOS noPorts "COM3" (Impl.new 0 0)).map
        (fun x => (x.1, (getDeviceInfo x.2).port, x.2.serialPort.getPortName))
      = some (true, "COM3", "COM3") :=
  ⟨connect_port_choice rejectReopenOS noPorts "COM3" (Impl.new 0 0) (Device.Reachable.fresh 0 0)
      (by decide),
   by decide, by decide, by decide⟩

/-! ## The listener runs exactly while connected (C23) -/

theorem Device.connect_result (os : OS) (h : Host) (p : String) (d : Impl) (hi : Inv d) :
    ∃ r d', connect os h p d = some (r, d') ∧ Inv d' ∧ d'.connected = r
      ∧ (r = false → d'.status = .CONNECTION_ERROR) := by
  cases hc : d.connected
  · by_cases ht : (if p.isEmpty then findFirstDevice h else p) = ""
    · have hp : p = "" := by
        by_cases hp : p.isEmpty
        · exact (String.isEmpty_iff p).1 hp
        · simp [hp] at ht
          exact ht
      subst hp
      have he : "".isEmpty = true := by decide
      have hf : findFirstDevice h = "" := by simpa [he] using ht
      obtain ⟨r, d', e, hi'⟩ := Device.connect_inv os h "" d hi
      have e2 := Device.connect_no_port os h d hc hf
      rw [e] at e2
      cases e2
      exact ⟨false, _, e, hi', hc, fun _ => rfl⟩
    · obtain ⟨r, d', ops, e, hi', -, -, -, hcase, -⟩ := Device.connect_spec os h p d hi hc _ rfl ht
      rcases hcase with ⟨rfl, -, hcon, -⟩ | ⟨rfl, -, -, hcon, hst, -⟩
      · exact ⟨true, d', e, hi', hcon, fun hf => by cases hf⟩
      · exact ⟨false, d', e, hi', hcon, fun _ => hst⟩
  · exact ⟨true, d, Device.connect_of_connected os h p d hc, hi, hc, fun hf => by cases hf⟩

theorem Device.disconnect_result (os : OS) (d : Impl) (hi : Inv d) :
    ∃ d', disconnect os d = some d' ∧ Inv d' ∧ d'.connected = false := by
  obtain ⟨d', e, hi'⟩ := Device.disconnect_inv os d hi
  refine ⟨d', e, hi', ?_⟩
  cases hc : d.connected
  · rw [Device.disconnect_of_not_connected os d hc] at e
    cases e
    exact hc
  · obtain ⟨sp', e2, -⟩ := Device.disconnect_spec os d hi hc
    rw [e] at e2
    cases e2
    rfl

/-- C23: every finite sequence of calls on a new `Device` (in particular every
sequence of `connect` and `disconnect` calls), on any host, returns, and
afterwards the listener is running (the monitoring flag is set, and equally:
the listener thread exists) if and only if the status is CONNECTED; with status
DISCONNECTED or CONNECTION_ERROR it is not running. From such a state a
`connect` that succeeds leaves the listener running and one that fails leaves
it stopped, and `disconnect` leaves it stopped with the thread joined. -/
theorem listener_runs_iff_connected (os : OS) (vid pid : Nat) (calls : List Call) :
    ∃ d, runCalls os calls (Impl.new vid pid) = some d
      ∧ (d.monitoring = true ↔ getStatus d = .CONNECTED)
      ∧ (d.monitorThread.isSome = true ↔ getStatus d = .CONNECTED)
      ∧ (getStatus d = .DISCONNECTED ∨ getStatus d = .CONNECTION_ERROR →
          d.monitoring = false ∧ d.monitorThread = none)
      ∧ (∀ os2 h p, ∃ r d', connect os2 h p d = some (r, d')
          ∧ (r = true → d'.monitoring = true ∧ d'.monitorThread.isSome = true
              ∧ getStatus d' = .CONNECTED)
          ∧ (r = false → d'.monitoring = false ∧ d'.monitorThread = none
              ∧ getStatus d' = .CONNECTION_ERROR))
      ∧ (∀ os2, ∃ d', disconnect os2 d = some d' ∧ d'.monitoring = false
          ∧ d'.monitorThread = none ∧ getStatus d' ≠ .CONNECTED) := by
  obtain ⟨d, e, hi⟩ := runCalls_inv os calls _ (Inv.of_new vid pid)
  have key : ∀ d : Impl, Inv d →
      (d.monitoring = true ↔ getStatus d = .CONNECTED)
      ∧ (d.monitorThread.isSome = true ↔ getStatus d = .CONNECTED)
      ∧ (getStatus d ≠ .CONNECTED → d.monitoring = false ∧ d.monitorThread = none) := by
    intro d hi
    have h1 : d.monitoring = true ↔ getStatus d = .CONNECTED := by
      rw [hi.monitoring_eq]
      exact hi.status_iff.symm
    have h2 : d.monitorThread.isSome = true ↔ getStatus d = .CONNECTED := by
      rw [hi.thread_eq]
      exact hi.status_iff.symm
    refine ⟨h1, h2, fun hne => ⟨?_, ?_⟩⟩
    · cases hm : d.monitoring
      · rfl
      · exact absurd (h1.1 hm) hne
    · cases ht : d.monitorThread
      · rfl
      · exact absurd (h2.1 (by simp [ht])) hne
  obtain ⟨k1, k2, k3⟩ := key d hi
  refine ⟨d, e, k1, k2, ?_, ?_, ?_⟩
  · intro hs
    apply k3
    rcases hs with hs | hs <;> rw [hs] <;> decide
  · intro os2 h p
    obtain ⟨r, d', e', hi', hcon, herr⟩ := Device.connect_result os2 h p d hi
    obtain ⟨j1, j2, j3⟩ := key d' hi'
    refine ⟨r, d', e', ?_, ?_⟩
    · intro hr
      rw [hr] at hcon
      have hs := hi'.status_iff.2 hcon
      exact ⟨j1.2 hs, j2.2 hs, hs⟩
    · intro hr
      have hs := herr hr
      have hne : getStatus d' ≠ .CONNECTED := by
        show d'.status ≠ .CONNECTED
        rw [hs]
        decide
      exact ⟨(j3 hne).1, (j3 hne).2, hs⟩
  · intro os2
    obtain ⟨d', e', hi', hcon⟩ := Device.disconnect_result os2 d hi
    obtain ⟨j1, j2, j3⟩ := key d' hi'
    have hne : getStatus d' ≠ .CONNECTED := by
      intro hs
      have := hi'.status_iff.1 hs
      rw [hcon] at this
      cases this
    exact ⟨d', e', (j3 hne).1, (j3 hne).2, hne⟩

set_option maxRecDepth 8192 in
theorem listener_runs_iff_connected_witness :
    (runCalls okOS [.connect noPorts "COM3"] (Impl.new 0 0)).map
        (fun d => (d.monitoring, d.monitorThread.isSome, getStatus d))
      = some (true, true, .CONNECTED)
    ∧ (runCalls okOS [.connect noPorts "COM3", .disconnect] (Impl.new 0 0)).map
        (fun d => (d.monitoring, d.monitorThread.isSome, getStatus d))
      = some (false, false, .DISCONNECTED)
    ∧ (runCalls failOS [.connect noPorts "COM3"] (Impl.new 0 0)).map
        (fun d => (d.monitoring, d.monitorThread.isSome, getStatus d))
      = some (false, false, .CONNECTION_ERROR)
    ∧ ∃ d, runCalls okOS [.connect noPorts "COM3", .disconnect, .connect noPorts "COM3"]
          (Impl.new 0 0) = some d
      ∧ (d.monitoring = true ↔ getStatus d = .CONNECTED)
      ∧ (d.monitorThread.isSome = true ↔ getStatus d = .CONNECTED)
      ∧ (getStatus d = .DISCONNECTED ∨ getStatus d = .CONNECTION_ERROR →
          d.monitoring = false ∧ d.monitorThread = none)
      ∧ (∀ os2 h p, ∃ r d', connect os2 h p d = some (r, d')
          ∧ (r = true → d'.monitoring = true ∧ d'.monitorThread.isSome = true
              ∧ getStatus d' = .CONNECTED)
          ∧ (r = false → d'.monitoring = false ∧ d'.monitorThread = none
              ∧ getStatus d' = .CONNECTION_ERROR))
      ∧ (∀ os2, ∃ d', disconnect os2 d = some d' ∧ d'.monitoring = false
          ∧ d'.monitorThread = none ∧ getStatus d' ≠ .CONNECTED) :=
  ⟨by decide, by decide, by decide,
   listener_runs_iff_connected okOS 0 0
     [.connect noPorts "COM3", .disconnect, .connect noPorts "COM3"]⟩

/-! ## The button mask is the whole byte (C26) -/

/-- C30: `SerialPort::setBaudRate(r)`, called by a thread that does not hold
`m_mutex`, returns for every rate `r` and every host, and afterwards
`getBaudRate()` is `r` whatever the result was. On a closed port the result is
true and only `r` is recorded: no Win32 call is made. On an open port there is
one `SetCommState` call and the result is its result, so when the host rejects
the rate the result is false and the recorded rate is still `r`. In every case
the open state and the handle are unchanged and no `CloseHandle` call is
made. -/
theorem setBaudRate_records_rate (os : OS) (sp : SerialPort) (r : Nat)
    (hm : sp.m_mutex = false) :
    ∃ ok sp', sp.setBaudRate os r = some (ok, sp')
      ∧ sp'.getBaudRate = r
      ∧ sp'.isOpen = sp.isOpen ∧ sp'.m_handle = sp.m_handle
      ∧ (sp.isOpen = false →
          ok = true
          ∧ sp' = { sp with m_baudRate := r, log := sp.log ++ [.setBaudRate r true] })
      ∧ (sp.isOpen = true →
          sp'.oscalls = sp.oscalls
            ++ [{ call := .SetCommState sp.m_handle r, lockHeld := true }]
          ∧ ok = (os sp.oscalls (.SetCommState sp.m_handle r)).ok)
      ∧ (∀ e ∈ sp'.oscalls.drop sp.oscalls.length, ∀ h, e.call ≠ .CloseHandle h) := by
  simp only [SerialPort.setBaudRate, SerialPort.lock, SerialPort.isOpen, SerialPort.getBaudRate,
    hm]
  cases h1 : sp.m_isOpen
  · simp [h1, SerialPort.record, SerialPort.unlock, hm]
  · cases h3 : (os sp.oscalls (.SetCommState sp.m_handle r)).ok <;>
      simp [h1, h3, SerialPort.record, SerialPort.unlock, SerialPort.oscall]

set_option maxRecDepth 8192 in
theorem setBaudRate_records_rate_witness :
    (∃ ok sp', connectedDevice.serialPort.setBaudRate failOS 9600 = some (ok, sp')
      ∧ sp'.getBaudRate = 9600
      ∧ sp'.isOpen = connectedDevice.serialPort.isOpen
      ∧ sp'.m_handle = connectedDevice.serialPort.m_handle
      ∧ (connectedDevice.serialPort.isOpen = false →
          ok = true
          ∧ sp' = { connectedDevice.serialPort with
              m_baudRate := 9600,
              log := connectedDevice.serialPort.log ++ [.setBaudRate 9600 true] })
      ∧ (connectedDevice.serialPort.isOpen = true →
          sp'.oscalls = connectedDevice.serialPort.oscalls
            ++ [{ call := .SetCommState connectedDevice.serialPort.m_handle 9600,
                  lockHeld := true }]
          ∧ ok = (failOS connectedDevice.serialPort.oscalls
                    (.SetCommState connectedDevice.serialPort.m_handle 9600)).ok)
      ∧ (∀ e ∈ sp'.oscalls.drop connectedDevice.serialPort.oscalls.length,
          ∀ h, e.call ≠ .CloseHandle h))
    ∧ (connectedDevice.serialPort.setBaudRate failOS 9600).map
        (fun x => (x.1, x.2.getBaudRate, x.2.isOpen, x.2.m_handle))
      = some (false, 9600, true, connectedDevice.serialPort.m_handle)
    ∧ connectedDevice.serialPort.getBaudRate = 4000000
    ∧ (SerialPort.new.setBaudRate failOS 9600).map
        (fun x => (x.1, x.2.getBaudRate, x.2.isOpen, x.2.oscalls))
      = some (true, 9600, false, []) :=
  ⟨setBaudRate_records_rate failOS connectedDevice.serialPort 9600 (by decide),
   by decide, by decide, by decide⟩

/-! ## Win32 calls and the lock (C25) -/

theorem CallsUnderLock.of_suffix {sp sp' : SerialPort}
    (h1 : sp'.oscalls = sp.oscalls ++ sp'.oscalls.drop sp.oscalls.length)
    (h2 : ∀ e ∈ sp'.oscalls.drop sp.oscalls.length, e.lockHeld = true) :
    CallsUnderLock sp sp' := ⟨_, h1, h2⟩

theorem SerialPort.write_under_lock (os : OS) (sp : SerialPort) (data : List Nat) (r : Bool)
    (sp' : SerialPort) (hm : sp.m_mutex = false) (h : sp.write os data = some (r, sp')) :
    CallsUnderLock sp sp' := by
  simp only [SerialPort.write, SerialPort.lock, hm] at h
  cases h1 : sp.m_isOpen <;> cases h2 : data.isEmpty <;>
    simp [h1, h2, SerialPort.record, SerialPort.unlock, SerialPort.oscall] at h <;>
    obtain ⟨-, rfl⟩ := h <;>
    apply CallsUnderLock.of_suffix <;> simp

theorem SerialPort.read_under_lock (os : OS) (sp : SerialPort) (n : Nat) (r : List Nat)
    (sp' : SerialPort) (hm : sp.m_mutex = false) (h : sp.read os n = some (r, sp')) :
    CallsUnderLock sp sp' := by
  simp only [SerialPort.read, SerialPort.lock, hm] at h
  cases h1 : sp.m_isOpen <;> cases h2 : (n == 0) <;>
    simp [h1, h2, SerialPort.record, SerialPort.unlock, SerialPort.oscall] at h <;>
    obtain ⟨-, rfl⟩ := h <;>
    apply CallsUnderLock.of_suffix <;> simp

theorem SerialPort.available_under_lock (os : OS) (sp : SerialPort) (r : Nat)
    (sp' : SerialPort) (hm : sp.m_mutex = false) (h : sp.available os = some (r, sp')) :
    CallsUnderLock sp sp' := by
  simp only [SerialPort.available, SerialPort.lock, hm] at h
  cases h1 : sp.m_isOpen
  · simp [h1, SerialPort.record, SerialPort.unlock] at h
    obtain ⟨-, rfl⟩ := h
    apply CallsUnderLock.of_suffix <;> simp
  · cases h3 : (os sp.oscalls (.ClearCommError sp.m_handle)).ok <;>
      simp [h1, h3, SerialPort.record, SerialPort.unlock, SerialPort.oscall] at h <;>
      obtain ⟨-, rfl⟩ := h <;> apply CallsUnderLock.of_suffix <;> simp

theorem SerialPort.flush_under_lock (os : OS) (sp : SerialPort) (r : Bool)
    (sp' : SerialPort) (hm : sp.m_mutex = false) (h : sp.flush os = some (r, sp')) :
    CallsUnderLock sp sp' := by
  simp only [SerialPort.flush, SerialPort.lock, hm] at h
  cases h1 : sp.m_isOpen <;>
    simp [h1, SerialPort.record, SerialPort.unlock, SerialPort.oscall] at h <;>
    obtain ⟨-, rfl⟩ := h <;>
    apply CallsUnderLock.of_suffix <;> simp

theorem SerialPort.setBaudRate_under_lock (os : OS) (sp : SerialPort) (baud : Nat) (r : Bool)
    (sp' : SerialPort) (hm : sp.m_mutex = false) (h : sp.setBaudRate os baud = some (r, sp')) :
    CallsUnderLock sp sp' := by
  simp only [SerialPort.setBaudRate, SerialPort.lock, hm] at h
  cases h1 : sp.m_isOpen <;>
    simp [h1, SerialPort.record, SerialPort.unlock, SerialPort.oscall] at h <;>
    obtain ⟨-, rfl⟩ := h <;>
    apply CallsUnderLock.of_suffix <;> simp

theorem SerialPort.open_under_lock (os : OS) (sp : SerialPort) (port : String) (baud : Nat)
    (r : Bool) (sp' : SerialPort) (hm : sp.m_mutex = false)
    (h : sp.open os port baud = some (r, sp')) : CallsUnderLock sp sp' := by
  simp only [SerialPort.open, SerialPort.lock, hm] at h
  cases h1 : sp.m_isOpen
  · simp [h1, SerialPort.record, SerialPort.unlock, SerialPort.oscall, SerialPort.configurePort,
      SerialPort.updateTimeouts] at h
    split_ifs at h <;> simp at h <;> obtain ⟨-, rfl⟩ := h <;>
      apply CallsUnderLock.of_suffix <;> simp
  · simp [h1, SerialPort.close, SerialPort.lock] at h

theorem SerialPort.close_under_lock (os : OS) (sp sp' : SerialPort) (hm : sp.m_mutex = false)
    (h : sp.close os = some sp') : CallsUnderLock sp sp' := by
  simp only [SerialPort.close, SerialPort.lock, hm] at h
  cases h1 : sp.m_isOpen <;> cases h2 : sp.m_handle <;>
    simp [h1, h2, SerialPort.record, SerialPort.unlock, SerialPort.oscall] at h <;>
    subst h <;> apply CallsUnderLock.of_suffix <;> simp

/-- C25: the claim holds for `open`, `close`, `read`, `write`, `available`,
`flush` and `setBaudRate`, and fails for `setTimeout`. Called by a thread that
does not hold `m_mutex`, each of the seven makes every one of its Win32 calls
with the lock held. `setTimeout` on an open port takes no lock: it makes one
`SetCommTimeouts` call on the handle while `m_mutex` is free, so this call is
not serialised with the other operations. -/
theorem setTimeout_calls_host_without_lock (os : OS) (sp : SerialPort) (timeoutMs : Nat)
    (hm : sp.m_mutex = false) (ho : sp.isOpen = true) :
    (sp.setTimeout os timeoutMs).oscalls
        = sp.oscalls ++ [{ call := .SetCommTimeouts sp.m_handle timeoutMs, lockHeld := false }]
    ∧ ¬ CallsUnderLock sp (sp.setTimeout os timeoutMs)
    ∧ (∀ sp1 port baud r sp', sp1.m_mutex = false → sp1.open os port baud = some (r, sp') →
        CallsUnderLock sp1 sp')
    ∧ (∀ sp', sp.close os = some sp' → CallsUnderLock sp sp')
    ∧ (∀ n r sp', sp.read os n = some (r, sp') → CallsUnderLock sp sp')
    ∧ (∀ data r sp', sp.write os data = some (r, sp') → CallsUnderLock sp sp')
    ∧ (∀ r sp', sp.available os = some (r, sp') → CallsUnderLock sp sp')
    ∧ (∀ r sp', sp.flush os = some (r, sp') → CallsUnderLock sp sp')
    ∧ (∀ baud r sp', sp.setBaudRate os baud = some (r, sp') → CallsUnderLock sp sp') := by
  have ho' : sp.m_isOpen = true := ho
  have hcalls : (sp.setTimeout os timeoutMs).oscalls
      = sp.oscalls ++ [{ call := .SetCommTimeouts sp.m_handle timeoutMs, lockHeld := false }] := by
    simp [SerialPort.setTimeout, ho', SerialPort.updateTimeouts, SerialPort.oscall, hm]
  refine ⟨hcalls, ?_, fun sp1 port baud r sp' hm1 h => SerialPort.open_under_lock os sp1 port baud r sp' hm1 h,
    fun sp' h => SerialPort.close_under_lock os sp sp' hm h,
    fun n r sp' h => SerialPort.read_under_lock os sp n r sp' hm h,
    fun data r sp' h => SerialPort.write_under_lock os sp data r sp' hm h,
    fun r sp' h => SerialPort.available_under_lock os sp r sp' hm h,
    fun r sp' h => SerialPort.flush_under_lock os sp r sp' hm h,
    fun baud r sp' h => SerialPort.setBaudRate_under_lock os sp baud r sp' hm h⟩
  rintro ⟨evs, he, hall⟩
  rw [hcalls] at he
  have := List.append_cancel_left he
  subst this
  have := hall _ (List.mem_singleton_self _)
  simp at this

set_option maxRecDepth 8192 in
theorem setTimeout_calls_host_without_lock_witness :
    connectedDevice.serialPort.m_mutex = false
    ∧ connectedDevice.serialPort.isOpen = true
    ∧ ((connectedDevice.serialPort.setTimeout okOS 500).oscalls
        = connectedDevice.serialPort.oscalls
          ++ [{ call := .SetCommTimeouts connectedDevice.serialPort.m_handle 500,
                lockHeld := false }]
      ∧ ¬ CallsUnderLock connectedDevice.serialPort (connectedDevice.serialPort.setTimeout okOS 500)
      ∧ (∀ sp1 port baud r sp', sp1.m_mutex = false →
          sp1.open okOS port baud = some (r, sp') → CallsUnderLock sp1 sp')
      ∧ (∀ sp', connectedDevice.serialPort.close okOS = some sp' →
          CallsUnderLock connectedDevice.serialPort sp')
      ∧ (∀ n r sp', connectedDevice.serialPort.read okOS n = some (r, sp') →
          CallsUnderLock connectedDevice.serialPort sp')
      ∧ (∀ data r sp', connectedDevice.serialPort.write okOS data = some (r, sp') →
          CallsUnderLock connectedDevice.serialPort sp')
      ∧ (∀ r sp', connectedDevice.serialPort.available okOS = some (r, sp') →
          CallsUnderLock connectedDevice.serialPort sp')
      ∧ (∀ r sp', connectedDevice.serialPort.flush okOS = some (r, sp') →
          CallsUnderLock connectedDevice.serialPort sp')
      ∧ (∀ baud r sp', connectedDevice.serialPort.setBaudRate okOS baud = some (r, sp') →
          CallsUnderLock connectedDevice.serialPort sp'))
    ∧ ((connectedDevice.serialPort.setTimeout okOS 500).oscalls.map (·.lockHeld)).getLast?
        = some false
    ∧ ((connectedDevice.serialPort.write okOS [1]).map
        (fun x => (x.2.oscalls.map (·.lockHeld)).getLast?)) = some (some true) :=
  ⟨by decide, by decide,
   setTimeout_calls_host_without_lock okOS connectedDevice.serialPort 500 (by decide) (by decide),
   by decide, by decide⟩

/-! ## The read step of a command (C24) -/

set_option maxRecDepth 100000 in
/-- C24, as stated, fails when more than 1024 bytes are pending: on a connected
`Device` whose host holds 1025 bytes of input (`available()` reports 1025),
`receiveRawResponse` returns only the first 1024 of them, and so does the query
`getVersion`. -/
theorem receive_truncates_counterexample :
    (connectedDevice.serialPort.available (streamOS (List.replicate 1025 65))).map (·.1)
      = some 1025
    ∧ (receiveRawResponse (streamOS (List.replicate 1025 65)) connectedDevice).map (·.1)
      = some (String.mk (List.replicate 1024 'A'))
    ∧ (getVersion (streamOS (List.replicate 1025 65)) connectedDevice).map (·.1.length)
      = some 1024 := by
  decide

theorem SerialPort.read_1024 (os : OS) (sp : SerialPort) (p : OsReply)
    (hp : p = os sp.oscalls (.ReadFile sp.m_handle 1024)) (hm : sp.m_mutex = false)
    (ho : sp.m_isOpen = true) :
    ∃ reply sp', sp.read os 1024 = some (reply, sp')
      ∧ sp'.log = sp.log ++ [.read 1024 reply]
      ∧ reply = if p.ok = true ∧ p.bytes ≠ [] then (p.bytes.take 1024).map (· % 256) else [] := by
  subst hp
  simp only [SerialPort.read, SerialPort.lock, hm, ho]
  simp [SerialPort.record, SerialPort.unlock, SerialPort.oscall, List.length_pos, List.map_take]
  exact ⟨_, _, ⟨rfl, rfl⟩, rfl, rfl⟩

/-- C24, amended: the read step of a command transaction on a reachable
connected `Device` is one `read` of at most 1024 bytes. With `pending` being
what the host hands over to that `ReadFile` call: the reply is the whole
pending input when the call succeeds and at most 1024 bytes are pending, it is
the first 1024 bytes of the pending input when more are pending, and it is
empty when the call fails. -/
theorem receive_reads_at_most_1024 (os : OS) (d : Impl) (hr : Reachable d)
    (hc : isConnected d = true) :
    ∃ reply d' pending, receiveRawResponse os d = some (SerialPort.stringOf reply, d')
      ∧ d'.serialPort.log = d.serialPort.log ++ [.read 1024 reply]
      ∧ pending = os d.serialPort.oscalls (.ReadFile d.serialPort.m_handle 1024)
      ∧ reply.length ≤ 1024
      ∧ (pending.ok = true → reply = (pending.bytes.take 1024).map (· % 256))
      ∧ (pending.ok = true → pending.bytes.length ≤ 1024 → reply = pending.bytes.map (· % 256))
      ∧ (pending.ok = false → reply = []) := by
  have hi := hr.holds_inv
  have hc' : d.connected = true := hc
  have ho : d.serialPort.m_isOpen = true := by rw [hi.isOpen_eq]; exact hc'
  obtain ⟨reply, sp', e, l, hv⟩ := SerialPort.read_1024 os d.serialPort _ rfl hi.unlocked ho
  generalize os d.serialPort.oscalls (.ReadFile d.serialPort.m_handle 1024) = p at hv ⊢
  have htake : p.ok = true → reply = (p.bytes.take 1024).map (· % 256) := by
    intro hok
    by_cases hlen : p.bytes = []
    · simp [hv, hok, hlen]
    · simp [hv, hok, hlen]
  refine ⟨reply, { d with serialPort := sp' }, p,
    by simp [receiveRawResponse, hc', SerialPort.readString, e], l, rfl, ?_, htake, ?_, ?_⟩
  · rw [hv]
    split_ifs <;> simp
  · intro hok hle
    rw [htake hok, List.take_of_length_le hle]
  · intro hok
    simp [hv, hok]

set_option maxRecDepth 8192 in
theorem receive_reads_at_most_1024_witness :
    (∃ reply d' pending,
      receiveRawResponse (streamOS [49, 13, 10]) connectedDevice
        = some (SerialPort.stringOf reply, d')
      ∧ d'.serialPort.log = connectedDevice.serialPort.log ++ [.read 1024 reply]
      ∧ pending = streamOS [49, 13, 10] connectedDevice.serialPort.oscalls
          (.ReadFile connectedDevice.serialPort.m_handle 1024)
      ∧ reply.length ≤ 1024
      ∧ (pending.ok = true → reply = (pending.bytes.take 1024).map (· % 256))
      ∧ (pending.ok = true → pending.bytes.length ≤ 1024 → reply = pending.bytes.map (· % 256))
      ∧ (pending.ok = false → reply = []))
    ∧ (receiveRawResponse (streamOS [49, 13, 10]) connectedDevice).map (·.1) = some "1\r\n"
    ∧ (receiveRawResponse failOS connectedDevice).map (·.1) = some "" :=
  ⟨receive_reads_at_most_1024 (streamOS [49, 13, 10]) connectedDevice connectedDevice_reachable
      (by decide),
   by decide, by decide⟩

/-! ## Catch counters are taken modulo 256 (C27) -/

theorem foldl_decimal (ds : List Char) (a : Nat) :
    ds.foldl (fun a c => 10 * a + (c.toNat - 48)) a = a * 10 ^ ds.length + decimalValue ds := by
  induction ds generalizing a with
  | nil => simp [decimalValue]
  | cons c cs ih =>
    simp only [List.foldl_cons, ih, decimalValue, List.length_cons]
    ring

theorem dropWhile_append_of_all {α : Type} (p : α → Bool) (l r : List α)
    (hl : ∀ c ∈ l, p c = true) (hr : ∀ c, r.head? = some c → p c = false) :
    (l ++ r).dropWhile p = r := by
  induction l with
  | nil =>
    cases r with
    | nil => rfl
    | cons c cs => simp [List.dropWhile, hr c rfl]
  | cons a l ih =>
    simp only [List.cons_append, List.dropWhile, hl a (List.mem_cons_self _ _)]
    exact ih (fun c hc => hl c (List.mem_cons_of_mem _ hc))

theorem takeWhile_append_of_all {α : Type} (p : α → Bool) (l r : List α)
    (hl : ∀ c ∈ l, p c = true) (hr : ∀ c, r.head? = some c → p c = false) :
    (l ++ r).takeWhile p = l := by
  induction l with
  | nil =>
    cases r with
    | nil => rfl
    | cons c cs => simp [List.takeWhile, hr c rfl]
  | cons a l ih =>
    simp only [List.cons_append, List.takeWhile, hl a (List.mem_cons_self _ _)]
    exact congrArg _ (ih (fun c hc => hl c (List.mem_cons_of_mem _ hc)))

theorem isDigit_not_space (c : Char) (h : c.isDigit = true) : isspace c = false := by
  simp only [Char.isDigit, Bool.and_eq_true, decide_eq_true_eq] at h
  have h1 : 48 ≤ c.toNat := by
    have := h.1
    exact this
  simp [isspace]
  omega

theorem stoi_of_leadingInt (s : String) (n : Int) (h : LeadingInt s n)
    (hlo : -2147483648 ≤ n) (hhi : n ≤ 2147483647) : stoi s = some n := by
  obtain ⟨ws, sign, ds, rest, hs, hws, hsign, hne, hds, hrest, hn⟩ := h
  obtain ⟨d, ds', rfl⟩ : ∃ d ds', ds = d :: ds' := by
    cases ds with
    | nil => exact absurd rfl hne
    | cons d ds' => exact ⟨d, ds', rfl⟩
  have hd : d.isDigit = true := hds d (List.mem_cons_self _ _)
  have hdrop : s.toList.dropWhile isspace = sign ++ (d :: ds' ++ rest) := by
    rw [hs]
    apply dropWhile_append_of_all _ _ _ hws
    intro c hc
    rcases hsign with rfl | rfl | rfl
    · simp at hc
      subst hc
      exact isDigit_not_space _ hd
    · simp at hc
      subst hc
      decide
    · simp at hc
      subst hc
      decide
  have htake : (d :: ds' ++ rest).takeWhile Char.isDigit = d :: ds' :=
    takeWhile_append_of_all _ _ _ hds hrest
  have hval : (d :: ds').foldl (fun a c => 10 * a + (c.toNat - 48)) 0 = decimalValue (d :: ds') := by
    rw [foldl_decimal]
    simp
  have hsgn : stoiSign (sign ++ (d :: ds' ++ rest))
      = (decide (sign = ['-']), d :: ds' ++ rest) := by
    rcases hsign with rfl | rfl | rfl
    · have h1 : d ≠ '-' := by
        rintro rfl
        exact absurd hd (by decide)
      have h2 : d ≠ '+' := by
        rintro rfl
        exact absurd hd (by decide)
      simp only [List.nil_append, List.cons_append]
      unfold stoiSign
      split
      · rename_i heq
        injection heq with ha
        exact absurd ha h1
      · rename_i heq
        injection heq with ha
        exact absurd ha h2
      · rfl
    · rfl
    · rfl
  unfold stoi
  simp only [hdrop, hsgn, htake, hval]
  simp only [decide_eq_true_eq, ← hn]
  have hr : ¬ (n < -2147483648 ∨ 2147483647 < n) := by omega
  simp [hr]

theorem head_dropWhile_not {α : Type} (p : α → Bool) (l : List α) (c : α)
    (h : (l.dropWhile p).head? = some c) : p c = false := by
  induction l with
  | nil => simp at h
  | cons a l ih =>
    cases hp : p a
    · simp [List.dropWhile, hp] at h
      subst h
      exact hp
    · simp only [List.dropWhile, hp] at h
      exact ih h

theorem stoiSign_spec (cs : List Char) :
    ∃ sign, cs = sign ++ (stoiSign cs).2 ∧ (sign = [] ∨ sign = ['+'] ∨ sign = ['-'])
      ∧ (stoiSign cs).1 = decide (sign = ['-']) := by
  unfold stoiSign
  split
  · exact ⟨['-'], rfl, Or.inr (Or.inr rfl), rfl⟩
  · exact ⟨['+'], rfl, Or.inr (Or.inl rfl), rfl⟩
  · exact ⟨[], rfl, Or.inl rfl, rfl⟩

theorem leadingInt_of_stoi (s : String) (v : Int) (h : stoi s = some v) :
    LeadingInt s v ∧ -2147483648 ≤ v ∧ v ≤ 2147483647 := by
  obtain ⟨sign, hcs, hsign, hneg⟩ := stoiSign_spec (s.toList.dropWhile isspace)
  cases hpr : stoiSign (s.toList.dropWhile isspace) with
  | mk neg cs' =>
  rw [hpr] at hcs hneg
  unfold stoi at h
  simp only [hpr] at h hcs hneg
  by_cases hemp : (cs'.takeWhile Char.isDigit).isEmpty = true
  · simp [hemp] at h
  · simp only [hemp, Bool.false_eq_true, if_false] at h
    rw [foldl_decimal] at h
    simp only [zero_mul, zero_add] at h
    generalize hval : (if neg = true then -(decimalValue (cs'.takeWhile Char.isDigit) : Int)
      else (decimalValue (cs'.takeWhile Char.isDigit) : Int)) = val at h
    split_ifs at h with hrange
    injection h with hv
    subst hv
    refine ⟨⟨s.toList.takeWhile isspace, sign, cs'.takeWhile Char.isDigit,
      cs'.dropWhile Char.isDigit, ?_, ?_, hsign, ?_, ?_, ?_, ?_⟩, ?_, ?_⟩
    · rw [List.takeWhile_append_dropWhile, ← hcs, List.takeWhile_append_dropWhile]
    · intro c hc
      exact List.mem_takeWhile_imp hc
    · intro hnil
      rw [hnil] at hemp
      exact hemp rfl
    · intro c hc
      exact List.mem_takeWhile_imp hc
    · intro c hc
      exact head_dropWhile_not _ _ _ hc
    · rw [← hval, hneg]
      simp
    · omega
    · omega

/-- C27: a catch-counter query on a reachable connected `Device`, on every host,
returns a byte. When the write of the command text succeeded and the reply
starts, after optional white space and an optional sign, with a decimal integer
`n` within the range of `int`, the result is `n` modulo 256 (so the reply `256`
gives 0 and the reply `-1` gives 255); when the reply has no leading integer the
result is 0, the value the reply `0` gives as well. -/
theorem catch_counter_modulo (os : OS) (c : Command) (d : Impl) (hr : Reachable d)
    (hc : isConnected d = true) (hq : c.isCatch = true) :
    ∃ text k d', c.text = some text ∧ c.run os d = some (.u8 k, d')
      ∧ ((d'.serialPort.log = d.serialPort.log ++ [.write (SerialPort.bytesOf text) false]
            ∧ k = 0)
         ∨ ∃ reply, d'.serialPort.log = d.serialPort.log
               ++ [.write (SerialPort.bytesOf text) true, .read 1024 reply]
             ∧ (∀ n, LeadingInt (SerialPort.stringOf reply) n → -2147483648 ≤ n →
                  n ≤ 2147483647 → k = (n % 256).toNat)
             ∧ ((∀ n, ¬ LeadingInt (SerialPort.stringOf reply) n) → k = 0)) := by
  obtain ⟨text, r, d', ht, e, ⟨f, rfl⟩ | ⟨reply, f, rfl⟩⟩ :=
    Device.Command.catch_spec os c d hr.holds_inv.unlocked hc hq
  · exact ⟨text, 0, d', ht, e, Or.inl ⟨f.log_eq, rfl⟩⟩
  · refine ⟨text, _, d', ht, e, Or.inr ⟨reply, f.log_eq, ?_, ?_⟩⟩
    · intro n hn hlo hhi
      rw [stoi_of_leadingInt _ n hn hlo hhi]
      rfl
    · intro hnone
      cases hs : stoi (SerialPort.stringOf reply) with
      | none => rfl
      | some v => exact absurd (leadingInt_of_stoi _ v hs).1 (hnone v)

set_option maxRecDepth 8192 in
theorem catch_counter_modulo_witness :
    (∃ text k d', Command.catchMouseSide1.text = some text
      ∧ Command.catchMouseSide1.run (streamOS [50, 53, 54]) connectedDevice = some (.u8 k, d')
      ∧ ((d'.serialPort.log = connectedDevice.serialPort.log
              ++ [.write (SerialPort.bytesOf text) false]
            ∧ k = 0)
         ∨ ∃ reply, d'.serialPort.log = connectedDevice.serialPort.log
               ++ [.write (SerialPort.bytesOf text) true, .read 1024 reply]
             ∧ (∀ n, LeadingInt (SerialPort.stringOf reply) n → -2147483648 ≤ n →
                  n ≤ 2147483647 → k = (n % 256).toNat)
             ∧ ((∀ n, ¬ LeadingInt (SerialPort.stringOf reply) n) → k = 0)))
    ∧ LeadingInt "256" 256 ∧ LeadingInt "-1" (-1)
    ∧ (Command.catchMouseSide1.run (streamOS [50, 53, 54]) connectedDevice).map
        (fun x => (x.1, x.2.serialPort.log.drop connectedDevice.serialPort.log.length))
      = some (.u8 0,
          [.write (SerialPort.bytesOf "km.catch_ms1()\r") true, .read 1024 [50, 53, 54]])
    ∧ SerialPort.stringOf [50, 53, 54] = "256" ∧ SerialPort.stringOf [45, 49] = "-1"
    ∧ (Command.catchMouseSide1.run (streamOS [45, 49]) connectedDevice).map (·.1)
      = some (.u8 255)
    ∧ (Command.catchMouseSide1.run (streamOS [120]) connectedDevice).map (·.1) = some (.u8 0)
    ∧ (Command.catchMouseSide1.run (streamOS [48]) connectedDevice).map (·.1) = some (.u8 0) :=
  ⟨catch_counter_modulo (streamOS [50, 53, 54]) .catchMouseSide1 connectedDevice
      connectedDevice_reachable (by decide) (by decide),
   ⟨[], [], ['2', '5', '6'], [], by decide, by decide, by decide, by decide, by decide,
     by decide, by decide⟩,
   ⟨[], ['-'], ['1'], [], by decide, by decide, by decide, by decide, by decide, by decide,
     by decide⟩,
   by decide, by decide, by decide, by decide, by decide, by decide⟩

/-! ## Button names (C28, C29) -/

theorem toupper_of_same (a t : Char) (h : sameUpToCase a t = true)
    (ht : ¬ (97 ≤ t.toNat ∧ t.toNat ≤ 122)) : toupper a = t := by
  simp only [sameUpToCase, isAsciiLetter, Bool.or_eq_true, Bool.and_eq_true, beq_iff_eq,
    decide_eq_true_eq] at h
  unfold toupper
  rcases h with rfl | ⟨⟨ha, hb⟩, hd⟩
  · simp [ht]
  · have h1 : t.toNat + 32 = a.toNat := by omega
    have h2 : 97 ≤ a.toNat ∧ a.toNat ≤ 122 := by omega
    rw [if_pos h2]
    have h3 : a.toNat - 32 = t.toNat := by omega
    rw [h3, Char.ofNat_toNat]

theorem toNat_ofNat_small (n : Nat) (h : n < 55296) : (Char.ofNat n).toNat = n := by
  have hv : n.isValidChar := Or.inl h
  unfold Char.ofNat
  rw [dif_pos hv]
  simp [Char.ofNatAux, Char.toNat, UInt32.toNat]

theorem same_toupper (a : Char) : sameUpToCase a (toupper a) = true := by
  unfold toupper
  split_ifs with h
  · have h1 : (Char.ofNat (a.toNat - 32)).toNat = a.toNat - 32 :=
      toNat_ofNat_small _ (by omega)
    simp only [sameUpToCase, isAsciiLetter, h1, Bool.or_eq_true, Bool.and_eq_true, beq_iff_eq,
      decide_eq_true_eq]
    right
    omega
  · simp [sameUpToCase]

theorem map_toupper_of_eqUpToCase (s t : List Char) (h : eqUpToCase s t = true)
    (ht : ∀ c ∈ t, ¬ (97 ≤ c.toNat ∧ c.toNat ≤ 122)) : s.map toupper = t := by
  induction s generalizing t with
  | nil =>
    cases t with
    | nil => rfl
    | cons b t => simp [eqUpToCase] at h
  | cons a s ih =>
    cases t with
    | nil => simp [eqUpToCase] at h
    | cons b t =>
      simp only [eqUpToCase, Bool.and_eq_true] at h
      simp only [List.map_cons]
      rw [toupper_of_same a b h.1 (ht b (List.mem_cons_self _ _)),
        ih t h.2 (fun c hc => ht c (List.mem_cons_of_mem _ hc))]

theorem eqUpToCase_map_toupper (s : List Char) : eqUpToCase s (s.map toupper) = true := by
  induction s with
  | nil => rfl
  | cons a s ih => simp [eqUpToCase, same_toupper, ih]

theorem mouseButtonToString_upper (b : MouseButton) :
    ∀ c ∈ (mouseButtonToString b).toList, ¬ (97 ≤ c.toNat ∧ c.toNat ≤ 122) := by
  cases b <;> decide

/-- C28: `stringToMouseButton` is a left inverse of `mouseButtonToString` up to
ASCII letter case: for every button `b` and every text `s` that equals
`mouseButtonToString(b)` up to ASCII letter case, `stringToMouseButton(s)` is
`b`; and `mouseButtonToString` gives five different names. -/
theorem stringToMouseButton_left_inverse (b : MouseButton) (s : String)
    (h : eqUpToCase s.toList (mouseButtonToString b).toList = true) :
    stringToMouseButton s = b
      ∧ stringToMouseButton (mouseButtonToString b) = b
      ∧ (∀ b2, mouseButtonToString b2 = mouseButtonToString b → b2 = b) := by
  have hm := map_toupper_of_eqUpToCase _ _ h (mouseButtonToString_upper b)
  refine ⟨?_, ?_, ?_⟩
  · unfold stringToMouseButton
    simp only [hm]
    cases b <;> decide
  · cases b <;> decide
  · intro b2
    cases b <;> cases b2 <;> decide

theorem stringToMouseButton_left_inverse_witness :
    eqUpToCase "miDdle".toList (mouseButtonToString .MIDDLE).toList = true
    ∧ (stringToMouseButton "miDdle" = .MIDDLE
      ∧ stringToMouseButton (mouseButtonToString .MIDDLE) = .MIDDLE
      ∧ (∀ b2, mouseButtonToString b2 = mouseButtonToString .MIDDLE → b2 = .MIDDLE)) :=
  ⟨by decide, stringToMouseButton_left_inverse .MIDDLE "miDdle" (by decide)⟩

/-- C29: for every text that is not, up to ASCII letter case, one of the five
names `LEFT`, `RIGHT`, `MIDDLE`, `SIDE1`, `SIDE2` (the empty text and names with
surrounding white space among them), `stringToMouseButton` returns `LEFT`, the
value it returns for the name `left`: the result does not show that the name
was unknown. -/
theorem stringToMouseButton_unknown (s : String)
    (h : ∀ b, eqUpToCase s.toList (mouseButtonToString b).toList = false) :
    stringToMouseButton s = .LEFT ∧ stringToMouseButton s = stringToMouseButton "left" := by
  have key : ∀ b, String.mk (s.toList.map toupper) ≠ mouseButtonToString b := by
    intro b he
    have h1 := eqUpToCase_map_toupper s.toList
    have h2 : s.toList.map toupper = (mouseButtonToString b).toList := by
      rw [← he]
      rfl
    rw [h2, h b] at h1
    cases h1
  have hl : stringToMouseButton s = .LEFT := by
    unfold stringToMouseButton
    have k1 := key .LEFT
    have k2 := key .RIGHT
    have k3 := key .MIDDLE
    have k4 := key .SIDE1
    have k5 := key .SIDE2
    simp only [mouseButtonToString] at k1 k2 k3 k4 k5
    simp only [k1, k2, k3, k4, k5, if_false]
  exact ⟨hl, hl.trans (by decide)⟩

theorem stringToMouseButton_unknown_witness :
    (∀ b, eqUpToCase " right ".toList (mouseButtonToString b).toList = false)
    ∧ (stringToMouseButton " right " = .LEFT
      ∧ stringToMouseButton " right " = stringToMouseButton "left")
    ∧ stringToMouseButton "" = .LEFT
    ∧ stringToMouseButton "side3" = .LEFT
    ∧ stringToMouseButton "right" = .RIGHT :=
  ⟨fun b => by cases b <;> decide,
   stringToMouseButton_unknown " right " (fun b => by cases b <;> decide),
   by decide, by decide, by decide⟩

/-! ## The movement sender drops the result of `mouseMove` (C22) -/

/-- Values of the `float` model: `0.7f * 10.0f` is `7.0f` after rounding and
converts to 7 (its negative to -7), `3.5f` converts to 3 and `-4.5f` to -4, and
`3e9f`, which is outside the range of `int`, converts to `INT_MIN`. -/
theorem float_conversion_examples :
    CFloat.mul (.finite false 11744051 (-24)) (.finite false 5 1) = .finite false 14680064 (-21)
    ∧ (CFloat.mul (.finite false 11744051 (-24)) (.finite false 5 1)).toInt = 7
    ∧ (CFloat.mul (.finite true 11744051 (-24)) (.finite false 5 1)).toInt = -7
    ∧ (CFloat.finite false 7 (-1)).toInt = 3
    ∧ (CFloat.finite true 9 (-1)).toInt = -4
    ∧ (CFloat.finite false 11718750 8).toInt = -2147483648
    ∧ (CFloat.inf true).toInt = -2147483648 := by
  decide

set_option maxRecDepth 8192 in
theorem connectedSenderDevice_reachable : Reachable connectedSenderDevice :=
  ⟨okOS, 0, 0, [.connect oneDeviceHost "COM3", .command .getVersion], by decide⟩

/-- C22: `USBSender::send_mouse_movement` on a sender that is connected to a
reachable connected `Device` returns true on every host, whatever
`Device::mouseMove` returned: the call makes the one Transport write of the
move command, with result `ok`, `mouseMove` returns `ok`, and
`send_mouse_movement` drops that value and returns true. So it returns success
also when the write failed and the movement was not sent. -/
theorem send_mouse_movement_drops_result (os : OS) (g_config : AppConfig) (u : USBSender)
    (dev : Impl) (movement : Point2f) (hd : u.device_ = some dev) (hu : u.connected_ = true)
    (hr : Reachable dev) (hc : isConnected dev = true) :
    ∃ ok dev' data,
      mouseMove os (movement.x.mul g_config.mouse_sensitivity).toInt
          (movement.y.mul g_config.mouse_sensitivity).toInt dev = some (ok, dev')
      ∧ dev'.serialPort.log = dev.serialPort.log ++ [.write data ok]
      ∧ u.send_mouse_movement os g_config movement
          = some (true, { u with device_ := some dev' }) := by
  have hc' : dev.connected = true := hc
  obtain ⟨ok, dev', e, f⟩ := Device.sendRawCommand_spec os
    ("km.move(" ++ ostreamInt (movement.x.mul g_config.mouse_sensitivity).toInt ++ ","
      ++ ostreamInt (movement.y.mul g_config.mouse_sensitivity).toInt ++ ")\r") dev
    hr.holds_inv.unlocked hc'
  have hm : mouseMove os (movement.x.mul g_config.mouse_sensitivity).toInt
      (movement.y.mul g_config.mouse_sensitivity).toInt dev = some (ok, dev') := by
    simp only [mouseMove, hc', Bool.not_true, Bool.false_eq_true, if_false]
    exact e
  refine ⟨ok, dev', _, hm, f.log_eq, ?_⟩
  simp [USBSender.send_mouse_movement, hd, hu, hc, hm]

set_option maxRecDepth 8192 in
theorem send_mouse_movement_drops_result_witness :
    (∃ ok dev' data,
      mouseMove failOS
          (CFloat.mul (.finite false 7 (-1))
            (AppConfig.mk (.finite false 1 0)).mouse_sensitivity).toInt
          (CFloat.mul (.finite true 9 (-1))
            (AppConfig.mk (.finite false 1 0)).mouse_sensitivity).toInt
          connectedSenderDevice = some (ok, dev')
      ∧ dev'.serialPort.log = connectedSenderDevice.serialPort.log ++ [.write data ok]
      ∧ connectedSender.send_mouse_movement failOS ⟨.finite false 1 0⟩
          ⟨.finite false 7 (-1), .finite true 9 (-1)⟩
          = some (true, { connectedSender with device_ := some dev' }))
    ∧ connectedSender.is_connected = true
    ∧ (mouseMove failOS 3 (-4) connectedSenderDevice).map
        (fun x => (x.1, x.2.serialPort.log.drop connectedSenderDevice.serialPort.log.length))
      = some (false, [.write (SerialPort.bytesOf "km.move(3,-4)\r") false])
    ∧ (connectedSender.send_mouse_movement failOS ⟨.finite false 1 0⟩
          ⟨.finite false 7 (-1), .finite true 9 (-1)⟩).map
        (fun x => (x.1, x.2.device_.map (fun d =>
          d.serialPort.log.drop connectedSenderDevice.serialPort.log.length)))
      = some (true, some [.write (SerialPort.bytesOf "km.move(3,-4)\r") false]) :=
  ⟨send_mouse_movement_drops_result failOS ⟨.finite false 1 0⟩ connectedSender
      connectedSenderDevice ⟨.finite false 7 (-1), .finite true 9 (-1)⟩ (by decide) (by decide)
      connectedSenderDevice_reachable (by decide),
   by decide, by decide, by decide⟩

end makcu
